import Mathlib

/-!
Breakout: collision and game-state engine.

A shallow embedding of `examples/breakout/game.cpp` (the `Game` class, its
collision free functions and its power-up handling) together with theorems
about it.

Conventions of the embedding.

* `float` values are real numbers: the arithmetic of the program is read
  exactly, without rounding, overflow or infinities.  `glm::length` is the
  square root of the dot product and `glm::normalize v` is
  `v * inversesqrt (dot v v)`.  At the zero vector the program's
  `glm::normalize` is `0 * inf`, not a number; the embedding's value there is
  the zero vector, and every statement about a normalised vector says which of
  the two cases it is about.
* `unsigned int` values are natural numbers, reduced modulo `2 ^ 32` where the
  program can wrap (`--Lives`, `--Level`, `best_match = -1`).
* The one place where the program converts a `float` to an `int`, the
  unqualified `abs` of the paddle phase, is embedded as the truncation toward
  zero (`floatToInt`, `absInt`).
* The file-scope pointers `Player`, `Ball`, `Effects` and the file-scope
  `ShakeTime` of `game.cpp` are fields of the `Game` record, as is the hidden
  state of the C library's `rand`.
* Rendering, particles, textures and text do not act on the state that the
  program's logic reads and are left out.
-/

noncomputable section

namespace Breakout

/-! ## Vectors (glm) -/

/-- The type `glm::vec2`. -/
@[ext]
structure Vec2 where
  x : ℝ
  y : ℝ

/-- The type `glm::vec3`, used for colours only. -/
@[ext]
structure Vec3 where
  r : ℝ
  g : ℝ
  b : ℝ

namespace Vec2

/-- Component-wise sum, `a + b`. -/
def add (a b : Vec2) : Vec2 := ⟨a.x + b.x, a.y + b.y⟩

/-- Component-wise difference, `a - b`. -/
def sub (a b : Vec2) : Vec2 := ⟨a.x - b.x, a.y - b.y⟩

/-- Vector plus scalar, `v + s` (glm adds the scalar to both components). -/
def addScalar (v : Vec2) (s : ℝ) : Vec2 := ⟨v.x + s, v.y + s⟩

/-- Vector times scalar, `v * s`. -/
def scale (v : Vec2) (s : ℝ) : Vec2 := ⟨v.x * s, v.y * s⟩

/-- Unary minus, `-v`. -/
def neg (v : Vec2) : Vec2 := ⟨-v.x, -v.y⟩

/-- The function `glm::dot`. -/
def dot (a b : Vec2) : ℝ := a.x * b.x + a.y * b.y

/-- The function `glm::length`: `sqrt (dot v v)`. -/
def length (v : Vec2) : ℝ := Real.sqrt (dot v v)

/-- The function `glm::normalize`: `v * inversesqrt (dot v v)`.  For the zero
vector the program computes `0 * inf` (not a number); the value here is then
the zero vector, because `1 / 0 = 0` in Lean. -/
def normalize (v : Vec2) : Vec2 := scale v (1 / Real.sqrt (dot v v))

/-- The function `glm::clamp` on vectors: component-wise
`min (max x minVal) maxVal`. -/
def clamp (v lo hi : Vec2) : Vec2 := ⟨min (max v.x lo.x) hi.x, min (max v.y lo.y) hi.y⟩

end Vec2

/-! ## Entities -/

/-- The class `GameObject` (a box); the sprite is left out. -/
structure GameObject where
  Position : Vec2
  Size : Vec2
  Velocity : Vec2
  Color : Vec3
  Rotation : ℝ
  IsSolid : Bool
  Destroyed : Bool

/-- The class `BallObject`: a `GameObject` with a radius and three flags. -/
structure BallObject extends GameObject where
  Radius : ℝ
  Stuck : Bool
  Sticky : Bool
  PassThrough : Bool

/-- The class `PowerUp`: a `GameObject` with its `Type` string (`TypeName`), a remaining duration
and the `Activated` flag. -/
structure PowerUp extends GameObject where
  TypeName : String
  Duration : ℝ
  Activated : Bool

/-- The class `GameLevel`: the bricks of one level. -/
structure GameLevel where
  Bricks : List GameObject

/-- The flags of `PostProcessor` that the game logic reads and writes. -/
structure PostProcessor where
  Confuse : Bool
  Chaos : Bool
  Shake : Bool

/-- The enumeration `GameState`. -/
inductive GameState where
  | GAME_ACTIVE
  | GAME_MENU
  | GAME_WIN
  deriving DecidableEq, Repr

/-- The enumeration `Direction`, by its underlying unsigned value: `VectorDirection`
returns `(Direction)best_match` for an `unsigned int best_match`. -/
abbrev Direction := Nat

/-- The enumerator `UP`. -/
def UP : Direction := 0
/-- The enumerator `RIGHT`. -/
def RIGHT : Direction := 1
/-- The enumerator `DOWN`. -/
def DOWN : Direction := 2
/-- The enumerator `LEFT`. -/
def LEFT : Direction := 3

/-- The tuple type `Collision`: hit, direction, difference vector. -/
abbrev Collision := Bool × Direction × Vec2

/-! ## Collision detection -/

/-- The function `CheckCollision (GameObject&, GameObject&)`: AABB - AABB. -/
def CheckCollision (one two : GameObject) : Bool :=
  let collisionX : Bool :=
    decide (one.Position.x + one.Size.x ≥ two.Position.x) &&
      decide (two.Position.x + two.Size.x ≥ one.Position.x)
  let collisionY : Bool :=
    decide (one.Position.y + one.Size.y ≥ two.Position.y) &&
      decide (two.Position.y + two.Size.y ≥ one.Position.y)
  collisionX && collisionY

/-- The array `compass` of `VectorDirection`: up, right, down, left. -/
def compass : List Vec2 := [⟨0, 1⟩, ⟨1, 0⟩, ⟨0, -1⟩, ⟨-1, 0⟩]

/-- One pass of the loop body of `VectorDirection` at index `i` with compass
entry `c`, on the pair `(max, best_match)`. -/
def VectorDirectionStep (target : Vec2) (acc : ℝ × Nat) (ic : Nat × Vec2) : ℝ × Nat :=
  let dot_product := Vec2.dot (Vec2.normalize target) ic.2
  if dot_product > acc.1 then (dot_product, ic.1) else acc

/-- The function `VectorDirection`: `max` starts at `0`, `best_match` at
`(unsigned)-1`, and the loop runs over the indices `0 .. 3`. -/
def VectorDirection (target : Vec2) : Direction :=
  ((compass.enum).foldl (VectorDirectionStep target) ((0 : ℝ), 2 ^ 32 - 1)).2

/-- The function `CheckCollision (BallObject&, GameObject&)`: AABB - circle. -/
def CheckCollisionBall (one : BallObject) (two : GameObject) : Collision :=
  let center : Vec2 := Vec2.addScalar one.Position one.Radius
  let aabb_half_extents : Vec2 := ⟨two.Size.x / 2, two.Size.y / 2⟩
  let aabb_center : Vec2 :=
    ⟨two.Position.x + aabb_half_extents.x, two.Position.y + aabb_half_extents.y⟩
  let difference : Vec2 := Vec2.sub center aabb_center
  let clamped : Vec2 := Vec2.clamp difference (Vec2.neg aabb_half_extents) aabb_half_extents
  let closest : Vec2 := Vec2.add aabb_center clamped
  let difference : Vec2 := Vec2.sub closest center
  if Vec2.length difference < one.Radius then
    (true, VectorDirection difference, difference)
  else
    (false, UP, ⟨0, 0⟩)

/-! ## Constants and collaborators that are not among the sources -/

/-- The constants of `game.h` and `powerUp.h` and the member functions
`GameLevel::Load`, `BallObject::Move` and `BallObject::Reset`: they are used by
`game.cpp` but their definitions are not among the sources, so the embedding
takes them as parameters.  `Load i w h` stands for the bricks that loading the
file of level `i` with width `w` and height `h` produces; `POWERUP_VELOCITY` is
the constant `VELOCITY` of `powerUp.h`. -/
structure Config where
  PLAYER_SIZE : Vec2
  PLAYER_VELOCITY : ℝ
  INITIAL_BALL_VELOCITY : Vec2
  BALL_RADIUS : ℝ
  POWERUP_SIZE : Vec2
  POWERUP_VELOCITY : Vec2
  Load : Nat → Nat → Nat → List GameObject
  Move : BallObject → ℝ → Nat → BallObject
  Reset : BallObject → Vec2 → Vec2 → BallObject

/-- The GLFW key code `GLFW_KEY_ENTER`. -/
def GLFW_KEY_ENTER : Nat := 257
/-- The GLFW key code `GLFW_KEY_W`. -/
def GLFW_KEY_W : Nat := 87
/-- The GLFW key code `GLFW_KEY_S`. -/
def GLFW_KEY_S : Nat := 83
/-- The GLFW key code `GLFW_KEY_A`. -/
def GLFW_KEY_A : Nat := 65
/-- The GLFW key code `GLFW_KEY_D`. -/
def GLFW_KEY_D : Nat := 68
/-- The GLFW key code `GLFW_KEY_SPACE`. -/
def GLFW_KEY_SPACE : Nat := 32

/-- The GLFW action `GLFW_RELEASE`. -/
def GLFW_RELEASE : Int := 0
/-- The GLFW action `GLFW_PRESS`. -/
def GLFW_PRESS : Int := 1

/-- The colour `glm::vec3 (1.0f)`. -/
def white : Vec3 := ⟨1, 1, 1⟩

/-- Modelled from the spec: the constructor of `PowerUp` (`powerUp.h` is not
among the sources).  A power-up is created at the given position with the fixed
size and fall velocity, not destroyed and not activated. -/
def PowerUp.new (cfg : Config) (type : String) (color : Vec3) (duration : ℝ)
    (position : Vec2) : PowerUp :=
  { Position := position, Size := cfg.POWERUP_SIZE, Velocity := cfg.POWERUP_VELOCITY,
    Color := color, Rotation := 0, IsSolid := false, Destroyed := false,
    TypeName := type, Duration := duration, Activated := false }

/-- Modelled from the spec: `GameLevel::IsCompleted` (`gameLevel.cpp` is not
among the sources; `gameLevel.h` documents it as "all non-solid tiles are
destroyed").  True exactly when every non-solid brick is destroyed. -/
def GameLevel.IsCompleted (l : GameLevel) : Bool :=
  l.Bricks.all (fun tile => tile.IsSolid || tile.Destroyed)

/-! ## The game -/

/-- The class `Game`, with the file-scope state of `game.cpp` (`Player`, `Ball`,
`Effects`, `ShakeTime`) and the state of `rand`: `RandSeq` is the sequence of
values `rand ()` returns and `RandPos` the number of draws made so far. -/
structure Game where
  State : GameState
  Keys : Nat → Bool
  KeysProcessed : Nat → Bool
  Width : Nat
  Height : Nat
  Levels : List GameLevel
  PowerUps : List PowerUp
  Level : Nat
  Lives : Nat
  Player : GameObject
  Ball : BallObject
  Effects : PostProcessor
  ShakeTime : ℝ
  RandSeq : Nat → Nat
  RandPos : Nat

/-- Writes one entry of a key table. -/
def setKey (keys : Nat → Bool) (key : Nat) (b : Bool) : Nat → Bool :=
  fun k => if k = key then b else keys k

/-- The expression `this->Levels[this->Level]`; an index outside the vector is
undefined in the program and reads as a level without bricks here. -/
def Game.currentLevel (g : Game) : GameLevel := g.Levels.getD g.Level ⟨[]⟩

/-- Writes the bricks of `this->Levels[this->Level]`. -/
def Game.setBricks (g : Game) (bricks : List GameObject) : Game :=
  { g with Levels := g.Levels.set g.Level ⟨bricks⟩ }

/-! ### Power-ups -/

/-- The call `rand ()`: the next value of the sequence. -/
def rand (g : Game) : Nat × Game :=
  (g.RandSeq g.RandPos, { g with RandPos := g.RandPos + 1 })

/-- The function `ShouldSpawn`: `rand () % chance == 0`. -/
def ShouldSpawn (g : Game) (chance : Nat) : Bool × Game :=
  let r := rand g
  (decide (r.1 % chance = 0), r.2)

/-- One statement `if (ShouldSpawn (chance)) this->PowerUps.push_back (p);`. -/
def spawnIf (g : Game) (chance : Nat) (p : PowerUp) : Game :=
  let r := ShouldSpawn g chance
  if r.1 then { r.2 with PowerUps := r.2.PowerUps ++ [p] } else r.2

/-- The function `Game::SpawnPowerUps`. -/
def SpawnPowerUps (cfg : Config) (g : Game) (block : GameObject) : Game :=
  let g := spawnIf g 75 (PowerUp.new cfg "speed" ⟨0.5, 0.5, 1.0⟩ 0 block.Position)
  let g := spawnIf g 75 (PowerUp.new cfg "sticky" ⟨1.0, 0.5, 1.0⟩ 20 block.Position)
  let g := spawnIf g 75 (PowerUp.new cfg "pass-through" ⟨0.5, 1.0, 0.5⟩ 10 block.Position)
  let g := spawnIf g 75 (PowerUp.new cfg "pad-size-increase" ⟨1.0, 0.6, 0.4⟩ 0 block.Position)
  let g := spawnIf g 15 (PowerUp.new cfg "confuse" ⟨1.0, 0.3, 0.3⟩ 15 block.Position)
  spawnIf g 15 (PowerUp.new cfg "chaos" ⟨0.9, 0.25, 0.25⟩ 15 block.Position)

/-- The function `ActivatePowerUp`. -/
def ActivatePowerUp (g : Game) (powerUp : PowerUp) : Game :=
  if powerUp.TypeName = "speed" then
    { g with Ball := { g.Ball with Velocity := Vec2.scale g.Ball.Velocity 1.2 } }
  else if powerUp.TypeName = "sticky" then
    { g with Ball := { g.Ball with Sticky := true },
             Player := { g.Player with Color := ⟨1.0, 0.5, 1.0⟩ } }
  else if powerUp.TypeName = "pass-through" then
    { g with Ball := { g.Ball with PassThrough := true, Color := ⟨1.0, 0.5, 0.5⟩ } }
  else if powerUp.TypeName = "pad-size-increase" then
    { g with Player := { g.Player with Size := ⟨g.Player.Size.x + 50, g.Player.Size.y⟩ } }
  else if powerUp.TypeName = "confuse" then
    if !g.Effects.Chaos then { g with Effects := { g.Effects with Confuse := true } } else g
  else if powerUp.TypeName = "chaos" then
    if !g.Effects.Confuse then { g with Effects := { g.Effects with Chaos := true } } else g
  else g

/-- The function `IsOtherPowerUpActive`: some power-up of the list is
`Activated` and has the given type. -/
def IsOtherPowerUpActive (powerUps : List PowerUp) (type : String) : Bool :=
  powerUps.any (fun powerUp => powerUp.Activated && decide (powerUp.TypeName = type))

/-- The deactivation of the effect of an expired power-up of the given type, in
the body of the loop of `Game::UpdatePowerUps`; `g.PowerUps` is the list as it
stands at that moment, the expired power-up already written back. -/
def deactivateEffect (g : Game) (type : String) : Game :=
  if type = "sticky" then
    if !IsOtherPowerUpActive g.PowerUps "sticky" then
      { g with Ball := { g.Ball with Sticky := false },
               Player := { g.Player with Color := white } }
    else g
  else if type = "pass-through" then
    if !IsOtherPowerUpActive g.PowerUps "pass-through" then
      { g with Ball := { g.Ball with PassThrough := false, Color := white } }
    else g
  else if type = "confuse" then
    if !IsOtherPowerUpActive g.PowerUps "confuse" then
      { g with Effects := { g.Effects with Confuse := false } }
    else g
  else if type = "chaos" then
    if !IsOtherPowerUpActive g.PowerUps "chaos" then
      { g with Effects := { g.Effects with Chaos := false } }
    else g
  else g

/-- The body of the loop of `Game::UpdatePowerUps` for the power-up of index `i`
(the loop runs over references into `this->PowerUps`, and
`IsOtherPowerUpActive` reads the whole vector as it stands). -/
def UpdatePowerUpsStep (dt : ℝ) (g : Game) (i : Nat) : Game :=
  match g.PowerUps[i]? with
  | none => g
  | some powerUp =>
    let moved : PowerUp :=
      { powerUp with Position := Vec2.add powerUp.Position (Vec2.scale powerUp.Velocity dt) }
    if moved.Activated then
      let ticked : PowerUp := { moved with Duration := moved.Duration - dt }
      if ticked.Duration ≤ 0 then
        let expired : PowerUp := { ticked with Activated := false }
        deactivateEffect { g with PowerUps := g.PowerUps.set i expired } expired.TypeName
      else { g with PowerUps := g.PowerUps.set i ticked }
    else { g with PowerUps := g.PowerUps.set i moved }

/-- The loop of `Game::UpdatePowerUps`, over the indices of `this->PowerUps`. -/
def UpdatePowerUpsLoop (dt : ℝ) (g : Game) : Game :=
  (List.range g.PowerUps.length).foldl (UpdatePowerUpsStep dt) g

/-- The function `Game::UpdatePowerUps`: the loop, then the removal of every
power-up that is destroyed and not activated (`erase` of `remove_if`, which
keeps the order of the others). -/
def UpdatePowerUps (g : Game) (dt : ℝ) : Game :=
  let g1 := UpdatePowerUpsLoop dt g
  { g1 with PowerUps :=
      g1.PowerUps.filter (fun powerUp => !(powerUp.Destroyed && !powerUp.Activated)) }

/-! ### Collisions -/

/-- The collision resolution of `Game::DoCollisions` for one brick hit: the
velocity component of the hit axis is reversed and the ball is moved out by
`Radius - |diff|` on that axis. -/
def resolveBrickHit (ball : BallObject) (dir : Direction) (diff_vector : Vec2) : BallObject :=
  if dir = LEFT ∨ dir = RIGHT then
    let penetration := ball.Radius - |diff_vector.x|
    if dir = LEFT then
      { ball with Velocity := ⟨-ball.Velocity.x, ball.Velocity.y⟩,
                  Position := ⟨ball.Position.x + penetration, ball.Position.y⟩ }
    else
      { ball with Velocity := ⟨-ball.Velocity.x, ball.Velocity.y⟩,
                  Position := ⟨ball.Position.x - penetration, ball.Position.y⟩ }
  else
    let penetration := ball.Radius - |diff_vector.y|
    if dir = UP then
      { ball with Velocity := ⟨ball.Velocity.x, -ball.Velocity.y⟩,
                  Position := ⟨ball.Position.x, ball.Position.y - penetration⟩ }
    else
      { ball with Velocity := ⟨ball.Velocity.x, -ball.Velocity.y⟩,
                  Position := ⟨ball.Position.x, ball.Position.y + penetration⟩ }

/-- The body of the first loop of `Game::DoCollisions` for one brick: the new
game state and the brick as the loop leaves it. -/
def DoCollisionsBrick (cfg : Config) (g : Game) (box : GameObject) : Game × GameObject :=
  if !box.Destroyed then
    let collision := CheckCollisionBall g.Ball box
    if collision.1 then
      let hit : Game × GameObject :=
        if !box.IsSolid then
          (SpawnPowerUps cfg g { box with Destroyed := true }, { box with Destroyed := true })
        else
          ({ g with ShakeTime := 0.05, Effects := { g.Effects with Shake := true } }, box)
      let dir := collision.2.1
      let diff_vector := collision.2.2
      if !(hit.1.Ball.PassThrough && !box.IsSolid) then
        ({ hit.1 with Ball := resolveBrickHit hit.1.Ball dir diff_vector }, hit.2)
      else hit
    else (g, box)
  else (g, box)

/-- The first loop of `Game::DoCollisions` over a list of bricks, in order. -/
def DoCollisionsBricksLoop (cfg : Config) : Game → List GameObject → Game × List GameObject
  | g, [] => (g, [])
  | g, box :: rest =>
    let r := DoCollisionsBrick cfg g box
    let rs := DoCollisionsBricksLoop cfg r.1 rest
    (rs.1, r.2 :: rs.2)

/-- The first loop of `Game::DoCollisions`: ball against the bricks of the
current level. -/
def DoCollisionsBricks (cfg : Config) (g : Game) : Game :=
  let r := DoCollisionsBricksLoop cfg g g.currentLevel.Bricks
  r.1.setBricks r.2

/-- The body of the second loop of `Game::DoCollisions` for one power-up. -/
def DoCollisionsPowerUp (g : Game) (powerUp : PowerUp) : Game × PowerUp :=
  if !powerUp.Destroyed then
    let fallen : PowerUp :=
      if powerUp.Position.y ≥ (g.Height : ℝ) then { powerUp with Destroyed := true } else powerUp
    if CheckCollision g.Player fallen.toGameObject then
      (ActivatePowerUp g fallen, { fallen with Destroyed := true, Activated := true })
    else (g, fallen)
  else (g, powerUp)

/-- The second loop of `Game::DoCollisions` over a list of power-ups, in order. -/
def DoCollisionsPowerUpsLoop : Game → List PowerUp → Game × List PowerUp
  | g, [] => (g, [])
  | g, powerUp :: rest =>
    let r := DoCollisionsPowerUp g powerUp
    let rs := DoCollisionsPowerUpsLoop r.1 rest
    (rs.1, r.2 :: rs.2)

/-- The second loop of `Game::DoCollisions`: paddle against the power-ups. -/
def DoCollisionsPowerUps (g : Game) : Game :=
  let r := DoCollisionsPowerUpsLoop g g.PowerUps
  { r.1 with PowerUps := r.2 }

/-- The fraction `percentage` of the paddle phase of `Game::DoCollisions`. -/
def paddlePercentage (ball : BallObject) (player : GameObject) : ℝ :=
  let centerBoard := player.Position.x + player.Size.x / 2
  let distance := (ball.Position.x + ball.Radius) - centerBoard
  distance / (player.Size.x / 2)

/-- The vector that the paddle phase of `Game::DoCollisions` normalises: the
ball's velocity after `Ball->Velocity.x = INITIAL_BALL_VELOCITY.x * percentage * strength`. -/
def paddleAimed (cfg : Config) (ball : BallObject) (player : GameObject) : Vec2 :=
  let strength : ℝ := 2
  ⟨cfg.INITIAL_BALL_VELOCITY.x * paddlePercentage ball player * strength, ball.Velocity.y⟩

/-- The conversion of a `float` to `int`: the value is truncated toward zero.
(Outside the range of `int` the conversion is undefined in the program; the
statements about it below are about values within that range.) -/
def floatToInt (x : ℝ) : Int := if 0 ≤ x then ⌊x⌋ else ⌈x⌉

/-- The unqualified call `abs (Ball->Velocity.y)` of the paddle phase of
`Game::DoCollisions`.  The brick phase calls `std::abs`; this call names `abs`
without `std::`, and the headers that `game.cpp` includes (`<algorithm>`,
`<sstream>`, `<iostream>`, glm and the project's own) declare in the global
namespace, with the GNU C++ library, only the `int abs (int)` of the C library.
The `float` argument is therefore converted to `int`, and the `int` result back
to `float` by the multiplication with `-1.0f`. -/
def absInt (x : ℝ) : ℝ := ((floatToInt x).natAbs : ℝ)

/-- The velocity of the paddle phase of `Game::DoCollisions` after
`Ball->Velocity = glm::normalize (Ball->Velocity) * glm::length (oldVelocity)`:
the aimed vector normalised and scaled by the length of the old velocity. -/
def paddleScaled (cfg : Config) (ball : BallObject) (player : GameObject) : Vec2 :=
  let oldVelocity := ball.Velocity
  Vec2.scale (Vec2.normalize (paddleAimed cfg ball player)) (Vec2.length oldVelocity)

/-- The velocity that the paddle phase of `Game::DoCollisions` leaves: the
scaled vector with the vertical component replaced by `-1.0f * abs` of itself,
`abs` being the call described at `absInt`. -/
def paddleVelocity (cfg : Config) (ball : BallObject) (player : GameObject) : Vec2 :=
  let v := paddleScaled cfg ball player
  ⟨v.x, -1 * absInt v.y⟩

/-- The last part of `Game::DoCollisions`: ball against the paddle. -/
def DoCollisionsPaddle (cfg : Config) (g : Game) : Game :=
  let result := CheckCollisionBall g.Ball g.Player
  if !g.Ball.Stuck && result.1 then
    { g with Ball := { g.Ball with Velocity := paddleVelocity cfg g.Ball g.Player,
                                   Stuck := g.Ball.Sticky } }
  else g

/-- The function `Game::DoCollisions`. -/
def DoCollisions (cfg : Config) (g : Game) : Game :=
  DoCollisionsPaddle cfg (DoCollisionsPowerUps (DoCollisionsBricks cfg g))

/-! ### Resets -/

/-- The function `Game::ResetLevel`: the current level is loaded again and
`Lives` is set to 3. -/
def ResetLevel (cfg : Config) (g : Game) : Game :=
  let levels : List GameLevel :=
    if g.Level = 0 then g.Levels.set 0 ⟨cfg.Load 0 g.Width (g.Height / 2)⟩
    else if g.Level = 1 then g.Levels.set 1 ⟨cfg.Load 1 g.Width (g.Height / 2)⟩
    else if g.Level = 2 then g.Levels.set 2 ⟨cfg.Load 2 g.Width (g.Height / 2)⟩
    else if g.Level = 3 then g.Levels.set 3 ⟨cfg.Load 3 g.Width (g.Height / 2)⟩
    else g.Levels
  { g with Levels := levels, Lives := 3 }

/-- The start position of the paddle: `(Width / 2 - PLAYER_SIZE.x / 2, Height - PLAYER_SIZE.y)`. -/
def playerStart (cfg : Config) (g : Game) : Vec2 :=
  ⟨(g.Width : ℝ) / 2 - cfg.PLAYER_SIZE.x / 2, (g.Height : ℝ) - cfg.PLAYER_SIZE.y⟩

/-- The function `Game::ResetPlayer`. -/
def ResetPlayer (cfg : Config) (g : Game) : Game :=
  let player : GameObject :=
    { g.Player with Size := cfg.PLAYER_SIZE, Position := playerStart cfg g }
  let ball : BallObject :=
    cfg.Reset g.Ball
      (Vec2.add player.Position ⟨cfg.PLAYER_SIZE.x / 2 - cfg.BALL_RADIUS, -(cfg.BALL_RADIUS * 2)⟩)
      cfg.INITIAL_BALL_VELOCITY
  { g with
    Player := { player with Color := white },
    Ball := { ball with PassThrough := false, Sticky := false, Color := white },
    Effects := { g.Effects with Chaos := false, Confuse := false } }

/-! ### The tick -/

/-- The shake timer block of `Game::Update`. -/
def UpdateShake (g : Game) (dt : ℝ) : Game :=
  if g.ShakeTime > 0 then
    let g1 := { g with ShakeTime := g.ShakeTime - dt }
    if g1.ShakeTime ≤ 0 then { g1 with Effects := { g1.Effects with Shake := false } } else g1
  else g

/-- The loss check of `Game::Update`; `--this->Lives` is on an `unsigned int`. -/
def UpdateLossCheck (cfg : Config) (g : Game) : Game :=
  if g.Ball.Position.y ≥ (g.Height : ℝ) then
    let g1 := { g with Lives := (g.Lives + (2 ^ 32 - 1)) % 2 ^ 32 }
    let g2 := if g1.Lives = 0 then { ResetLevel cfg g1 with State := GameState.GAME_MENU } else g1
    ResetPlayer cfg g2
  else g

/-- The win check of `Game::Update`. -/
def UpdateWinCheck (cfg : Config) (g : Game) : Game :=
  if g.State = GameState.GAME_ACTIVE ∧ g.currentLevel.IsCompleted = true then
    let g1 := ResetPlayer cfg (ResetLevel cfg g)
    { g1 with Effects := { g1.Effects with Chaos := true }, State := GameState.GAME_WIN }
  else g

/-- The state of `Game::Update` when it reaches the loss check: the ball has
moved, the collisions are done, the power-ups and the shake timer are updated.
(The particle update in between acts on the particle generator only.) -/
def UpdateBeforeChecks (cfg : Config) (g : Game) (dt : ℝ) : Game :=
  let g1 := { g with Ball := cfg.Move g.Ball dt g.Width }
  let g2 := DoCollisions cfg g1
  let g3 := UpdatePowerUps g2 dt
  UpdateShake g3 dt

/-- The function `Game::Update`. -/
def Update (cfg : Config) (g : Game) (dt : ℝ) : Game :=
  UpdateWinCheck cfg (UpdateLossCheck cfg (UpdateBeforeChecks cfg g dt))

/-! ### Input -/

/-- The ENTER statement of the `GAME_MENU` block of `Game::ProcessInput`. -/
def ProcessInputEnter (g : Game) : Game :=
  if g.Keys GLFW_KEY_ENTER = true ∧ g.KeysProcessed GLFW_KEY_ENTER = false then
    { g with State := GameState.GAME_ACTIVE,
             KeysProcessed := setKey g.KeysProcessed GLFW_KEY_ENTER true }
  else g

/-- The W statement of the `GAME_MENU` block of `Game::ProcessInput`. -/
def ProcessInputW (g : Game) : Game :=
  if g.Keys GLFW_KEY_W = true ∧ g.KeysProcessed GLFW_KEY_W = false then
    { g with Level := (g.Level + 1) % 4,
             KeysProcessed := setKey g.KeysProcessed GLFW_KEY_W true }
  else g

/-- The S statement of the `GAME_MENU` block of `Game::ProcessInput`;
`--this->Level` is only reached with `Level > 0`. -/
def ProcessInputS (g : Game) : Game :=
  if g.Keys GLFW_KEY_S = true ∧ g.KeysProcessed GLFW_KEY_S = false then
    { g with Level := if g.Level > 0 then g.Level - 1 else 3,
             KeysProcessed := setKey g.KeysProcessed GLFW_KEY_S true }
  else g

/-- The `GAME_MENU` block of `Game::ProcessInput`. -/
def ProcessInputMenu (g : Game) : Game :=
  if g.State = GameState.GAME_MENU then ProcessInputS (ProcessInputW (ProcessInputEnter g))
  else g

/-- The `GAME_WIN` block of `Game::ProcessInput`. -/
def ProcessInputWin (g : Game) : Game :=
  if g.State = GameState.GAME_WIN then
    if g.Keys GLFW_KEY_ENTER = true then
      { g with KeysProcessed := setKey g.KeysProcessed GLFW_KEY_ENTER true,
               Effects := { g.Effects with Chaos := false },
               State := GameState.GAME_MENU }
    else g
  else g

/-- The A statement of the `GAME_ACTIVE` block of `Game::ProcessInput`, with
`velocity = PLAYER_VELOCITY * dt`. -/
def ProcessInputA (g : Game) (velocity : ℝ) : Game :=
  if g.Keys GLFW_KEY_A = true then
    if g.Player.Position.x ≥ 0 then
      { g with
        Player := { g.Player with
          Position := ⟨g.Player.Position.x - velocity, g.Player.Position.y⟩ },
        Ball := if g.Ball.Stuck then
            { g.Ball with Position := ⟨g.Ball.Position.x - velocity, g.Ball.Position.y⟩ }
          else g.Ball }
    else g
  else g

/-- The D statement of the `GAME_ACTIVE` block of `Game::ProcessInput`. -/
def ProcessInputD (g : Game) (velocity : ℝ) : Game :=
  if g.Keys GLFW_KEY_D = true then
    if g.Player.Position.x ≤ (g.Width : ℝ) - g.Player.Size.x then
      { g with
        Player := { g.Player with
          Position := ⟨g.Player.Position.x + velocity, g.Player.Position.y⟩ },
        Ball := if g.Ball.Stuck then
            { g.Ball with Position := ⟨g.Ball.Position.x + velocity, g.Ball.Position.y⟩ }
          else g.Ball }
    else g
  else g

/-- The SPACE statement of the `GAME_ACTIVE` block of `Game::ProcessInput`. -/
def ProcessInputSpace (g : Game) : Game :=
  if g.Keys GLFW_KEY_SPACE = true then { g with Ball := { g.Ball with Stuck := false } } else g

/-- The `GAME_ACTIVE` block of `Game::ProcessInput`. -/
def ProcessInputActive (cfg : Config) (g : Game) (dt : ℝ) : Game :=
  if g.State = GameState.GAME_ACTIVE then
    ProcessInputSpace
      (ProcessInputD (ProcessInputA g (cfg.PLAYER_VELOCITY * dt)) (cfg.PLAYER_VELOCITY * dt))
  else g

/-- The function `Game::ProcessInput`: the three blocks in the order of the
source, each reading the state the previous one left. -/
def ProcessInput (cfg : Config) (g : Game) (dt : ℝ) : Game :=
  ProcessInputActive cfg (ProcessInputWin (ProcessInputMenu g)) dt

/-- The function `key_callback` of `main.cpp` on the key tables (the escape key
closes the window and is not part of the game state). -/
def key_callback (g : Game) (key : Int) (action : Int) : Game :=
  if 0 ≤ key ∧ key < 1024 then
    if action = GLFW_PRESS then { g with Keys := setKey g.Keys key.toNat true }
    else if action = GLFW_RELEASE then
      { g with Keys := setKey g.Keys key.toNat false,
               KeysProcessed := setKey g.KeysProcessed key.toNat false }
    else g
  else g

/-! ## Start state and a concrete configuration -/

/-- Modelled from the spec: the constructor of `GameObject` (`gameObject.h` is
not among the sources): a box at a position with a size, at rest, white, not
solid and not destroyed. -/
def GameObject.new (pos size : Vec2) : GameObject :=
  { Position := pos, Size := size, Velocity := ⟨0, 0⟩, Color := white, Rotation := 0,
    IsSolid := false, Destroyed := false }

/-- Modelled from the spec: the constructor of `BallObject` (`ballObject.cpp` is
not among the sources): a box of side `2 * radius` with the given velocity,
stuck to the paddle, with no power-up flag set. -/
def BallObject.new (pos : Vec2) (radius : ℝ) (velocity : Vec2) : BallObject :=
  { Position := pos, Size := ⟨radius * 2, radius * 2⟩, Velocity := velocity, Color := white,
    Rotation := 0, IsSolid := false, Destroyed := false,
    Radius := radius, Stuck := true, Sticky := false, PassThrough := false }

/-- Modelled from the spec: `BallObject::Move` (`ballObject.cpp` is not among
the sources): nothing happens when the ball is stuck; otherwise the position is
integrated by `Velocity * dt`, the ball bounces off the left wall, the right
wall (at `window_width - Size.x`) and the ceiling, and is clamped to them. -/
def BallObject.Move (ball : BallObject) (dt : ℝ) (window_width : Nat) : BallObject :=
  if !ball.Stuck then
    let b1 : BallObject :=
      { ball with Position := Vec2.add ball.Position (Vec2.scale ball.Velocity dt) }
    let b2 : BallObject :=
      if b1.Position.x ≤ 0 then
        { b1 with Velocity := ⟨-b1.Velocity.x, b1.Velocity.y⟩, Position := ⟨0, b1.Position.y⟩ }
      else if b1.Position.x + b1.Size.x ≥ (window_width : ℝ) then
        { b1 with Velocity := ⟨-b1.Velocity.x, b1.Velocity.y⟩,
                  Position := ⟨(window_width : ℝ) - b1.Size.x, b1.Position.y⟩ }
      else b1
    if b2.Position.y ≤ 0 then
      { b2 with Velocity := ⟨b2.Velocity.x, -b2.Velocity.y⟩, Position := ⟨b2.Position.x, 0⟩ }
    else b2
  else ball

/-- Modelled from the spec: `BallObject::Reset` (`ballObject.cpp` is not among
the sources): the ball is put at the given position with the given velocity,
stuck to the paddle again, with its power-up flags cleared. -/
def BallObject.Reset (ball : BallObject) (position velocity : Vec2) : BallObject :=
  { ball with Position := position, Velocity := velocity, Stuck := true, Sticky := false,
              PassThrough := false }

/-- The constructor `Game::Game` followed by `Game::Init`, on the state of the
embedding; `seq` is the sequence of values `rand ()` will return. -/
def Game.Init (cfg : Config) (width height : Nat) (seq : Nat → Nat) : Game :=
  let playerPos : Vec2 :=
    ⟨(width : ℝ) / 2 - cfg.PLAYER_SIZE.x / 2, (height : ℝ) - cfg.PLAYER_SIZE.y⟩
  let ballPos : Vec2 :=
    Vec2.add playerPos ⟨cfg.PLAYER_SIZE.x / 2 - cfg.BALL_RADIUS, -cfg.BALL_RADIUS * 2⟩
  { State := GameState.GAME_MENU, Keys := fun _ => false, KeysProcessed := fun _ => false,
    Width := width, Height := height,
    Levels := [⟨cfg.Load 0 width (height / 2)⟩, ⟨cfg.Load 1 width (height / 2)⟩,
               ⟨cfg.Load 2 width (height / 2)⟩, ⟨cfg.Load 3 width (height / 2)⟩],
    PowerUps := [], Level := 0, Lives := 3,
    Player := GameObject.new playerPos cfg.PLAYER_SIZE,
    Ball := BallObject.new ballPos cfg.BALL_RADIUS cfg.INITIAL_BALL_VELOCITY,
    Effects := ⟨false, false, false⟩, ShakeTime := 0, RandSeq := seq, RandPos := 0 }

/-- A breakable brick, the only brick of level 0 of the concrete configuration. -/
def demoBrick : GameObject := GameObject.new ⟨450, 180⟩ ⟨100, 30⟩

/-- A concrete configuration: a paddle of 100 by 20, a ball of radius 12.5 with
start velocity (100, -350), power-ups of 60 by 20 falling at 150, level 0 made of
`demoBrick` and the other levels empty, and the ball functions as modelled
above. -/
def demoConfig : Config :=
  { PLAYER_SIZE := ⟨100, 20⟩, PLAYER_VELOCITY := 500, INITIAL_BALL_VELOCITY := ⟨100, -350⟩,
    BALL_RADIUS := 25 / 2, POWERUP_SIZE := ⟨60, 20⟩, POWERUP_VELOCITY := ⟨0, 150⟩,
    Load := fun i _ _ => if i = 0 then [demoBrick] else [],
    Move := BallObject.Move, Reset := BallObject.Reset }

/-- A sequence of draws of which only the sixth (index 5) is divisible by its
chance. -/
def demoRand : Nat → Nat := fun k => if k = 5 then 0 else 1

/-- The start state of the concrete configuration in a window of 800 by 600. -/
def demoGame : Game := Game.Init demoConfig 800 600 demoRand

/-- A ball of radius 12.5 whose circle centre is at `(cx, 572.5)`, moving with
velocity `velocity`, not stuck: it overlaps a paddle whose top edge is at 580
when `cx` is within the paddle. -/
def demoBallAt (cx : ℝ) (velocity : Vec2) : BallObject :=
  { BallObject.new ⟨cx - 25 / 2, 560⟩ (25 / 2) velocity with Stuck := false }

/-- The start state with a ball falling with velocity (100, 350) that overlaps
the paddle with its circle centre 10 to the right of the paddle centre. -/
def demoFallingHit : Game := { demoGame with Ball := demoBallAt 410 ⟨100, 350⟩ }

/-- The start state with a ball rising with velocity (100, -350) that overlaps
the paddle with its circle centre 10 to the right of the paddle centre. -/
def demoRisingHit : Game := { demoGame with Ball := demoBallAt 410 ⟨100, -350⟩ }

/-- The start state made active with one life left and a free ball at
(100, 590) falling with velocity (100, 350) to the left of the paddle. -/
def demoLosing : Game :=
  { demoGame with
    State := GameState.GAME_ACTIVE, Lives := 1,
    Ball := { BallObject.new ⟨100, 590⟩ (25 / 2) ⟨100, 350⟩ with Stuck := false } }

/-- The start state put in `GAME_WIN` with the chaos visual on and the ENTER
key down. -/
def demoWon : Game :=
  { demoGame with
    State := GameState.GAME_WIN,
    Keys := setKey demoGame.Keys GLFW_KEY_ENTER true,
    Effects := { demoGame.Effects with Chaos := true } }

/-- The chaos power-up that `demoBrick` releases, fallen to height `y`. -/
def demoChaosPowerUp (y : ℝ) : PowerUp :=
  { PowerUp.new demoConfig "chaos" ⟨0.9, 0.25, 0.25⟩ 15 ⟨450, 180⟩ with Position := ⟨450, y⟩ }

/-- The ball of the start state, released. -/
def demoFreeBall : BallObject := { demoGame.Ball with Stuck := false }

/-- The states of the concrete run: the start state with the state, the key
tables, the power-ups, the ball, the chaos flag and the number of draws made
replaced by the given ones. -/
def demoRunState (state : GameState) (keys keysProcessed : Nat → Bool)
    (powerUps : List PowerUp) (ball : BallObject) (chaos : Bool) (randPos : Nat) : Game :=
  { demoGame with
    State := state, Keys := keys, KeysProcessed := keysProcessed, PowerUps := powerUps,
    Ball := ball, Effects := { demoGame.Effects with Chaos := chaos }, RandPos := randPos }

/-- The start state with a free ball at (487.5, 205), overlapping `demoBrick`
from below, with the given pass-through flag. -/
def demoAtBrick (passThrough : Bool) : Game :=
  { demoGame with
    Ball := { demoFreeBall with Position := ⟨975 / 2, 205⟩, PassThrough := passThrough } }

/-- A solid brick at the place of `demoBrick`. -/
def demoSolidBrick : GameObject := { demoBrick with IsSolid := true }

/-- A sticky power-up that has fallen exactly to the bottom edge (`y = 600`)
above the paddle of the start state, not destroyed and not activated. -/
def demoBottomPowerUp : PowerUp :=
  { PowerUp.new demoConfig "sticky" ⟨1.0, 0.5, 1.0⟩ 20 ⟨400, 180⟩ with Position := ⟨400, 600⟩ }

/-- The start state with `demoBottomPowerUp` as its only power-up. -/
def demoBottomGame : Game := { demoGame with PowerUps := [demoBottomPowerUp] }

/-- A speed power-up (duration 0) at the height of the paddle of the start
state, not yet collected. -/
def demoSpeedPowerUp : PowerUp :=
  { PowerUp.new demoConfig "speed" ⟨0.5, 0.5, 1.0⟩ 0 ⟨450, 180⟩ with Position := ⟨450, 580⟩ }

/-- The start state in `GAME_ACTIVE` with `demoSpeedPowerUp` as its only
power-up; the ball rests on the paddle. -/
def demoSpeedGame : Game :=
  { demoGame with State := GameState.GAME_ACTIVE, PowerUps := [demoSpeedPowerUp] }

/-- The start state with a ball that overlaps the paddle above its centre and is
stuck to it. -/
def demoStuckHit : Game :=
  { demoGame with Ball := { demoBallAt 400 ⟨100, 350⟩ with Stuck := true } }

/-- The start state with a falling free ball that overlaps the paddle, with the
given sticky flag. -/
def demoStickyHit (sticky : Bool) : Game :=
  { demoGame with Ball := { demoBallAt 410 ⟨100, 350⟩ with Sticky := sticky } }

/-- The start state in `GAME_ACTIVE` with the free ball at (492.5, 187.5), the
place where `BallObject::Move` puts the released ball of the start state after
1.05 s: the circle centre (505, 200) is inside the box of `demoBrick`. -/
def demoInBrick : Game :=
  { demoGame with
    State := GameState.GAME_ACTIVE,
    Ball := { demoFreeBall with Position := ⟨985 / 2, 375 / 2⟩ } }

/-- The state in which `Game::Update` enters the power-up loop of
`Game::DoCollisions`: the ball has moved and the brick loop is done. -/
def UpdateAtPowerUps (cfg : Config) (g : Game) (dt : ℝ) : Game :=
  DoCollisionsBricks cfg { g with Ball := cfg.Move g.Ball dt g.Width }

/-- The state in which the power-up loop of `Game::DoCollisions`, started in
`g`, reaches the power-up of index `i`. -/
def DoCollisionsPowerUpsAt (g : Game) (i : Nat) : Game :=
  (DoCollisionsPowerUpsLoop g (g.PowerUps.take i)).1

/-- A level of three bricks: the solid brick `demoSolidBrick` and two breakable
bricks to its right, destroyed or not as given. -/
def demoThreeBricks (first second : Bool) : GameLevel :=
  ⟨[demoSolidBrick,
    { GameObject.new ⟨550, 180⟩ ⟨100, 30⟩ with Destroyed := first },
    { GameObject.new ⟨650, 180⟩ ⟨100, 30⟩ with Destroyed := second }]⟩

/-- The start state in `GAME_ACTIVE` with `demoThreeBricks` as its level 0. -/
def demoThreeGame (first second : Bool) : Game :=
  { demoGame with
    State := GameState.GAME_ACTIVE,
    Levels := [demoThreeBricks first second, ⟨[]⟩, ⟨[]⟩, ⟨[]⟩] }

/-- The start state with a free falling ball whose circle centre (455, 572.5) is
5 to the right of the right edge of the paddle: it overlaps the paddle corner. -/
def demoEdgeHit : Game := { demoGame with Ball := demoBallAt 455 ⟨100, 350⟩ }

/-- The state after ENTER and SPACE are pressed in the start state and
`ProcessInput` has run: the game is active and the ball is released. -/
def demoReleased : Game :=
  ProcessInput demoConfig
    ([((GLFW_KEY_ENTER : Int), GLFW_PRESS), ((GLFW_KEY_SPACE : Int), GLFW_PRESS)].foldl
      (fun g e => key_callback g e.1 e.2) demoGame) 1

/-- One pass of the render loop of `main.cpp` on the game state: the key events
polled (`key_callback` for each pair of key and action), then `ProcessInput`
and `Update` with the same frame time. -/
def frame (cfg : Config) (g : Game) (events : List (Int × Int)) (dt : ℝ) : Game :=
  Update cfg (ProcessInput cfg (events.foldl (fun g e => key_callback g e.1 e.2) g) dt) dt

/-- The states that a start state reaches through key events, `ProcessInput`
calls and `Update` calls with frame times that are not negative. -/
inductive Reachable (cfg : Config) (start : Game) : Game → Prop where
  | start : Reachable cfg start start
  | key (g : Game) (key action : Int) :
      Reachable cfg start g → Reachable cfg start (key_callback g key action)
  | input (g : Game) (dt : ℝ) :
      0 ≤ dt → Reachable cfg start g → Reachable cfg start (ProcessInput cfg g dt)
  | update (g : Game) (dt : ℝ) :
      0 ≤ dt → Reachable cfg start g → Reachable cfg start (Update cfg g dt)

/-- First frame of the concrete run, one second long: ENTER and SPACE are
pressed, the game starts and the ball is released; the ball reaches the brick,
destroys it, the draws spawn a chaos power-up only, and the level is won. -/
def demoFrame1 : Game :=
  frame demoConfig demoGame [(GLFW_KEY_ENTER, GLFW_PRESS), (GLFW_KEY_SPACE, GLFW_PRESS)] 1

/-- Second frame of the concrete run, 5/3 seconds long: ENTER and SPACE are
released; the chaos power-up falls to the height of the paddle. -/
def demoFrame2 : Game :=
  frame demoConfig demoFrame1 [(GLFW_KEY_ENTER, GLFW_RELEASE), (GLFW_KEY_SPACE, GLFW_RELEASE)]
    (5 / 3)

/-- Third frame of the concrete run, 15 seconds long, without key events: the
paddle collects the chaos power-up, whose duration of 15 runs out in the same
call. -/
def demoFrame3 : Game := frame demoConfig demoFrame2 [] 15

/-- The update of `(max, best_match)` in the loop of `VectorDirection` for the
index `i` and the dot product `d`. -/
def pickStep (acc : ℝ × Nat) (i : Nat) (d : ℝ) : ℝ × Nat :=
  if d > acc.1 then (d, i) else acc

/-- The loop of `VectorDirection` run on the dot products with the vector
itself instead of the normalised vector; it picks the same index (see
`vectorDirection_eq_raw`) and needs no square root. -/
def VectorDirectionRaw (target : Vec2) : Direction :=
  (pickStep (pickStep (pickStep (pickStep ((0 : ℝ), 2 ^ 32 - 1) 0 target.y) 1 target.x)
    2 (-target.y)) 3 (-target.x)).2

/-- An activated sticky power-up already collected by the paddle, with the
given remaining duration. -/
def demoSticky (duration : ℝ) : PowerUp :=
  { PowerUp.new demoConfig "sticky" ⟨1.0, 0.5, 1.0⟩ duration ⟨400, 580⟩ with
    Destroyed := true, Activated := true }

/-- The start state with a sticky ball and two activated sticky power-ups, of
remaining durations 5 and 20. -/
def demoTwoSticky : Game :=
  { demoGame with
    PowerUps := [demoSticky 5, demoSticky 20],
    Ball := { demoGame.Ball with Sticky := true } }

/-- Consecutive `ProcessInput` calls with the given frame times and no key event
in between (the key stays as it is: no release resets `KeysProcessed`). -/
def inputRun (cfg : Config) (g : Game) (dts : List ℝ) : Game :=
  dts.foldl (fun g dt => ProcessInput cfg g dt) g

/-- The start state with the W key pressed. -/
def demoMenuW : Game := key_callback demoGame GLFW_KEY_W GLFW_PRESS

/-! ## The words of the specification, for comparison with the code -/

/-- The circle centre of a ball: `Position + Radius` on both axes. -/
def circleCentre (one : BallObject) : Vec2 :=
  ⟨one.Position.x + one.Radius, one.Position.y + one.Radius⟩

/-- The centre of a box: `Position + Size / 2`. -/
def boxCentre (two : GameObject) : Vec2 :=
  ⟨two.Position.x + two.Size.x / 2, two.Position.y + two.Size.y / 2⟩

/-- A scalar clamped to `[lo, hi]`. -/
def clampScalar (t lo hi : ℝ) : ℝ := min (max t lo) hi

/-- The closest point of the box to the circle centre, as the specification
words it: the box centre plus the centre-to-centre vector clamped
component-wise to `[-half-extent, +half-extent]`. -/
def closestPoint (one : BallObject) (two : GameObject) : Vec2 :=
  ⟨(boxCentre two).x +
      clampScalar ((circleCentre one).x - (boxCentre two).x) (-(two.Size.x / 2)) (two.Size.x / 2),
    (boxCentre two).y +
      clampScalar ((circleCentre one).y - (boxCentre two).y) (-(two.Size.y / 2)) (two.Size.y / 2)⟩

/-- The Euclidean distance between two points. -/
def distance (p q : Vec2) : ℝ := Real.sqrt ((p.x - q.x) ^ 2 + (p.y - q.y) ^ 2)

/-- The dot product of the normalised vector with the compass entry of index `i`
(zero for an index outside `0 .. 3`). -/
def compassDot (v : Vec2) (i : Nat) : ℝ :=
  Vec2.dot (Vec2.normalize v) (compass.getD i ⟨0, 0⟩)

/-- Another power-up of the list, at an index other than `i`, is `Activated` and
has type `type`. -/
def otherActive (powerUps : List PowerUp) (i : Nat) (type : String) : Prop :=
  ∃ j q, j ≠ i ∧ powerUps[j]? = some q ∧ q.Activated = true ∧ q.TypeName = type

/-- The second state has the control fields of the first: `State`, `Lives`,
`Level`, the window size, the key tables and the sequence behind `rand`. -/
def sameControl (g g' : Game) : Prop :=
  g'.State = g.State ∧ g'.Lives = g.Lives ∧ g'.Level = g.Level ∧ g'.Width = g.Width ∧
    g'.Height = g.Height ∧ g'.Keys = g.Keys ∧ g'.KeysProcessed = g.KeysProcessed ∧
    g'.RandSeq = g.RandSeq

/-- The relation between a brick before and after the brick loop of
`DoCollisions`: the brick is unchanged, or it was neither solid nor destroyed
and only its `Destroyed` flag has been set. -/
def brickAfter (b b' : GameObject) : Prop :=
  b' = b ∨ (b.IsSolid = false ∧ b.Destroyed = false ∧ b' = { b with Destroyed := true })

/-- The duration and deactivation step of one tick on one power-up, as the
loop body of `UpdatePowerUps` performs it: the power-up is moved by
`Velocity * dt`; when it is `Activated` its `Duration` is decreased by `dt`, and
when the `Duration` is then `<= 0` it is no longer `Activated`. -/
def tickPowerUp (dt : ℝ) (p : PowerUp) : PowerUp :=
  if p.Activated = true then
    if p.Duration - dt ≤ 0 then
      { p with Position := Vec2.add p.Position (Vec2.scale p.Velocity dt),
               Duration := p.Duration - dt, Activated := false }
    else
      { p with Position := Vec2.add p.Position (Vec2.scale p.Velocity dt),
               Duration := p.Duration - dt }
  else { p with Position := Vec2.add p.Position (Vec2.scale p.Velocity dt) }

/-- The test of the removal at the end of `UpdatePowerUps`: a power-up stays
unless it is destroyed and not activated. -/
def keepPowerUp (p : PowerUp) : Bool := !(p.Destroyed && !p.Activated)

/-- The six statements of `SpawnPowerUps` for a block at `position`, in the
order of the source: the chance given to `ShouldSpawn` and the power-up pushed. -/
def spawnCandidates (cfg : Config) (position : Vec2) : List (Nat × PowerUp) :=
  [(75, PowerUp.new cfg "speed" ⟨0.5, 0.5, 1.0⟩ 0 position),
   (75, PowerUp.new cfg "sticky" ⟨1.0, 0.5, 1.0⟩ 20 position),
   (75, PowerUp.new cfg "pass-through" ⟨0.5, 1.0, 0.5⟩ 10 position),
   (75, PowerUp.new cfg "pad-size-increase" ⟨1.0, 0.6, 0.4⟩ 0 position),
   (15, PowerUp.new cfg "confuse" ⟨1.0, 0.3, 0.3⟩ 15 position),
   (15, PowerUp.new cfg "chaos" ⟨0.9, 0.25, 0.25⟩ 15 position)]

/-- The candidates whose draw is divisible by their chance, in order; the
candidates use the draws `seq pos`, `seq (pos + 1)`, and so on, one each. -/
def spawned (seq : Nat → Nat) : Nat → List (Nat × PowerUp) → List PowerUp
  | _, [] => []
  | pos, c :: rest =>
    (if seq pos % c.1 = 0 then [c.2] else []) ++ spawned seq (pos + 1) rest

/-- The confuse and chaos flags are not both set. -/
def flagsExclusive (g : Game) : Prop :=
  ¬ (g.Effects.Confuse = true ∧ g.Effects.Chaos = true)

/-- The life counter is one of 1, 2, 3. -/
def livesInRange (g : Game) : Prop := g.Lives = 1 ∨ g.Lives = 2 ∨ g.Lives = 3

/-- The states that a start state reaches through any sequence of key events
and of the steps `ProcessInput`, `Update`, `DoCollisions`, `ActivatePowerUp`,
`UpdatePowerUps` and `ResetPlayer`, with any arguments. -/
inductive StepsFrom (cfg : Config) (start : Game) : Game → Prop where
  | start : StepsFrom cfg start start
  | key (g : Game) (key action : Int) :
      StepsFrom cfg start g → StepsFrom cfg start (key_callback g key action)
  | input (g : Game) (dt : ℝ) : StepsFrom cfg start g → StepsFrom cfg start (ProcessInput cfg g dt)
  | update (g : Game) (dt : ℝ) : StepsFrom cfg start g → StepsFrom cfg start (Update cfg g dt)
  | collisions (g : Game) : StepsFrom cfg start g → StepsFrom cfg start (DoCollisions cfg g)
  | activate (g : Game) (p : PowerUp) :
      StepsFrom cfg start g → StepsFrom cfg start (ActivatePowerUp g p)
  | powerUps (g : Game) (dt : ℝ) :
      StepsFrom cfg start g → StepsFrom cfg start (UpdatePowerUps g dt)
  | resetPlayer (g : Game) : StepsFrom cfg start g → StepsFrom cfg start (ResetPlayer cfg g)

/-! ## Theorems -/

/-! ### Geometry lemmas -/

theorem distance_eq_length_sub (p q : Vec2) : distance p q = Vec2.length (Vec2.sub q p) := by
  unfold distance Vec2.length Vec2.dot Vec2.sub
  congr 1
  simp only
  ring

theorem checkCollisionBall_difference (one : BallObject) (two : GameObject) :
    Vec2.sub (Vec2.add ⟨two.Position.x + two.Size.x / 2, two.Position.y + two.Size.y / 2⟩
        (Vec2.clamp (Vec2.sub (Vec2.addScalar one.Position one.Radius)
            ⟨two.Position.x + two.Size.x / 2, two.Position.y + two.Size.y / 2⟩)
          (Vec2.neg ⟨two.Size.x / 2, two.Size.y / 2⟩) ⟨two.Size.x / 2, two.Size.y / 2⟩))
      (Vec2.addScalar one.Position one.Radius)
      = Vec2.sub (closestPoint one two) (circleCentre one) := by
  simp [Vec2.sub, Vec2.add, Vec2.clamp, Vec2.neg, Vec2.addScalar, closestPoint, circleCentre,
    boxCentre, clampScalar]

/-- The result of the circle test, in the words of the specification. -/
theorem checkCollisionBall_eq (one : BallObject) (two : GameObject) :
    CheckCollisionBall one two =
      if distance (circleCentre one) (closestPoint one two) < one.Radius then
        (true, VectorDirection (Vec2.sub (closestPoint one two) (circleCentre one)),
          Vec2.sub (closestPoint one two) (circleCentre one))
      else (false, UP, ⟨0, 0⟩) := by
  rw [distance_eq_length_sub]
  unfold CheckCollisionBall
  simp only [checkCollisionBall_difference]

/-- The clamped point is a point of the box and no point of the box is nearer to
the circle centre, for a box whose sizes are not negative. -/
theorem closestPoint_nearest (one : BallObject) (two : GameObject)
    (hx : 0 ≤ two.Size.x) (hy : 0 ≤ two.Size.y) :
    (two.Position.x ≤ (closestPoint one two).x ∧
      (closestPoint one two).x ≤ two.Position.x + two.Size.x ∧
      two.Position.y ≤ (closestPoint one two).y ∧
      (closestPoint one two).y ≤ two.Position.y + two.Size.y) ∧
    ∀ p : Vec2, two.Position.x ≤ p.x → p.x ≤ two.Position.x + two.Size.x →
      two.Position.y ≤ p.y → p.y ≤ two.Position.y + two.Size.y →
      distance (circleCentre one) (closestPoint one two) ≤ distance (circleCentre one) p := by
  have key : ∀ c lo hi : ℝ, lo ≤ hi →
      lo ≤ min (max c lo) hi ∧ min (max c lo) hi ≤ hi ∧
      ∀ t, lo ≤ t → t ≤ hi → (c - min (max c lo) hi) ^ 2 ≤ (c - t) ^ 2 := by
    intro c lo hi hle
    refine ⟨le_min (le_max_right _ _) hle, min_le_right _ _, ?_⟩
    intro t h1 h2
    rcases le_total c lo with h | h
    · rw [max_eq_right h, min_eq_left hle]
      nlinarith
    · rw [max_eq_left h]
      rcases le_total c hi with h' | h'
      · rw [min_eq_left h']
        nlinarith [sq_nonneg (c - t)]
      · rw [min_eq_right h']
        nlinarith
  obtain ⟨ax, bx, cx⟩ := key ((circleCentre one).x - (boxCentre two).x) (-(two.Size.x / 2))
    (two.Size.x / 2) (by linarith)
  obtain ⟨ay, by', cy⟩ := key ((circleCentre one).y - (boxCentre two).y) (-(two.Size.y / 2))
    (two.Size.y / 2) (by linarith)
  simp only [closestPoint, clampScalar, boxCentre] at *
  refine ⟨⟨by linarith, by linarith, by linarith, by linarith⟩, ?_⟩
  intro p h1 h2 h3 h4
  unfold distance
  apply Real.sqrt_le_sqrt
  have e1 := cx (p.x - (two.Position.x + two.Size.x / 2)) (by linarith) (by linarith)
  have e2 := cy (p.y - (two.Position.y + two.Size.y / 2)) (by linarith) (by linarith)
  have r1 : (circleCentre one).x - (two.Position.x + two.Size.x / 2 +
      min (max ((circleCentre one).x - (two.Position.x + two.Size.x / 2)) (-(two.Size.x / 2)))
        (two.Size.x / 2)) = (circleCentre one).x - (two.Position.x + two.Size.x / 2) -
      min (max ((circleCentre one).x - (two.Position.x + two.Size.x / 2)) (-(two.Size.x / 2)))
        (two.Size.x / 2) := by ring
  have r2 : (circleCentre one).y - (two.Position.y + two.Size.y / 2 +
      min (max ((circleCentre one).y - (two.Position.y + two.Size.y / 2)) (-(two.Size.y / 2)))
        (two.Size.y / 2)) = (circleCentre one).y - (two.Position.y + two.Size.y / 2) -
      min (max ((circleCentre one).y - (two.Position.y + two.Size.y / 2)) (-(two.Size.y / 2)))
        (two.Size.y / 2) := by ring
  have r3 : (circleCentre one).x - (two.Position.x + two.Size.x / 2) -
      (p.x - (two.Position.x + two.Size.x / 2)) = (circleCentre one).x - p.x := by ring
  have r4 : (circleCentre one).y - (two.Position.y + two.Size.y / 2) -
      (p.y - (two.Position.y + two.Size.y / 2)) = (circleCentre one).y - p.y := by ring
  rw [r3] at e1
  rw [r4] at e2
  rw [r1, r2]
  exact add_le_add e1 e2

/-- The normalised vector of a non-zero vector is non-zero, with the signs of
the components kept. -/
theorem normalize_sign (v : Vec2) (h : v.x ≠ 0 ∨ v.y ≠ 0) :
    ∃ k : ℝ, 0 < k ∧ (Vec2.normalize v).x = v.x * k ∧ (Vec2.normalize v).y = v.y * k := by
  have hpos : 0 < Vec2.dot v v := by
    unfold Vec2.dot
    rcases h with h | h
    · have := mul_self_pos.mpr h
      nlinarith [mul_self_nonneg v.y]
    · have := mul_self_pos.mpr h
      nlinarith [mul_self_nonneg v.x]
  refine ⟨1 / Real.sqrt (Vec2.dot v v), ?_, rfl, rfl⟩
  exact one_div_pos.mpr (Real.sqrt_pos.mpr hpos)

/-- The loop of `VectorDirection`, unrolled. -/
theorem vectorDirection_unroll (v : Vec2) :
    VectorDirection v =
      (VectorDirectionStep v (VectorDirectionStep v (VectorDirectionStep v
        (VectorDirectionStep v ((0 : ℝ), 2 ^ 32 - 1) (0, ⟨0, 1⟩)) (1, ⟨1, 0⟩))
        (2, ⟨0, -1⟩)) (3, ⟨-1, 0⟩)).2 := by
  rfl

/-- The loop of `VectorDirection` on a vector whose normalised components are
`nx`, `ny`, not both zero: the result is the first index of the largest dot
product. -/
theorem vd_core (nx ny : ℝ) (h : nx ≠ 0 ∨ ny ≠ 0) (v : Vec2)
    (hx : (Vec2.normalize v).x = nx) (hy : (Vec2.normalize v).y = ny) :
      VectorDirection v < 4 ∧
      (∀ j : ℕ, j < 4 → compassDot v j ≤ compassDot v (VectorDirection v)) ∧
      (∀ j : ℕ, j < VectorDirection v → compassDot v j < compassDot v (VectorDirection v)) := by
  have hc : ∀ j, j < 4 → compassDot v j = [ny, nx, -ny, -nx].getD j 0 := by
    intro j hj
    interval_cases j <;> simp [compassDot, compass, Vec2.dot, hx, hy]
  have hne : 0 < ny ∨ 0 < nx ∨ 0 < -ny ∨ 0 < -nx := by
    rcases h with h | h
    · rcases lt_or_gt_of_ne h with h | h
      · right; right; right; linarith
      · right; left; exact h
    · rcases lt_or_gt_of_ne h with h | h
      · right; right; left; linarith
      · left; exact h
  rw [vectorDirection_unroll]
  simp only [VectorDirectionStep, Vec2.dot, hx, hy]
  norm_num
  split_ifs <;> dsimp only at * <;>
    first
    | (exfalso; rcases hne with h | h | h | h <;> linarith)
    | (refine ⟨by norm_num, ?_, ?_⟩
       · intro j hj
         rw [hc j hj, hc _ (by norm_num)]
         interval_cases j <;>
           simp only [List.getD_cons_zero, List.getD_cons_succ] <;> linarith
       · intro j hj
         try dsimp only at hj
         rw [hc j (by omega), hc _ (by norm_num)]
         interval_cases j <;>
           simp only [List.getD_cons_zero, List.getD_cons_succ] <;> linarith)

/-- The dot product of a vector with itself is not negative. -/
theorem dot_self_nonneg (v : Vec2) : 0 ≤ Vec2.dot v v := by
  unfold Vec2.dot
  nlinarith [mul_self_nonneg v.x, mul_self_nonneg v.y]

/-- The dot product of a non-zero vector with itself is positive. -/
theorem dot_self_pos (v : Vec2) (h : v.x ≠ 0 ∨ v.y ≠ 0) : 0 < Vec2.dot v v := by
  unfold Vec2.dot
  rcases h with h | h
  · have := mul_self_pos.mpr h
    nlinarith [mul_self_nonneg v.y]
  · have := mul_self_pos.mpr h
    nlinarith [mul_self_nonneg v.x]

/-- The length of a vector is not negative. -/
theorem length_nonneg (v : Vec2) : 0 ≤ Vec2.length v := Real.sqrt_nonneg _

/-- The length test of the circle collision without the square root. -/
theorem length_lt_iff (v : Vec2) (r : ℝ) :
    Vec2.length v < r ↔ 0 < r ∧ Vec2.dot v v < r ^ 2 := by
  unfold Vec2.length
  constructor
  · intro h
    have hr : 0 < r := lt_of_le_of_lt (Real.sqrt_nonneg _) h
    exact ⟨hr, (Real.sqrt_lt' hr).mp h⟩
  · rintro ⟨hr, h⟩
    exact (Real.sqrt_lt' hr).mpr h

/-- A non-zero vector normalised and scaled by `L >= 0` has length `L`. -/
theorem length_scale_normalize (u : Vec2) (L : ℝ) (hu : u.x ≠ 0 ∨ u.y ≠ 0) (hL : 0 ≤ L) :
    Vec2.length (Vec2.scale (Vec2.normalize u) L) = L := by
  have hpos := dot_self_pos u hu
  have hs : 0 < Real.sqrt (Vec2.dot u u) := Real.sqrt_pos.mpr hpos
  have hsq : Real.sqrt (Vec2.dot u u) * Real.sqrt (Vec2.dot u u) = Vec2.dot u u :=
    Real.mul_self_sqrt hpos.le
  unfold Vec2.length
  have : Vec2.dot (Vec2.scale (Vec2.normalize u) L) (Vec2.scale (Vec2.normalize u) L) = L ^ 2 := by
    simp only [Vec2.dot, Vec2.scale, Vec2.normalize] at hsq ⊢
    simp only [Vec2.dot] at hs
    set s := Real.sqrt (u.x * u.x + u.y * u.y) with hsdef
    have hs0 : s ≠ 0 := hs.ne'
    field_simp
    rw [hsq]
    ring
  rw [this, Real.sqrt_sq hL]

/-- The hit test of the circle collision without the square root. -/
theorem checkCollisionBall_hit_iff (one : BallObject) (two : GameObject) :
    (CheckCollisionBall one two).1 = true ↔
      0 < one.Radius ∧
        Vec2.dot (Vec2.sub (closestPoint one two) (circleCentre one))
          (Vec2.sub (closestPoint one two) (circleCentre one)) < one.Radius ^ 2 := by
  rw [checkCollisionBall_eq, distance_eq_length_sub, ← length_lt_iff]
  split_ifs with h <;> simp [h]


/-! ### Paddle lemmas -/

/-- A ball of `demoBallAt` with its centre within the paddle of the start state
hits that paddle. -/
theorem demo_hit (cx : ℝ) (v : Vec2) (h1 : 350 ≤ cx) (h2 : cx ≤ 450) :
    (CheckCollisionBall (demoBallAt cx v) demoGame.Player).1 = true := by
  rw [checkCollisionBall_hit_iff]
  have e1 : min (max (cx - 400) (-50)) 50 = cx - 400 := by
    rw [max_eq_left (by linarith), min_eq_left (by linarith)]
  norm_num [demoBallAt, demoGame, Game.Init, demoConfig, BallObject.new, GameObject.new,
    closestPoint, circleCentre, boxCentre, clampScalar, Vec2.sub, Vec2.dot]
  norm_num [e1]

/-- The velocity the paddle phase leaves when the ball is not stuck and hits. -/
theorem doCollisionsPaddle_velocity (cfg : Config) (g : Game)
    (hstuck : g.Ball.Stuck = false) (hhit : (CheckCollisionBall g.Ball g.Player).1 = true) :
    (DoCollisionsPaddle cfg g).Ball.Velocity = paddleVelocity cfg g.Ball g.Player := by
  simp [DoCollisionsPaddle, hstuck, hhit]


/-! ### Power-up lemmas -/

/-- After an expired power-up (not `Activated`) is written back at index `i`,
`IsOtherPowerUpActive` is true exactly when another index holds an activated
power-up of the type. -/
theorem isOther_set_expired (ps : List PowerUp) (i : Nat) (e : PowerUp) (t : String)
    (he : e.Activated = false) :
    IsOtherPowerUpActive (ps.set i e) t = true ↔
      ∃ j q, j ≠ i ∧ ps[j]? = some q ∧ q.Activated = true ∧ q.TypeName = t := by
  unfold IsOtherPowerUpActive
  rw [List.any_eq_true]
  constructor
  · rintro ⟨x, hx, hp⟩
    obtain ⟨j, hj⟩ := List.mem_iff_getElem?.mp hx
    simp only [Bool.and_eq_true, decide_eq_true_eq] at hp
    by_cases hij : i = j
    · subst hij
      rw [List.getElem?_set_self'] at hj
      cases hps : ps[i]? with
      | none => simp [hps] at hj
      | some y =>
        simp [hps] at hj
        subst hj
        rw [he] at hp
        exact absurd hp.1 (by simp)
    · rw [List.getElem?_set_ne hij] at hj
      exact ⟨j, x, fun h => hij h.symm, hj, hp.1, hp.2⟩
  · rintro ⟨j, q, hji, hq, ha, ht⟩
    refine ⟨q, ?_, by simp [ha, ht]⟩
    apply List.mem_iff_getElem?.mpr
    exact ⟨j, by rw [List.getElem?_set_ne (fun h => hji h.symm)]; exact hq⟩

/-- The step of the loop on an activated power-up whose duration runs out. -/
theorem updatePowerUpsStep_expired (g : Game) (dt : ℝ) (i : Nat) (p : PowerUp)
    (hp : g.PowerUps[i]? = some p) (ha : p.Activated = true) (hd : p.Duration - dt ≤ 0) :
    ∃ e : PowerUp, e.Activated = false ∧ e.TypeName = p.TypeName ∧
      UpdatePowerUpsStep dt g i =
        deactivateEffect { g with PowerUps := g.PowerUps.set i e } p.TypeName := by
  refine ⟨{ p with Position := Vec2.add p.Position (Vec2.scale p.Velocity dt),
                   Duration := p.Duration - dt, Activated := false }, rfl, rfl, ?_⟩
  unfold UpdatePowerUpsStep
  rw [hp]
  simp only [ha, if_true, hd]

/-! ### Frame lemmas -/

theorem sameControl_refl (g : Game) : sameControl g g :=
  ⟨rfl, rfl, rfl, rfl, rfl, rfl, rfl, rfl⟩

theorem sameControl_trans {a b c : Game} (h1 : sameControl a b) (h2 : sameControl b c) :
    sameControl a c := by
  obtain ⟨a1, a2, a3, a4, a5, a6, a7, a8⟩ := h1
  obtain ⟨b1, b2, b3, b4, b5, b6, b7, b8⟩ := h2
  exact ⟨b1.trans a1, b2.trans a2, b3.trans a3, b4.trans a4, b5.trans a5, b6.trans a6,
    b7.trans a7, b8.trans a8⟩

theorem spawnIf_sameControl (g : Game) (chance : Nat) (p : PowerUp) :
    sameControl g (spawnIf g chance p) := by
  unfold spawnIf ShouldSpawn rand
  simp only
  split_ifs <;> exact ⟨rfl, rfl, rfl, rfl, rfl, rfl, rfl, rfl⟩

theorem spawnPowerUps_sameControl (cfg : Config) (g : Game) (block : GameObject) :
    sameControl g (SpawnPowerUps cfg g block) := by
  unfold SpawnPowerUps
  exact sameControl_trans (sameControl_trans (sameControl_trans (sameControl_trans
    (sameControl_trans (spawnIf_sameControl _ _ _) (spawnIf_sameControl _ _ _))
    (spawnIf_sameControl _ _ _)) (spawnIf_sameControl _ _ _)) (spawnIf_sameControl _ _ _))
    (spawnIf_sameControl _ _ _)

theorem doCollisionsBrick_sameControl (cfg : Config) (g : Game) (box : GameObject) :
    sameControl g (DoCollisionsBrick cfg g box).1 := by
  have h := spawnPowerUps_sameControl cfg g { box with Destroyed := true }
  unfold DoCollisionsBrick
  simp only
  split_ifs <;> first | exact sameControl_refl g | exact h

theorem doCollisionsBricksLoop_sameControl (cfg : Config) (bricks : List GameObject) :
    ∀ g : Game, sameControl g (DoCollisionsBricksLoop cfg g bricks).1 := by
  induction bricks with
  | nil => intro g; exact sameControl_refl g
  | cons box rest ih =>
    intro g
    simp only [DoCollisionsBricksLoop]
    exact sameControl_trans (doCollisionsBrick_sameControl cfg g box) (ih _)

theorem doCollisionsBricks_sameControl (cfg : Config) (g : Game) :
    sameControl g (DoCollisionsBricks cfg g) := by
  have h := doCollisionsBricksLoop_sameControl cfg g.currentLevel.Bricks g
  unfold DoCollisionsBricks Game.setBricks
  exact h

theorem activatePowerUp_sameControl (g : Game) (p : PowerUp) :
    sameControl g (ActivatePowerUp g p) := by
  unfold ActivatePowerUp
  split_ifs <;> exact ⟨rfl, rfl, rfl, rfl, rfl, rfl, rfl, rfl⟩

theorem doCollisionsPowerUp_sameControl (g : Game) (p : PowerUp) :
    sameControl g (DoCollisionsPowerUp g p).1 := by
  unfold DoCollisionsPowerUp
  simp only
  split_ifs <;> first | exact sameControl_refl g | exact activatePowerUp_sameControl _ _

theorem doCollisionsPowerUpsLoop_sameControl (ps : List PowerUp) :
    ∀ g : Game, sameControl g (DoCollisionsPowerUpsLoop g ps).1 := by
  induction ps with
  | nil => intro g; exact sameControl_refl g
  | cons p rest ih =>
    intro g
    simp only [DoCollisionsPowerUpsLoop]
    exact sameControl_trans (doCollisionsPowerUp_sameControl g p) (ih _)

theorem doCollisionsPowerUps_sameControl (g : Game) :
    sameControl g (DoCollisionsPowerUps g) := by
  have h := doCollisionsPowerUpsLoop_sameControl g.PowerUps g
  unfold DoCollisionsPowerUps
  exact h

theorem doCollisionsPaddle_sameControl (cfg : Config) (g : Game) :
    sameControl g (DoCollisionsPaddle cfg g) := by
  unfold DoCollisionsPaddle
  simp only
  split_ifs <;> exact ⟨rfl, rfl, rfl, rfl, rfl, rfl, rfl, rfl⟩

theorem doCollisions_sameControl (cfg : Config) (g : Game) :
    sameControl g (DoCollisions cfg g) := by
  unfold DoCollisions
  exact sameControl_trans (sameControl_trans (doCollisionsBricks_sameControl cfg g)
    (doCollisionsPowerUps_sameControl _)) (doCollisionsPaddle_sameControl cfg _)

theorem deactivateEffect_sameControl (g : Game) (t : String) :
    sameControl g (deactivateEffect g t) := by
  unfold deactivateEffect
  split_ifs <;> exact ⟨rfl, rfl, rfl, rfl, rfl, rfl, rfl, rfl⟩

theorem updatePowerUpsStep_sameControl (dt : ℝ) (g : Game) (i : Nat) :
    sameControl g (UpdatePowerUpsStep dt g i) := by
  unfold UpdatePowerUpsStep
  cases g.PowerUps[i]? with
  | none => exact sameControl_refl g
  | some p =>
    simp only
    split_ifs
    · exact sameControl_trans (b := { g with PowerUps := g.PowerUps.set i _ })
        ⟨rfl, rfl, rfl, rfl, rfl, rfl, rfl, rfl⟩ (deactivateEffect_sameControl _ _)
    · exact ⟨rfl, rfl, rfl, rfl, rfl, rfl, rfl, rfl⟩
    · exact ⟨rfl, rfl, rfl, rfl, rfl, rfl, rfl, rfl⟩

theorem foldl_sameControl (f : Game → Nat → Game) (hf : ∀ g i, sameControl g (f g i))
    (l : List Nat) : ∀ g : Game, sameControl g (l.foldl f g) := by
  induction l with
  | nil => intro g; exact sameControl_refl g
  | cons i rest ih =>
    intro g
    simp only [List.foldl_cons]
    exact sameControl_trans (hf g i) (ih _)

theorem updatePowerUps_sameControl (g : Game) (dt : ℝ) :
    sameControl g (UpdatePowerUps g dt) := by
  have h := foldl_sameControl (UpdatePowerUpsStep dt) (updatePowerUpsStep_sameControl dt)
    (List.range g.PowerUps.length) g
  unfold UpdatePowerUps UpdatePowerUpsLoop
  exact h

theorem updateShake_sameControl (g : Game) (dt : ℝ) : sameControl g (UpdateShake g dt) := by
  unfold UpdateShake
  simp only
  split_ifs <;> exact ⟨rfl, rfl, rfl, rfl, rfl, rfl, rfl, rfl⟩

/-- The part of `Game::Update` before the loss check leaves `State`, `Lives`,
`Level`, the window size and the key tables as they were. -/
theorem updateBeforeChecks_sameControl (cfg : Config) (g : Game) (dt : ℝ) :
    sameControl g (UpdateBeforeChecks cfg g dt) := by
  unfold UpdateBeforeChecks
  simp only
  exact sameControl_trans (sameControl_trans (sameControl_trans
    (b := { g with Ball := cfg.Move g.Ball dt g.Width }) ⟨rfl, rfl, rfl, rfl, rfl, rfl, rfl, rfl⟩
    (doCollisions_sameControl cfg _)) (updatePowerUps_sameControl _ dt))
    (updateShake_sameControl _ dt)

theorem resetLevel_fields (cfg : Config) (g : Game) :
    (ResetLevel cfg g).Lives = 3 ∧ (ResetLevel cfg g).State = g.State ∧
    (ResetLevel cfg g).Level = g.Level ∧ (ResetLevel cfg g).Width = g.Width ∧
    (ResetLevel cfg g).Height = g.Height ∧ (ResetLevel cfg g).Effects = g.Effects ∧
    (ResetLevel cfg g).PowerUps = g.PowerUps := by
  unfold ResetLevel
  exact ⟨rfl, rfl, rfl, rfl, rfl, rfl, rfl⟩

theorem resetPlayer_fields (cfg : Config) (g : Game) :
    (ResetPlayer cfg g).State = g.State ∧ (ResetPlayer cfg g).Lives = g.Lives ∧
    (ResetPlayer cfg g).Level = g.Level ∧ (ResetPlayer cfg g).Levels = g.Levels ∧
    (ResetPlayer cfg g).Width = g.Width ∧ (ResetPlayer cfg g).Height = g.Height ∧
    (ResetPlayer cfg g).PowerUps = g.PowerUps ∧
    (ResetPlayer cfg g).Player.Size = cfg.PLAYER_SIZE ∧
    (ResetPlayer cfg g).Player.Position = playerStart cfg g ∧
    (ResetPlayer cfg g).Effects.Chaos = false ∧ (ResetPlayer cfg g).Effects.Confuse = false ∧
    (ResetPlayer cfg g).Ball.Sticky = false ∧ (ResetPlayer cfg g).Ball.PassThrough = false := by
  unfold ResetPlayer
  exact ⟨rfl, rfl, rfl, rfl, rfl, rfl, rfl, rfl, rfl, rfl, rfl, rfl, rfl⟩

/-- With one life left and the ball at the bottom, the loss check leaves the
game in `GAME_MENU`. -/
theorem lossCheck_to_menu (cfg : Config) (g : Game) (dt : ℝ)
    (hbottom : (UpdateBeforeChecks cfg g dt).Ball.Position.y ≥
      ((UpdateBeforeChecks cfg g dt).Height : ℝ)) (h1 : g.Lives = 1) :
    (UpdateLossCheck cfg (UpdateBeforeChecks cfg g dt)).State = GameState.GAME_MENU := by
  obtain ⟨-, hl, -⟩ := updateBeforeChecks_sameControl cfg g dt
  unfold UpdateLossCheck
  rw [if_pos hbottom]
  simp only [hl, h1]
  rw [(resetPlayer_fields cfg _).1]
  rfl


theorem updateLossCheck_size (cfg : Config) (g : Game) :
    (UpdateLossCheck cfg g).Width = g.Width ∧ (UpdateLossCheck cfg g).Height = g.Height := by
  unfold UpdateLossCheck
  by_cases hb : g.Ball.Position.y ≥ (g.Height : ℝ)
  · rw [if_pos hb]
    simp only
    rw [(resetPlayer_fields cfg _).2.2.2.2.1, (resetPlayer_fields cfg _).2.2.2.2.2.1]
    split_ifs
    · exact ⟨rfl, rfl⟩
    · exact ⟨rfl, rfl⟩
  · rw [if_neg hb]
    exact ⟨rfl, rfl⟩


/-! ### Evaluation lemmas -/

/-- The circle test with the square root removed, for evaluation. -/
theorem checkCollisionBall_eval (one : BallObject) (two : GameObject) :
    CheckCollisionBall one two =
      if 0 < one.Radius ∧
          Vec2.dot (Vec2.sub (closestPoint one two) (circleCentre one))
            (Vec2.sub (closestPoint one two) (circleCentre one)) < one.Radius ^ 2 then
        (true, VectorDirection (Vec2.sub (closestPoint one two) (circleCentre one)),
          Vec2.sub (closestPoint one two) (circleCentre one))
      else (false, UP, ⟨0, 0⟩) := by
  rw [checkCollisionBall_eq, distance_eq_length_sub]
  exact if_congr (length_lt_iff _ _) rfl rfl

set_option maxHeartbeats 2000000 in
theorem demoLosing_bottom :
    (UpdateBeforeChecks demoConfig demoLosing (1 / 10)).Ball.Position.y ≥
      ((UpdateBeforeChecks demoConfig demoLosing (1 / 10)).Height : ℝ) := by
  norm_num [UpdateBeforeChecks, demoLosing, demoGame, Game.Init, demoConfig, BallObject.Move,
    BallObject.new, GameObject.new, DoCollisions, DoCollisionsBricks, DoCollisionsBricksLoop,
    DoCollisionsBrick, DoCollisionsPowerUps, DoCollisionsPowerUpsLoop, DoCollisionsPaddle,
    Game.currentLevel, Game.setBricks, demoBrick, checkCollisionBall_eval, closestPoint,
    circleCentre, boxCentre, clampScalar, Vec2.sub, Vec2.add, Vec2.scale, Vec2.dot,
    UpdatePowerUps, UpdatePowerUpsLoop, UpdateShake]

/-! ### Direction lemmas -/

/-- Scaling the running maximum and the dot product by `k > 0` does not change
the index that `pickStep` keeps. -/
theorem pickStep_scale (k : ℝ) (hk : 0 < k) (acc acc' : ℝ × Nat) (i : Nat) (d : ℝ)
    (h1 : acc'.1 = acc.1 * k) (h2 : acc'.2 = acc.2) :
    (pickStep acc' i (d * k)).1 = (pickStep acc i d).1 * k ∧
      (pickStep acc' i (d * k)).2 = (pickStep acc i d).2 := by
  unfold pickStep
  have e : d * k > acc'.1 ↔ d > acc.1 := by
    rw [h1]
    exact mul_lt_mul_right hk
  by_cases h : d > acc.1
  · rw [if_pos h, if_pos (e.mpr h)]
    exact ⟨rfl, rfl⟩
  · rw [if_neg h, if_neg (fun h' => h (e.mp h'))]
    exact ⟨h1, h2⟩

/-- The loop of `VectorDirection` in terms of `pickStep`. -/
theorem vectorDirection_pick (v : Vec2) :
    VectorDirection v =
      (pickStep (pickStep (pickStep (pickStep ((0 : ℝ), 2 ^ 32 - 1) 0 (Vec2.normalize v).y)
        1 (Vec2.normalize v).x) 2 (-(Vec2.normalize v).y)) 3 (-(Vec2.normalize v).x)).2 := by
  rw [vectorDirection_unroll]
  simp only [VectorDirectionStep, pickStep, Vec2.dot]
  norm_num

/-- The direction of a vector is picked by the signs and sizes of its own
components: `VectorDirection` agrees with `VectorDirectionRaw` on every vector. -/
theorem vectorDirection_eq_raw (v : Vec2) : VectorDirection v = VectorDirectionRaw v := by
  rw [vectorDirection_pick]
  unfold VectorDirectionRaw
  by_cases hv : v.x ≠ 0 ∨ v.y ≠ 0
  · obtain ⟨k, hk, hx, hy⟩ := normalize_sign v hv
    rw [hx, hy, ← neg_mul, ← neg_mul]
    have s0 : ((0 : ℝ), 2 ^ 32 - 1).1 = ((0 : ℝ), 2 ^ 32 - 1).1 * k ∧
        ((0 : ℝ), 2 ^ 32 - 1).2 = ((0 : ℝ), 2 ^ 32 - 1).2 := ⟨by simp, rfl⟩
    have s1 := pickStep_scale k hk _ _ 0 v.y s0.1 s0.2
    have s2 := pickStep_scale k hk _ _ 1 v.x s1.1 s1.2
    have s3 := pickStep_scale k hk _ _ 2 (-v.y) s2.1 s2.2
    have s4 := pickStep_scale k hk _ _ 3 (-v.x) s3.1 s3.2
    exact s4.2
  · have hx : v.x = 0 := by
      by_contra h
      exact hv (Or.inl h)
    have hy : v.y = 0 := by
      by_contra h
      exact hv (Or.inr h)
    simp [Vec2.normalize, Vec2.scale, hx, hy]

/-! ### The concrete run -/

/-- In `GAME_WIN` with ENTER not down `ProcessInput` changes nothing. -/
theorem processInput_win_idle (cfg : Config) (g : Game) (dt : ℝ)
    (hwin : g.State = GameState.GAME_WIN) (hk : g.Keys GLFW_KEY_ENTER = false) :
    ProcessInput cfg g dt = g := by
  simp [ProcessInput, ProcessInputMenu, ProcessInputWin, ProcessInputActive, ProcessInputEnter,
    ProcessInputW, ProcessInputS, ProcessInputA, ProcessInputD, ProcessInputSpace, hwin, hk]

/-- A frame of the render loop leads from a reachable state to a reachable state. -/
theorem reachable_frame (cfg : Config) (start g : Game) (events : List (Int × Int)) (dt : ℝ)
    (hdt : 0 ≤ dt) (hg : Reachable cfg start g) : Reachable cfg start (frame cfg g events dt) := by
  unfold frame
  apply Reachable.update _ _ hdt
  apply Reachable.input _ _ hdt
  induction events generalizing g with
  | nil => exact hg
  | cons e rest ih =>
    simp only [List.foldl_cons]
    exact ih _ (Reachable.key g e.1 e.2 hg)

/-- The key events and the `ProcessInput` of the first frame of the concrete run. -/
theorem demo_input1 :
    ProcessInput demoConfig
      ([((GLFW_KEY_ENTER : Int), GLFW_PRESS), ((GLFW_KEY_SPACE : Int), GLFW_PRESS)].foldl
        (fun g e => key_callback g e.1 e.2) demoGame) 1 =
    demoRunState GameState.GAME_ACTIVE
      (setKey (setKey demoGame.Keys GLFW_KEY_ENTER true) GLFW_KEY_SPACE true)
      (setKey demoGame.KeysProcessed GLFW_KEY_ENTER true) [] demoFreeBall false 0 := by
  simp [ProcessInput, ProcessInputMenu, ProcessInputWin, ProcessInputActive, ProcessInputEnter,
    ProcessInputW, ProcessInputS, ProcessInputA, ProcessInputD, ProcessInputSpace, key_callback,
    GLFW_KEY_ENTER, GLFW_KEY_SPACE, GLFW_PRESS, GLFW_KEY_W, GLFW_KEY_S, GLFW_KEY_A, GLFW_KEY_D,
    setKey, demoGame, Game.Init, demoRunState, demoFreeBall]

set_option maxHeartbeats 4000000 in
/-- The brick loop of the first frame: the ball, moved to (487.5, 205), hits
`demoBrick` from below; the brick is destroyed, the sixth draw spawns a chaos
power-up, and the ball is pushed down by 5 with its vertical velocity reversed. -/
theorem demo_bricks1 (keys kp : Nat → Bool) :
    DoCollisionsBricks demoConfig
      (demoRunState GameState.GAME_ACTIVE keys kp []
        { demoFreeBall with Position := ⟨975 / 2, 205⟩ } false 0) =
    { demoRunState GameState.GAME_ACTIVE keys kp [demoChaosPowerUp 180]
        { demoFreeBall with Position := ⟨975 / 2, 210⟩, Velocity := ⟨100, 350⟩ } false 6 with
      Levels := [⟨[{ demoBrick with Destroyed := true }]⟩, ⟨[]⟩, ⟨[]⟩, ⟨[]⟩] } := by
  have hb : (demoRunState GameState.GAME_ACTIVE keys kp []
        { demoFreeBall with Position := ⟨975 / 2, 205⟩ } false 0).currentLevel.Bricks
      = [demoBrick] := by
    simp [Game.currentLevel, demoRunState, demoGame, Game.Init, demoConfig]
  have hstep : DoCollisionsBrick demoConfig (demoRunState GameState.GAME_ACTIVE keys kp []
        { demoFreeBall with Position := ⟨975 / 2, 205⟩ } false 0) demoBrick =
      (demoRunState GameState.GAME_ACTIVE keys kp [demoChaosPowerUp 180]
        { demoFreeBall with Position := ⟨975 / 2, 210⟩, Velocity := ⟨100, 350⟩ } false 6,
        { demoBrick with Destroyed := true }) := by
    unfold DoCollisionsBrick
    rw [checkCollisionBall_eval]
    norm_num [demoRunState, demoFreeBall, demoChaosPowerUp, demoGame, Game.Init, demoConfig,
      BallObject.new, GameObject.new, demoBrick,
      closestPoint, circleCentre, boxCentre, clampScalar, Vec2.sub, Vec2.add, Vec2.dot,
      vectorDirection_eq_raw, VectorDirectionRaw, pickStep, resolveBrickHit, UP, DOWN, LEFT,
      RIGHT, SpawnPowerUps, spawnIf, ShouldSpawn, rand, demoRand, PowerUp.new, abs_div]
  unfold DoCollisionsBricks
  simp only [hb, DoCollisionsBricksLoop, hstep]
  simp [Game.setBricks, demoRunState, demoGame, Game.Init, demoConfig]

set_option maxHeartbeats 4000000 in
/-- The first `Update` of the concrete run up to the loss check. -/
theorem demo_before1 (keys kp : Nat → Bool) :
    UpdateBeforeChecks demoConfig
      (demoRunState GameState.GAME_ACTIVE keys kp [] demoFreeBall false 0) 1 =
    { demoRunState GameState.GAME_ACTIVE keys kp [demoChaosPowerUp 330]
        { demoFreeBall with Position := ⟨975 / 2, 210⟩, Velocity := ⟨100, 350⟩ } false 6 with
      Levels := [⟨[{ demoBrick with Destroyed := true }]⟩, ⟨[]⟩, ⟨[]⟩, ⟨[]⟩] } := by
  have hmove : ({ demoRunState GameState.GAME_ACTIVE keys kp [] demoFreeBall false 0 with
        Ball := demoConfig.Move
          (demoRunState GameState.GAME_ACTIVE keys kp [] demoFreeBall false 0).Ball 1
          (demoRunState GameState.GAME_ACTIVE keys kp [] demoFreeBall false 0).Width } : Game) =
      demoRunState GameState.GAME_ACTIVE keys kp []
        { demoFreeBall with Position := ⟨975 / 2, 205⟩ } false 0 := by
    norm_num [demoRunState, demoFreeBall, demoGame, Game.Init, demoConfig, BallObject.Move,
      BallObject.new, GameObject.new, Vec2.add, Vec2.scale]
  unfold UpdateBeforeChecks DoCollisions
  simp only [hmove, demo_bricks1]
  norm_num [demoRunState, demoFreeBall, demoChaosPowerUp, demoGame, Game.Init, demoConfig,
    BallObject.new, GameObject.new, DoCollisionsPowerUps, DoCollisionsPowerUpsLoop,
    DoCollisionsPowerUp, DoCollisionsPaddle, PowerUp.new, CheckCollision,
    demoBrick, checkCollisionBall_eval, closestPoint,
    circleCentre, boxCentre, clampScalar, Vec2.sub, Vec2.add, Vec2.scale, Vec2.dot,
    UpdatePowerUps, UpdatePowerUpsLoop, UpdatePowerUpsStep, UpdateShake, List.range,
    List.range.loop]

/-- The loss check of the first `Update` of the concrete run changes nothing:
the ball is at height 210. -/
theorem demo_loss1 (keys kp : Nat → Bool) :
    UpdateLossCheck demoConfig (UpdateBeforeChecks demoConfig
      (demoRunState GameState.GAME_ACTIVE keys kp [] demoFreeBall false 0) 1) =
    { demoRunState GameState.GAME_ACTIVE keys kp [demoChaosPowerUp 330]
        { demoFreeBall with Position := ⟨975 / 2, 210⟩, Velocity := ⟨100, 350⟩ } false 6 with
      Levels := [⟨[{ demoBrick with Destroyed := true }]⟩, ⟨[]⟩, ⟨[]⟩, ⟨[]⟩] } := by
  rw [demo_before1]
  unfold UpdateLossCheck
  rw [if_neg]
  norm_num [demoRunState, demoGame, Game.Init]

set_option maxHeartbeats 4000000 in
/-- The first `Update` of the concrete run, one second long: the level is won
and the chaos power-up is on its way down. -/
theorem demo_update1 (keys kp : Nat → Bool) :
    Update demoConfig (demoRunState GameState.GAME_ACTIVE keys kp [] demoFreeBall false 0) 1 =
      demoRunState GameState.GAME_WIN keys kp [demoChaosPowerUp 330] demoGame.Ball true 6 := by
  unfold Update
  rw [demo_loss1]
  norm_num [UpdateWinCheck, ResetLevel, ResetPlayer,
    playerStart, BallObject.Reset, GameLevel.IsCompleted, white,
    demoRunState, demoFreeBall, demoChaosPowerUp, demoGame, Game.Init, demoConfig,
    BallObject.new, GameObject.new, PowerUp.new, Game.currentLevel, demoBrick, Vec2.add]

set_option maxHeartbeats 4000000 in
/-- In the won game of the concrete run the resting ball does not touch
`demoBrick`: the brick loop changes nothing. -/
theorem demo_bricks_idle (keys kp : Nat → Bool) (ps : List PowerUp) (chaos : Bool) :
    DoCollisionsBricks demoConfig
      (demoRunState GameState.GAME_WIN keys kp ps demoGame.Ball chaos 6) =
    demoRunState GameState.GAME_WIN keys kp ps demoGame.Ball chaos 6 := by
  have hb : (demoRunState GameState.GAME_WIN keys kp ps demoGame.Ball chaos
      6).currentLevel.Bricks = [demoBrick] := by
    simp [Game.currentLevel, demoRunState, demoGame, Game.Init, demoConfig]
  have hstep : DoCollisionsBrick demoConfig
      (demoRunState GameState.GAME_WIN keys kp ps demoGame.Ball chaos 6) demoBrick =
      (demoRunState GameState.GAME_WIN keys kp ps demoGame.Ball chaos 6, demoBrick) := by
    unfold DoCollisionsBrick
    rw [checkCollisionBall_eval]
    norm_num [demoRunState, demoGame, Game.Init, demoConfig,
      BallObject.new, GameObject.new, demoBrick,
      closestPoint, circleCentre, boxCentre, clampScalar, Vec2.sub, Vec2.add, Vec2.dot]
  unfold DoCollisionsBricks
  simp only [hb, DoCollisionsBricksLoop, hstep]
  simp [Game.setBricks, demoRunState, demoGame, Game.Init, demoConfig]

set_option maxHeartbeats 4000000 in
/-- The collision phase of the second `Update` of the concrete run changes
nothing: the ball rests, and the power-up at 330 is above the paddle. -/
theorem demo_collisions2 (keys kp : Nat → Bool) (dt : ℝ) :
    DoCollisions demoConfig
      { demoRunState GameState.GAME_WIN keys kp [demoChaosPowerUp 330] demoGame.Ball true 6 with
        Ball := demoConfig.Move
          (demoRunState GameState.GAME_WIN keys kp [demoChaosPowerUp 330] demoGame.Ball
            true 6).Ball dt
          (demoRunState GameState.GAME_WIN keys kp [demoChaosPowerUp 330] demoGame.Ball
            true 6).Width } =
    demoRunState GameState.GAME_WIN keys kp [demoChaosPowerUp 330] demoGame.Ball true 6 := by
  have hmove : ({ demoRunState GameState.GAME_WIN keys kp [demoChaosPowerUp 330] demoGame.Ball
          true 6 with
        Ball := demoConfig.Move
          (demoRunState GameState.GAME_WIN keys kp [demoChaosPowerUp 330] demoGame.Ball
            true 6).Ball dt
          (demoRunState GameState.GAME_WIN keys kp [demoChaosPowerUp 330] demoGame.Ball
            true 6).Width } : Game) =
      demoRunState GameState.GAME_WIN keys kp [demoChaosPowerUp 330] demoGame.Ball true 6 := by
    simp [demoRunState, demoGame, Game.Init, demoConfig, BallObject.Move, BallObject.new]
  unfold DoCollisions
  simp only [hmove, demo_bricks_idle]
  norm_num [demoRunState, demoChaosPowerUp, demoGame, Game.Init, demoConfig,
    BallObject.new, GameObject.new, DoCollisionsPowerUps, DoCollisionsPowerUpsLoop,
    DoCollisionsPowerUp, DoCollisionsPaddle, PowerUp.new, CheckCollision]

set_option maxHeartbeats 4000000 in
/-- The second `Update` of the concrete run up to the loss check. -/
theorem demo_before2 (keys kp : Nat → Bool) :
    UpdateBeforeChecks demoConfig
      (demoRunState GameState.GAME_WIN keys kp [demoChaosPowerUp 330] demoGame.Ball true 6)
      (5 / 3) =
    demoRunState GameState.GAME_WIN keys kp [demoChaosPowerUp 580] demoGame.Ball true 6 := by
  unfold UpdateBeforeChecks
  simp only [demo_collisions2]
  norm_num [demoRunState, demoChaosPowerUp, demoGame, Game.Init, demoConfig,
    BallObject.new, GameObject.new, PowerUp.new,
    Vec2.add, Vec2.scale, UpdatePowerUps, UpdatePowerUpsLoop, UpdatePowerUpsStep,
    UpdateShake, List.range, List.range.loop]

/-- The second `Update` of the concrete run, 5/3 seconds long: the chaos
power-up falls from 330 to 580. -/
theorem demo_update2 (keys kp : Nat → Bool) :
    Update demoConfig
      (demoRunState GameState.GAME_WIN keys kp [demoChaosPowerUp 330] demoGame.Ball true 6)
      (5 / 3) =
    demoRunState GameState.GAME_WIN keys kp [demoChaosPowerUp 580] demoGame.Ball true 6 := by
  unfold Update
  rw [demo_before2]
  have hloss : UpdateLossCheck demoConfig
      (demoRunState GameState.GAME_WIN keys kp [demoChaosPowerUp 580] demoGame.Ball true 6) =
      demoRunState GameState.GAME_WIN keys kp [demoChaosPowerUp 580] demoGame.Ball true 6 := by
    unfold UpdateLossCheck
    rw [if_neg]
    norm_num [demoRunState, demoGame, Game.Init, demoConfig, BallObject.new, Vec2.add]
  rw [hloss]
  simp [UpdateWinCheck, demoRunState]

/-- The effect of `ActivatePowerUp` on a chaos power-up. -/
theorem activatePowerUp_chaos (g : Game) (p : PowerUp) (h : p.TypeName = "chaos") :
    ActivatePowerUp g p =
      if !g.Effects.Confuse then { g with Effects := { g.Effects with Chaos := true } } else g := by
  simp [ActivatePowerUp, h]

/-- The deactivation of the chaos effect. -/
theorem deactivateEffect_chaos (g : Game) :
    deactivateEffect g "chaos" =
      if !IsOtherPowerUpActive g.PowerUps "chaos" then
        { g with Effects := { g.Effects with Chaos := false } }
      else g := by
  simp [deactivateEffect]

set_option maxHeartbeats 4000000 in
/-- The third `Update` of the concrete run, 15 seconds long: the paddle collects
the chaos power-up, its duration runs out in the same call, and chaos is
switched off while the game is still in `GAME_WIN`. -/
theorem demo_update3 (keys kp : Nat → Bool) :
    Update demoConfig
      (demoRunState GameState.GAME_WIN keys kp [demoChaosPowerUp 580] demoGame.Ball true 6)
      15 =
    demoRunState GameState.GAME_WIN keys kp [] demoGame.Ball false 6 := by
  have hmove : ({ demoRunState GameState.GAME_WIN keys kp [demoChaosPowerUp 580] demoGame.Ball
          true 6 with
        Ball := demoConfig.Move
          (demoRunState GameState.GAME_WIN keys kp [demoChaosPowerUp 580] demoGame.Ball
            true 6).Ball 15
          (demoRunState GameState.GAME_WIN keys kp [demoChaosPowerUp 580] demoGame.Ball
            true 6).Width } : Game) =
      demoRunState GameState.GAME_WIN keys kp [demoChaosPowerUp 580] demoGame.Ball true 6 := by
    simp [demoRunState, demoGame, Game.Init, demoConfig, BallObject.Move, BallObject.new]
  have hbefore : UpdateBeforeChecks demoConfig
      (demoRunState GameState.GAME_WIN keys kp [demoChaosPowerUp 580] demoGame.Ball true 6)
      15 =
      demoRunState GameState.GAME_WIN keys kp [] demoGame.Ball false 6 := by
    unfold UpdateBeforeChecks DoCollisions
    simp only [hmove, demo_bricks_idle]
    norm_num [demoRunState, demoChaosPowerUp, demoGame, Game.Init, demoConfig,
      BallObject.new, GameObject.new, DoCollisionsPowerUps, DoCollisionsPowerUpsLoop,
      DoCollisionsPowerUp, DoCollisionsPaddle, PowerUp.new, CheckCollision,
      activatePowerUp_chaos, Vec2.add, Vec2.scale, UpdatePowerUps, UpdatePowerUpsLoop,
      UpdatePowerUpsStep, deactivateEffect_chaos, IsOtherPowerUpActive, UpdateShake, List.range,
      List.range.loop]
  unfold Update
  rw [hbefore]
  have hloss : UpdateLossCheck demoConfig
      (demoRunState GameState.GAME_WIN keys kp [] demoGame.Ball false 6) =
      demoRunState GameState.GAME_WIN keys kp [] demoGame.Ball false 6 := by
    unfold UpdateLossCheck
    rw [if_neg]
    norm_num [demoRunState, demoGame, Game.Init, demoConfig, BallObject.new, Vec2.add]
  rw [hloss]
  simp [UpdateWinCheck, demoRunState]

/-- The key events of a press or a release on a state of the concrete run. -/
theorem demo_key (st : GameState) (keys kp : Nat → Bool) (ps : List PowerUp) (ball : BallObject)
    (chaos : Bool) (rp : Nat) (key : Nat) (hkey : key < 1024) :
    key_callback (demoRunState st keys kp ps ball chaos rp) key GLFW_PRESS =
      demoRunState st (setKey keys key true) kp ps ball chaos rp ∧
    key_callback (demoRunState st keys kp ps ball chaos rp) key GLFW_RELEASE =
      demoRunState st (setKey keys key false) (setKey kp key false) ps ball chaos rp := by
  have h : (0 : Int) ≤ key ∧ (key : Int) < 1024 := ⟨by omega, by omega⟩
  constructor
  · simp [key_callback, h, GLFW_PRESS, demoRunState]
  · simp [key_callback, h, GLFW_PRESS, GLFW_RELEASE, demoRunState]

/-- The state after the first frame of the concrete run. -/
theorem demoFrame1_eq :
    demoFrame1 =
      demoRunState GameState.GAME_WIN
        (setKey (setKey demoGame.Keys GLFW_KEY_ENTER true) GLFW_KEY_SPACE true)
        (setKey demoGame.KeysProcessed GLFW_KEY_ENTER true)
        [demoChaosPowerUp 330] demoGame.Ball true 6 := by
  unfold demoFrame1 frame
  rw [demo_input1, demo_update1]

/-- The state after the second frame of the concrete run. -/
theorem demoFrame2_eq :
    ∃ keys kp : Nat → Bool,
      demoFrame2 =
        demoRunState GameState.GAME_WIN keys kp [demoChaosPowerUp 580] demoGame.Ball true 6 ∧
      keys GLFW_KEY_ENTER = false := by
  refine ⟨setKey (setKey (setKey (setKey demoGame.Keys GLFW_KEY_ENTER true) GLFW_KEY_SPACE true)
      GLFW_KEY_ENTER false) GLFW_KEY_SPACE false,
    setKey (setKey (setKey demoGame.KeysProcessed GLFW_KEY_ENTER true) GLFW_KEY_ENTER false)
      GLFW_KEY_SPACE false, ?_, by simp [setKey, GLFW_KEY_ENTER, GLFW_KEY_SPACE]⟩
  unfold demoFrame2 frame
  rw [demoFrame1_eq]
  simp only [List.foldl_cons, List.foldl_nil]
  rw [(demo_key _ _ _ _ _ _ _ GLFW_KEY_ENTER (by decide)).2,
    (demo_key _ _ _ _ _ _ _ GLFW_KEY_SPACE (by decide)).2]
  rw [processInput_win_idle _ _ _ rfl (by simp [demoRunState, setKey, GLFW_KEY_ENTER, GLFW_KEY_SPACE])]
  rw [demo_update2]

/-- The state after the third frame of the concrete run. -/
theorem demoFrame3_eq :
    ∃ keys kp : Nat → Bool,
      demoFrame3 = demoRunState GameState.GAME_WIN keys kp [] demoGame.Ball false 6 := by
  obtain ⟨keys, kp, h2, hk⟩ := demoFrame2_eq
  refine ⟨keys, kp, ?_⟩
  unfold demoFrame3 frame
  rw [h2]
  simp only [List.foldl_nil]
  rw [processInput_win_idle _ _ _ rfl (by simpa [demoRunState] using hk)]
  rw [demo_update3]


/-! ### Chaos lemmas -/

theorem spawnIf_effects (g : Game) (chance : Nat) (p : PowerUp) :
    (spawnIf g chance p).Effects = g.Effects := by
  unfold spawnIf ShouldSpawn rand
  simp only
  split_ifs <;> rfl

theorem spawnPowerUps_effects (cfg : Config) (g : Game) (block : GameObject) :
    (SpawnPowerUps cfg g block).Effects = g.Effects := by
  unfold SpawnPowerUps
  simp only [spawnIf_effects]

/-- The brick loop does not touch the confuse and chaos flags. -/
theorem doCollisionsBrick_flags (cfg : Config) (g : Game) (box : GameObject) :
    (DoCollisionsBrick cfg g box).1.Effects.Chaos = g.Effects.Chaos ∧
      (DoCollisionsBrick cfg g box).1.Effects.Confuse = g.Effects.Confuse := by
  have h := spawnPowerUps_effects cfg g { box with Destroyed := true }
  unfold DoCollisionsBrick
  simp only
  split_ifs <;> first | exact ⟨rfl, rfl⟩ | simp [h]

theorem doCollisionsBricksLoop_flags (cfg : Config) (bricks : List GameObject) :
    ∀ g : Game, (DoCollisionsBricksLoop cfg g bricks).1.Effects.Chaos = g.Effects.Chaos ∧
      (DoCollisionsBricksLoop cfg g bricks).1.Effects.Confuse = g.Effects.Confuse := by
  induction bricks with
  | nil => intro g; exact ⟨rfl, rfl⟩
  | cons box rest ih =>
    intro g
    simp only [DoCollisionsBricksLoop]
    obtain ⟨h1, h2⟩ := ih (DoCollisionsBrick cfg g box).1
    obtain ⟨h3, h4⟩ := doCollisionsBrick_flags cfg g box
    exact ⟨h1.trans h3, h2.trans h4⟩

theorem doCollisionsBricks_flags (cfg : Config) (g : Game) :
    (DoCollisionsBricks cfg g).Effects.Chaos = g.Effects.Chaos ∧
      (DoCollisionsBricks cfg g).Effects.Confuse = g.Effects.Confuse := by
  have h := doCollisionsBricksLoop_flags cfg g.currentLevel.Bricks g
  unfold DoCollisionsBricks Game.setBricks
  exact h

/-- Activating a power-up never switches chaos off. -/
theorem activatePowerUp_chaos_stays (g : Game) (p : PowerUp) (h : g.Effects.Chaos = true) :
    (ActivatePowerUp g p).Effects.Chaos = true := by
  unfold ActivatePowerUp
  split_ifs <;> first | exact h | rfl

theorem doCollisionsPowerUp_chaos_stays (g : Game) (p : PowerUp) (h : g.Effects.Chaos = true) :
    (DoCollisionsPowerUp g p).1.Effects.Chaos = true := by
  unfold DoCollisionsPowerUp
  simp only
  split_ifs <;> first | exact h | exact activatePowerUp_chaos_stays _ _ h

theorem doCollisionsPowerUpsLoop_chaos_stays (ps : List PowerUp) :
    ∀ g : Game, g.Effects.Chaos = true → (DoCollisionsPowerUpsLoop g ps).1.Effects.Chaos = true := by
  induction ps with
  | nil => intro g h; exact h
  | cons p rest ih =>
    intro g h
    simp only [DoCollisionsPowerUpsLoop]
    exact ih _ (doCollisionsPowerUp_chaos_stays g p h)

/-- The collision phase never switches chaos off. -/
theorem doCollisions_chaos_stays (cfg : Config) (g : Game) (h : g.Effects.Chaos = true) :
    (DoCollisions cfg g).Effects.Chaos = true := by
  have h1 : (DoCollisionsBricks cfg g).Effects.Chaos = true :=
    (doCollisionsBricks_flags cfg g).1.trans h
  have h2 : (DoCollisionsPowerUps (DoCollisionsBricks cfg g)).Effects.Chaos = true := by
    have := doCollisionsPowerUpsLoop_chaos_stays (DoCollisionsBricks cfg g).PowerUps _ h1
    unfold DoCollisionsPowerUps
    exact this
  unfold DoCollisions DoCollisionsPaddle
  simp only
  split_ifs <;> exact h2

theorem deactivateEffect_powerUps (g : Game) (t : String) :
    (deactivateEffect g t).PowerUps = g.PowerUps := by
  unfold deactivateEffect
  split_ifs <;> rfl

/-- A step of the loop of `UpdatePowerUps` only writes the power-up of its own
index. -/
theorem updatePowerUpsStep_other (dt : ℝ) (g : Game) (i j : Nat) (h : i ≠ j) :
    (UpdatePowerUpsStep dt g i).PowerUps[j]? = g.PowerUps[j]? := by
  unfold UpdatePowerUpsStep
  cases g.PowerUps[i]? with
  | none => rfl
  | some p =>
    simp only
    split_ifs
    · rw [deactivateEffect_powerUps]
      exact List.getElem?_set_ne h
    · exact List.getElem?_set_ne h
    · exact List.getElem?_set_ne h

theorem deactivateEffect_chaos_stays (g : Game) (t : String) (ht : t ≠ "chaos") :
    (deactivateEffect g t).Effects.Chaos = g.Effects.Chaos := by
  unfold deactivateEffect
  split_ifs <;> rfl

/-- A step of the loop of `UpdatePowerUps` leaves chaos as it is unless the
power-up of its index is an activated chaos power-up whose duration runs out. -/
theorem updatePowerUpsStep_chaos (dt : ℝ) (g : Game) (i : Nat)
    (hno : ∀ p, g.PowerUps[i]? = some p → p.Activated = true → p.TypeName = "chaos" →
      ¬ p.Duration - dt ≤ 0) :
    (UpdatePowerUpsStep dt g i).Effects.Chaos = g.Effects.Chaos := by
  unfold UpdatePowerUpsStep
  cases hp : g.PowerUps[i]? with
  | none => rfl
  | some p =>
    simp only
    split_ifs with ha hd
    · have hne : p.TypeName ≠ "chaos" := fun hc => hno p hp ha hc hd
      exact deactivateEffect_chaos_stays _ _ hne
    · rfl
    · rfl

/-- The loop of `UpdatePowerUps` over the first `n` indices leaves chaos as it
is when none of these indices holds an activated chaos power-up whose duration
runs out; the power-ups of the other indices are untouched. -/
theorem updatePowerUpsLoop_chaos (dt : ℝ) (g : Game) (n : Nat)
    (hno : ∀ j p, j < n → g.PowerUps[j]? = some p → p.Activated = true →
      p.TypeName = "chaos" → ¬ p.Duration - dt ≤ 0) :
    ((List.range n).foldl (UpdatePowerUpsStep dt) g).Effects.Chaos = g.Effects.Chaos ∧
      ∀ j, n ≤ j → ((List.range n).foldl (UpdatePowerUpsStep dt) g).PowerUps[j]? =
        g.PowerUps[j]? := by
  induction n with
  | zero => exact ⟨rfl, fun _ _ => rfl⟩
  | succ n ih =>
    obtain ⟨h1, h2⟩ := ih (fun j p hj => hno j p (Nat.lt_succ_of_lt hj))
    rw [List.range_succ, List.foldl_append]
    simp only [List.foldl_cons, List.foldl_nil]
    constructor
    · rw [updatePowerUpsStep_chaos dt _ n ?_, h1]
      intro p hp
      rw [h2 n (le_refl n)] at hp
      exact hno n p (Nat.lt_succ_self n) hp
    · intro j hj
      rw [updatePowerUpsStep_other dt _ n j (by omega), h2 j (by omega)]

/-- `UpdatePowerUps` leaves chaos as it is when no activated chaos power-up runs
out of duration. -/
theorem updatePowerUps_chaos (g : Game) (dt : ℝ)
    (hno : ∀ p ∈ g.PowerUps, p.Activated = true → p.TypeName = "chaos" →
      ¬ p.Duration - dt ≤ 0) :
    (UpdatePowerUps g dt).Effects.Chaos = g.Effects.Chaos := by
  have h := (updatePowerUpsLoop_chaos dt g g.PowerUps.length
    (fun j p _ hp => hno p (List.mem_iff_getElem?.mpr ⟨j, hp⟩))).1
  unfold UpdatePowerUps UpdatePowerUpsLoop
  exact h

theorem updateShake_chaos (g : Game) (dt : ℝ) :
    (UpdateShake g dt).Effects.Chaos = g.Effects.Chaos := by
  unfold UpdateShake
  simp only
  split_ifs <;> rfl

/-- The loss check leaves `State` as it is or sets it to `GAME_MENU`. -/
theorem updateLossCheck_state (cfg : Config) (g : Game) :
    (UpdateLossCheck cfg g).State = g.State ∨
      (UpdateLossCheck cfg g).State = GameState.GAME_MENU := by
  unfold UpdateLossCheck
  by_cases hb : g.Ball.Position.y ≥ (g.Height : ℝ)
  · rw [if_pos hb]
    simp only
    rw [(resetPlayer_fields cfg _).1]
    split_ifs
    · right; rfl
    · left; rfl
  · rw [if_neg hb]
    left; rfl

/-- The `GAME_MENU` block of `ProcessInput` leaves `State` as it is or sets it
to `GAME_ACTIVE`. -/
theorem processInputMenu_state (g : Game) :
    (ProcessInputMenu g).State = g.State ∨
      (ProcessInputMenu g).State = GameState.GAME_ACTIVE := by
  have hS : ∀ a : Game, (ProcessInputS a).State = a.State := by
    intro a; unfold ProcessInputS; split_ifs <;> rfl
  have hW : ∀ a : Game, (ProcessInputW a).State = a.State := by
    intro a; unfold ProcessInputW; split_ifs <;> rfl
  unfold ProcessInputMenu
  split_ifs
  · rw [hS, hW]
    unfold ProcessInputEnter
    split_ifs
    · right; rfl
    · left; rfl
  · left; rfl

/-- The `GAME_ACTIVE` block of `ProcessInput` leaves `State` as it is. -/
theorem processInputActive_state (cfg : Config) (g : Game) (dt : ℝ) :
    (ProcessInputActive cfg g dt).State = g.State := by
  have hA : ∀ (a : Game) (v : ℝ), (ProcessInputA a v).State = a.State := by
    intro a v; unfold ProcessInputA; split_ifs <;> rfl
  have hD : ∀ (a : Game) (v : ℝ), (ProcessInputD a v).State = a.State := by
    intro a v; unfold ProcessInputD; split_ifs <;> rfl
  have hSp : ∀ a : Game, (ProcessInputSpace a).State = a.State := by
    intro a; unfold ProcessInputSpace; split_ifs <;> rfl
  unfold ProcessInputActive
  split_ifs
  · rw [hSp, hD, hA]
  · rfl

/-- The `GAME_WIN` block of `ProcessInput` leaves `State` as it is or sets it to
`GAME_MENU`. -/
theorem processInputWin_state (g : Game) :
    (ProcessInputWin g).State = g.State ∨ (ProcessInputWin g).State = GameState.GAME_MENU := by
  unfold ProcessInputWin
  split_ifs <;> first | (left; rfl) | (right; rfl)

/-! ### Input lemmas -/

/-- The `GAME_WIN` block of `ProcessInput` leaves `Level`, `Keys`, the ball and
the paddle as they are. -/
theorem processInputWin_fields (g : Game) :
    (ProcessInputWin g).Level = g.Level ∧ (ProcessInputWin g).Keys = g.Keys ∧
      (ProcessInputWin g).Ball = g.Ball ∧ (ProcessInputWin g).Player = g.Player ∧
      (ProcessInputWin g).Lives = g.Lives := by
  unfold ProcessInputWin
  split_ifs <;> exact ⟨rfl, rfl, rfl, rfl, rfl⟩

/-- The `GAME_ACTIVE` block of `ProcessInput` leaves `Level`, `Lives` and the key
tables as they are. -/
theorem processInputActive_fields (cfg : Config) (g : Game) (dt : ℝ) :
    (ProcessInputActive cfg g dt).Level = g.Level ∧
      (ProcessInputActive cfg g dt).Keys = g.Keys ∧
      (ProcessInputActive cfg g dt).KeysProcessed = g.KeysProcessed ∧
      (ProcessInputActive cfg g dt).Lives = g.Lives := by
  have hA : ∀ (a : Game) (v : ℝ), (ProcessInputA a v).Level = a.Level ∧
      (ProcessInputA a v).Keys = a.Keys ∧ (ProcessInputA a v).KeysProcessed = a.KeysProcessed ∧
      (ProcessInputA a v).Lives = a.Lives := by
    intro a v; unfold ProcessInputA; split_ifs <;> exact ⟨rfl, rfl, rfl, rfl⟩
  have hD : ∀ (a : Game) (v : ℝ), (ProcessInputD a v).Level = a.Level ∧
      (ProcessInputD a v).Keys = a.Keys ∧ (ProcessInputD a v).KeysProcessed = a.KeysProcessed ∧
      (ProcessInputD a v).Lives = a.Lives := by
    intro a v; unfold ProcessInputD; split_ifs <;> exact ⟨rfl, rfl, rfl, rfl⟩
  have hSp : ∀ a : Game, (ProcessInputSpace a).Level = a.Level ∧
      (ProcessInputSpace a).Keys = a.Keys ∧ (ProcessInputSpace a).KeysProcessed = a.KeysProcessed ∧
      (ProcessInputSpace a).Lives = a.Lives := by
    intro a; unfold ProcessInputSpace; split_ifs <;> exact ⟨rfl, rfl, rfl, rfl⟩
  unfold ProcessInputActive
  split_ifs
  · obtain ⟨a1, a2, a3, a4⟩ := hSp (ProcessInputD (ProcessInputA g (cfg.PLAYER_VELOCITY * dt))
      (cfg.PLAYER_VELOCITY * dt))
    obtain ⟨b1, b2, b3, b4⟩ := hD (ProcessInputA g (cfg.PLAYER_VELOCITY * dt))
      (cfg.PLAYER_VELOCITY * dt)
    obtain ⟨c1, c2, c3, c4⟩ := hA g (cfg.PLAYER_VELOCITY * dt)
    exact ⟨a1.trans (b1.trans c1), a2.trans (b2.trans c2), a3.trans (b3.trans c3),
      a4.trans (b4.trans c4)⟩
  · exact ⟨rfl, rfl, rfl, rfl⟩

/-- The level that `ProcessInput` leaves is the level that its `GAME_MENU` block
leaves. -/
theorem processInput_level (cfg : Config) (g : Game) (dt : ℝ) :
    (ProcessInput cfg g dt).Level = (ProcessInputMenu g).Level := by
  unfold ProcessInput
  rw [(processInputActive_fields cfg _ dt).1, (processInputWin_fields _).1]

/-- The ENTER statement leaves `Level`, `Keys` and the entries of
`KeysProcessed` for the other keys as they are. -/
theorem processInputEnter_fields (g : Game) :
    (ProcessInputEnter g).Level = g.Level ∧ (ProcessInputEnter g).Keys = g.Keys ∧
      ∀ k, k ≠ GLFW_KEY_ENTER → (ProcessInputEnter g).KeysProcessed k = g.KeysProcessed k := by
  unfold ProcessInputEnter
  split_ifs
  · refine ⟨rfl, rfl, ?_⟩
    intro k hk
    simp [setKey, hk]
  · exact ⟨rfl, rfl, fun _ _ => rfl⟩

/-- The level after the W statement and the S statement. -/
theorem processInputS_W_level (g : Game) :
    (ProcessInputS (ProcessInputW g)).Level =
      if g.Keys GLFW_KEY_W = true ∧ g.KeysProcessed GLFW_KEY_W = false then
        if g.Keys GLFW_KEY_S = true ∧ g.KeysProcessed GLFW_KEY_S = false then
          (if (g.Level + 1) % 4 > 0 then (g.Level + 1) % 4 - 1 else 3)
        else (g.Level + 1) % 4
      else
        if g.Keys GLFW_KEY_S = true ∧ g.KeysProcessed GLFW_KEY_S = false then
          (if g.Level > 0 then g.Level - 1 else 3)
        else g.Level := by
  have hne : GLFW_KEY_S ≠ GLFW_KEY_W := by decide
  unfold ProcessInputS ProcessInputW
  by_cases hw : g.Keys GLFW_KEY_W = true ∧ g.KeysProcessed GLFW_KEY_W = false
  · rw [if_pos hw, if_pos hw]
    simp only [setKey, if_neg hne]
    split_ifs <;> rfl
  · rw [if_neg hw, if_neg hw]
    split_ifs <;> rfl

/-- The level after `ProcessInput` in every state. -/
theorem processInput_level_eq (cfg : Config) (g : Game) (dt : ℝ) :
    (ProcessInput cfg g dt).Level =
      if g.State = GameState.GAME_MENU then
        if g.Keys GLFW_KEY_W = true ∧ g.KeysProcessed GLFW_KEY_W = false then
          if g.Keys GLFW_KEY_S = true ∧ g.KeysProcessed GLFW_KEY_S = false then
            (if (g.Level + 1) % 4 > 0 then (g.Level + 1) % 4 - 1 else 3)
          else (g.Level + 1) % 4
        else
          if g.Keys GLFW_KEY_S = true ∧ g.KeysProcessed GLFW_KEY_S = false then
            (if g.Level > 0 then g.Level - 1 else 3)
          else g.Level
      else g.Level := by
  rw [processInput_level]
  unfold ProcessInputMenu
  by_cases hm : g.State = GameState.GAME_MENU
  · rw [if_pos hm, if_pos hm, processInputS_W_level]
    obtain ⟨h1, h2, h3⟩ := processInputEnter_fields g
    rw [h1, h2, h3 GLFW_KEY_W (by decide), h3 GLFW_KEY_S (by decide)]
  · rw [if_neg hm, if_neg hm]

/-- `ProcessInput` keeps a level below 4 below 4. -/
theorem processInput_level_lt (cfg : Config) (g : Game) (dt : ℝ) (h : g.Level < 4) :
    (ProcessInput cfg g dt).Level < 4 := by
  rw [processInput_level_eq]
  split_ifs <;> omega

/-- `Update` leaves `Level` as it is. -/
theorem update_level (cfg : Config) (g : Game) (dt : ℝ) : (Update cfg g dt).Level = g.Level := by
  obtain ⟨-, -, hl, -⟩ := updateBeforeChecks_sameControl cfg g dt
  have hloss : (UpdateLossCheck cfg (UpdateBeforeChecks cfg g dt)).Level =
      (UpdateBeforeChecks cfg g dt).Level := by
    unfold UpdateLossCheck
    by_cases hb : (UpdateBeforeChecks cfg g dt).Ball.Position.y ≥
        ((UpdateBeforeChecks cfg g dt).Height : ℝ)
    · rw [if_pos hb]
      simp only
      rw [(resetPlayer_fields cfg _).2.2.1]
      split_ifs <;> rfl
    · rw [if_neg hb]
  unfold Update UpdateWinCheck
  split_ifs
  · exact (resetPlayer_fields cfg _).2.2.1.trans
      ((resetLevel_fields cfg _).2.2.1.trans (hloss.trans hl))
  · rw [hloss, hl]

/-- Key events leave `Level` as it is. -/
theorem key_callback_level (g : Game) (key action : Int) :
    (key_callback g key action).Level = g.Level := by
  unfold key_callback
  split_ifs <;> rfl

/-- In the menu, with only the W statement acting, `ProcessInput` bumps the
level and marks W as processed. -/
theorem processInput_menu_W (cfg : Config) (g : Game) (dt : ℝ)
    (hm : g.State = GameState.GAME_MENU)
    (he : ¬ (g.Keys GLFW_KEY_ENTER = true ∧ g.KeysProcessed GLFW_KEY_ENTER = false))
    (hw : g.Keys GLFW_KEY_W = true ∧ g.KeysProcessed GLFW_KEY_W = false)
    (hs : ¬ (g.Keys GLFW_KEY_S = true ∧ g.KeysProcessed GLFW_KEY_S = false)) :
    ProcessInput cfg g dt =
      { g with Level := (g.Level + 1) % 4,
               KeysProcessed := setKey g.KeysProcessed GLFW_KEY_W true } := by
  have hne : GLFW_KEY_S ≠ GLFW_KEY_W := by decide
  have e1 : ProcessInputEnter g = g := by
    unfold ProcessInputEnter
    rw [if_neg he]
  have e2 : ProcessInputW g =
      { g with Level := (g.Level + 1) % 4,
               KeysProcessed := setKey g.KeysProcessed GLFW_KEY_W true } := by
    unfold ProcessInputW
    rw [if_pos hw]
  have e3 : ProcessInputS
      { g with Level := (g.Level + 1) % 4,
               KeysProcessed := setKey g.KeysProcessed GLFW_KEY_W true } =
      { g with Level := (g.Level + 1) % 4,
               KeysProcessed := setKey g.KeysProcessed GLFW_KEY_W true } := by
    unfold ProcessInputS
    rw [if_neg]
    simpa [setKey, hne] using hs
  have e4 : ProcessInputMenu g =
      { g with Level := (g.Level + 1) % 4,
               KeysProcessed := setKey g.KeysProcessed GLFW_KEY_W true } := by
    unfold ProcessInputMenu
    rw [if_pos hm, e1, e2, e3]
  unfold ProcessInput
  rw [e4]
  unfold ProcessInputWin ProcessInputActive
  simp [hm]


/-- `ProcessInput` leaves `Keys` as it is and never clears an entry of
`KeysProcessed`. -/
theorem processInput_keys (cfg : Config) (g : Game) (dt : ℝ) :
    (ProcessInput cfg g dt).Keys = g.Keys ∧
      ∀ k, g.KeysProcessed k = true → (ProcessInput cfg g dt).KeysProcessed k = true := by
  have hset : ∀ (kp : Nat → Bool) (key k : Nat), kp k = true → setKey kp key true k = true := by
    intro kp key k h
    unfold setKey
    split_ifs
    · rfl
    · exact h
  have hE : ∀ a : Game, (ProcessInputEnter a).Keys = a.Keys ∧
      ∀ k, a.KeysProcessed k = true → (ProcessInputEnter a).KeysProcessed k = true := by
    intro a; unfold ProcessInputEnter
    split_ifs
    · exact ⟨rfl, fun k h => hset _ _ _ h⟩
    · exact ⟨rfl, fun _ h => h⟩
  have hW : ∀ a : Game, (ProcessInputW a).Keys = a.Keys ∧
      ∀ k, a.KeysProcessed k = true → (ProcessInputW a).KeysProcessed k = true := by
    intro a; unfold ProcessInputW
    split_ifs
    · exact ⟨rfl, fun k h => hset _ _ _ h⟩
    · exact ⟨rfl, fun _ h => h⟩
  have hS : ∀ a : Game, (ProcessInputS a).Keys = a.Keys ∧
      ∀ k, a.KeysProcessed k = true → (ProcessInputS a).KeysProcessed k = true := by
    intro a; unfold ProcessInputS
    split_ifs <;> first | exact ⟨rfl, fun k h => hset _ _ _ h⟩ | exact ⟨rfl, fun _ h => h⟩
  have hM : (ProcessInputMenu g).Keys = g.Keys ∧
      ∀ k, g.KeysProcessed k = true → (ProcessInputMenu g).KeysProcessed k = true := by
    unfold ProcessInputMenu
    split_ifs
    · obtain ⟨a1, a2⟩ := hS (ProcessInputW (ProcessInputEnter g))
      obtain ⟨b1, b2⟩ := hW (ProcessInputEnter g)
      obtain ⟨c1, c2⟩ := hE g
      exact ⟨a1.trans (b1.trans c1), fun k h => a2 k (b2 k (c2 k h))⟩
    · exact ⟨rfl, fun _ h => h⟩
  have hWin : ∀ a : Game, (ProcessInputWin a).Keys = a.Keys ∧
      ∀ k, a.KeysProcessed k = true → (ProcessInputWin a).KeysProcessed k = true := by
    intro a; unfold ProcessInputWin
    split_ifs
    · exact ⟨rfl, fun k h => hset _ _ _ h⟩
    · exact ⟨rfl, fun _ h => h⟩
    · exact ⟨rfl, fun _ h => h⟩
  obtain ⟨m1, m2⟩ := hM
  obtain ⟨w1, w2⟩ := hWin (ProcessInputMenu g)
  obtain ⟨-, a2, a3, -⟩ := processInputActive_fields cfg (ProcessInputWin (ProcessInputMenu g)) dt
  unfold ProcessInput
  refine ⟨a2.trans (w1.trans m1), fun k h => ?_⟩
  rw [a3]
  exact w2 k (m2 k h)

/-- When neither the W statement nor the S statement can act, `ProcessInput`
leaves the level as it is, and the two statements still cannot act afterwards. -/
theorem processInput_idle_level (cfg : Config) (g : Game) (dt : ℝ)
    (hw : ¬ (g.Keys GLFW_KEY_W = true ∧ g.KeysProcessed GLFW_KEY_W = false))
    (hs : ¬ (g.Keys GLFW_KEY_S = true ∧ g.KeysProcessed GLFW_KEY_S = false)) :
    (ProcessInput cfg g dt).Level = g.Level ∧
      ¬ ((ProcessInput cfg g dt).Keys GLFW_KEY_W = true ∧
        (ProcessInput cfg g dt).KeysProcessed GLFW_KEY_W = false) ∧
      ¬ ((ProcessInput cfg g dt).Keys GLFW_KEY_S = true ∧
        (ProcessInput cfg g dt).KeysProcessed GLFW_KEY_S = false) := by
  obtain ⟨hk, hp⟩ := processInput_keys cfg g dt
  refine ⟨?_, ?_, ?_⟩
  · rw [processInput_level_eq, if_neg hw, if_neg hs]
    split_ifs <;> rfl
  · rintro ⟨h1, h2⟩
    rw [hk] at h1
    cases hkp : g.KeysProcessed GLFW_KEY_W with
    | false => exact hw ⟨h1, hkp⟩
    | true => rw [hp _ hkp] at h2; exact absurd h2 (by simp)
  · rintro ⟨h1, h2⟩
    rw [hk] at h1
    cases hkp : g.KeysProcessed GLFW_KEY_S with
    | false => exact hs ⟨h1, hkp⟩
    | true => rw [hp _ hkp] at h2; exact absurd h2 (by simp)

/-- Consecutive `ProcessInput` calls leave the level as it is when neither the W
statement nor the S statement can act at the start. -/
theorem inputRun_idle_level (cfg : Config) (dts : List ℝ) :
    ∀ g : Game,
      ¬ (g.Keys GLFW_KEY_W = true ∧ g.KeysProcessed GLFW_KEY_W = false) →
      ¬ (g.Keys GLFW_KEY_S = true ∧ g.KeysProcessed GLFW_KEY_S = false) →
      (inputRun cfg g dts).Level = g.Level := by
  induction dts with
  | nil => intro g _ _; rfl
  | cons dt rest ih =>
    intro g hw hs
    obtain ⟨h1, h2, h3⟩ := processInput_idle_level cfg g dt hw hs
    unfold inputRun at ih ⊢
    simp only [List.foldl_cons]
    rw [ih _ h2 h3, h1]

/-- After a `ProcessInput` call in the menu, the W and S statements cannot act
again while the keys are not released. -/
theorem processInput_menu_processed (cfg : Config) (g : Game) (dt : ℝ)
    (hm : g.State = GameState.GAME_MENU) :
    ¬ ((ProcessInput cfg g dt).Keys GLFW_KEY_W = true ∧
        (ProcessInput cfg g dt).KeysProcessed GLFW_KEY_W = false) ∧
      ¬ ((ProcessInput cfg g dt).Keys GLFW_KEY_S = true ∧
        (ProcessInput cfg g dt).KeysProcessed GLFW_KEY_S = false) := by
  have hne : GLFW_KEY_S ≠ GLFW_KEY_W := by decide
  have hk := (processInput_keys cfg g dt).1
  have key : ∀ a : Game,
      (a.Keys GLFW_KEY_W = true → (ProcessInputS (ProcessInputW a)).KeysProcessed GLFW_KEY_W = true) ∧
      (a.Keys GLFW_KEY_S = true → (ProcessInputS (ProcessInputW a)).KeysProcessed GLFW_KEY_S = true) := by
    intro a
    unfold ProcessInputS ProcessInputW
    constructor
    · intro h
      cases hkp : a.KeysProcessed GLFW_KEY_W <;> split_ifs <;> simp_all [setKey]
    · intro h
      cases hkp : a.KeysProcessed GLFW_KEY_S <;> split_ifs <;> simp_all [setKey]
  obtain ⟨-, e2, -⟩ := processInputEnter_fields g
  obtain ⟨k1, k2⟩ := key (ProcessInputEnter g)
  rw [e2] at k1 k2
  have hmenu : ProcessInputMenu g = ProcessInputS (ProcessInputW (ProcessInputEnter g)) := by
    unfold ProcessInputMenu
    rw [if_pos hm]
  have hmono : ∀ k, (ProcessInputMenu g).KeysProcessed k = true →
      (ProcessInput cfg g dt).KeysProcessed k = true := by
    intro k h
    unfold ProcessInput
    rw [(processInputActive_fields cfg _ dt).2.2.1]
    unfold ProcessInputWin
    split_ifs
    · simp only [setKey]
      split_ifs
      · rfl
      · exact h
    · exact h
    · exact h
  rw [hk]
  constructor
  · rintro ⟨h1, h2⟩
    rw [hmono _ (by rw [hmenu]; exact k1 h1)] at h2
    exact absurd h2 (by simp)
  · rintro ⟨h1, h2⟩
    rw [hmono _ (by rw [hmenu]; exact k2 h1)] at h2
    exact absurd h2 (by simp)

/-- In `GAME_ACTIVE`, `ProcessInput` stays in `GAME_ACTIVE`. -/
theorem processInput_active_state (cfg : Config) (g : Game) (dt : ℝ)
    (ha : g.State = GameState.GAME_ACTIVE) :
    (ProcessInput cfg g dt).State = GameState.GAME_ACTIVE := by
  unfold ProcessInput
  rw [processInputActive_state]
  have h1 : ProcessInputMenu g = g := by
    unfold ProcessInputMenu
    rw [if_neg (by rw [ha]; simp)]
  rw [h1]
  unfold ProcessInputWin
  rw [if_neg (by rw [ha]; simp)]
  exact ha

/-- Consecutive `ProcessInput` calls stay in `GAME_ACTIVE`. -/
theorem inputRun_active_state (cfg : Config) (dts : List ℝ) :
    ∀ g : Game, g.State = GameState.GAME_ACTIVE →
      (inputRun cfg g dts).State = GameState.GAME_ACTIVE := by
  induction dts with
  | nil => intro g h; exact h
  | cons dt rest ih =>
    intro g h
    unfold inputRun at ih ⊢
    simp only [List.foldl_cons]
    exact ih _ (processInput_active_state cfg g dt h)

/-- In the menu with the ENTER statement acting, `ProcessInput` leaves the game
in `GAME_ACTIVE`. -/
theorem processInput_menu_enter (cfg : Config) (g : Game) (dt : ℝ)
    (hm : g.State = GameState.GAME_MENU)
    (he : g.Keys GLFW_KEY_ENTER = true ∧ g.KeysProcessed GLFW_KEY_ENTER = false) :
    (ProcessInput cfg g dt).State = GameState.GAME_ACTIVE := by
  have hS : ∀ a : Game, (ProcessInputS a).State = a.State := by
    intro a; unfold ProcessInputS; split_ifs <;> rfl
  have hW : ∀ a : Game, (ProcessInputW a).State = a.State := by
    intro a; unfold ProcessInputW; split_ifs <;> rfl
  have h1 : (ProcessInputMenu g).State = GameState.GAME_ACTIVE := by
    unfold ProcessInputMenu
    rw [if_pos hm, hS, hW]
    unfold ProcessInputEnter
    rw [if_pos he]
  unfold ProcessInput
  rw [processInputActive_state]
  unfold ProcessInputWin
  rw [if_neg (by rw [h1]; simp)]
  exact h1

/-! ### Brick lemmas -/

/-- `spawnIf` leaves everything but `PowerUps` and the draw counter as it is. -/
theorem spawnIf_rest (g : Game) (chance : Nat) (p : PowerUp) :
    (spawnIf g chance p).Ball = g.Ball ∧ (spawnIf g chance p).Player = g.Player ∧
      (spawnIf g chance p).Levels = g.Levels ∧ (spawnIf g chance p).ShakeTime = g.ShakeTime := by
  unfold spawnIf ShouldSpawn rand
  simp only
  split_ifs <;> exact ⟨rfl, rfl, rfl, rfl⟩

/-- `SpawnPowerUps` leaves the ball, the paddle, the levels and the shake timer
as they are. -/
theorem spawnPowerUps_rest (cfg : Config) (g : Game) (block : GameObject) :
    (SpawnPowerUps cfg g block).Ball = g.Ball ∧ (SpawnPowerUps cfg g block).Player = g.Player ∧
      (SpawnPowerUps cfg g block).Levels = g.Levels ∧
      (SpawnPowerUps cfg g block).ShakeTime = g.ShakeTime := by
  unfold SpawnPowerUps
  refine ⟨?_, ?_, ?_, ?_⟩ <;> simp only [spawnIf_rest]

/-- The absolute value of a component is at most the length of the vector. -/
theorem abs_le_length (v : Vec2) : |v.x| ≤ Vec2.length v ∧ |v.y| ≤ Vec2.length v := by
  unfold Vec2.length Vec2.dot
  constructor
  · apply Real.abs_le_sqrt
    nlinarith [mul_self_nonneg v.y]
  · apply Real.abs_le_sqrt
    nlinarith [mul_self_nonneg v.x]

/-- What the circle test returns on a hit. -/
theorem checkCollisionBall_of_hit (one : BallObject) (two : GameObject)
    (h : (CheckCollisionBall one two).1 = true) :
    CheckCollisionBall one two =
        (true, VectorDirection (Vec2.sub (closestPoint one two) (circleCentre one)),
          Vec2.sub (closestPoint one two) (circleCentre one)) ∧
      Vec2.length (Vec2.sub (closestPoint one two) (circleCentre one)) < one.Radius := by
  rw [checkCollisionBall_eq, distance_eq_length_sub] at h ⊢
  split_ifs at h ⊢ with hlt
  exact ⟨rfl, hlt⟩

/-- The ball that the brick step leaves on a hit of a brick that is not
destroyed: untouched when pass-through is on and the brick is not solid,
resolved otherwise. -/
theorem doCollisionsBrick_ball (cfg : Config) (g : Game) (box : GameObject)
    (hd : box.Destroyed = false) (hhit : (CheckCollisionBall g.Ball box).1 = true) :
    (DoCollisionsBrick cfg g box).1.Ball =
      if g.Ball.PassThrough = true ∧ box.IsSolid = false then g.Ball
      else resolveBrickHit g.Ball (CheckCollisionBall g.Ball box).2.1
        (CheckCollisionBall g.Ball box).2.2 := by
  have hs := fun b => (spawnPowerUps_rest cfg g b).1
  unfold DoCollisionsBrick
  simp only [hd, hhit, Bool.not_false, if_true]
  cases hsolid : box.IsSolid <;> cases hpt : g.Ball.PassThrough <;> simp [hs, hpt]

/-- The brick that the brick step leaves, and the shake and spawn effects. -/
theorem doCollisionsBrick_brick (cfg : Config) (g : Game) (box : GameObject) :
    (box.Destroyed = false → (CheckCollisionBall g.Ball box).1 = true → box.IsSolid = true →
      (DoCollisionsBrick cfg g box).2 = box ∧
      (DoCollisionsBrick cfg g box).1.Effects.Shake = true ∧
      (DoCollisionsBrick cfg g box).1.ShakeTime = 0.05 ∧
      (DoCollisionsBrick cfg g box).1.PowerUps = g.PowerUps ∧
      (DoCollisionsBrick cfg g box).1.RandPos = g.RandPos) ∧
    (box.Destroyed = false → (CheckCollisionBall g.Ball box).1 = true → box.IsSolid = false →
      (DoCollisionsBrick cfg g box).2 = { box with Destroyed := true } ∧
      (DoCollisionsBrick cfg g box).1.PowerUps =
        (SpawnPowerUps cfg g { box with Destroyed := true }).PowerUps ∧
      (DoCollisionsBrick cfg g box).1.RandPos =
        (SpawnPowerUps cfg g { box with Destroyed := true }).RandPos ∧
      (DoCollisionsBrick cfg g box).1.Effects.Shake = g.Effects.Shake ∧
      (DoCollisionsBrick cfg g box).1.ShakeTime = g.ShakeTime) ∧
    (box.Destroyed = true ∨ (CheckCollisionBall g.Ball box).1 = false →
      DoCollisionsBrick cfg g box = (g, box)) := by
  have hs := fun b => spawnPowerUps_rest cfg g b
  have he := fun b => spawnPowerUps_effects cfg g b
  refine ⟨?_, ?_, ?_⟩
  · intro hd hhit hsolid
    unfold DoCollisionsBrick
    simp [hd, hhit, hsolid]
  · intro hd hhit hsolid
    unfold DoCollisionsBrick
    simp only [hd, hhit, hsolid, Bool.not_false, if_true]
    split_ifs <;> simp [hs, he]
  · intro h
    unfold DoCollisionsBrick
    rcases h with h | h
    · simp [h]
    · simp [h]

/-- The brick step leaves the levels as they are. -/
theorem doCollisionsBrick_levels (cfg : Config) (g : Game) (box : GameObject) :
    (DoCollisionsBrick cfg g box).1.Levels = g.Levels := by
  have hs := fun b => (spawnPowerUps_rest cfg g b).2.2.1
  unfold DoCollisionsBrick
  simp only
  split_ifs <;> first | rfl | exact hs _

/-- The brick step leaves the brick as it is or destroys a brick that is not
solid. -/
theorem doCollisionsBrick_after (cfg : Config) (g : Game) (box : GameObject) :
    brickAfter box (DoCollisionsBrick cfg g box).2 := by
  unfold brickAfter
  by_cases hd : box.Destroyed = true
  · left
    rw [(doCollisionsBrick_brick cfg g box).2.2 (Or.inl hd)]
  · have hd' : box.Destroyed = false := by simpa using hd
    by_cases hhit : (CheckCollisionBall g.Ball box).1 = true
    · by_cases hs : box.IsSolid = true
      · left
        exact ((doCollisionsBrick_brick cfg g box).1 hd' hhit hs).1
      · have hs' : box.IsSolid = false := by simpa using hs
        right
        exact ⟨hs', hd', ((doCollisionsBrick_brick cfg g box).2.1 hd' hhit hs').1⟩
    · left
      rw [(doCollisionsBrick_brick cfg g box).2.2 (Or.inr (by simpa using hhit))]

/-- The brick loop keeps the bricks in place and in order; each one is unchanged
or was a brick neither solid nor destroyed that is now destroyed; the levels
of the game state are not written by the loop itself. -/
theorem doCollisionsBricksLoop_after (cfg : Config) (bricks : List GameObject) :
    ∀ g : Game, List.Forall₂ brickAfter bricks (DoCollisionsBricksLoop cfg g bricks).2 ∧
      (DoCollisionsBricksLoop cfg g bricks).1.Levels = g.Levels := by
  induction bricks with
  | nil => intro g; exact ⟨List.Forall₂.nil, rfl⟩
  | cons box rest ih =>
    intro g
    simp only [DoCollisionsBricksLoop]
    obtain ⟨h1, h2⟩ := ih (DoCollisionsBrick cfg g box).1
    exact ⟨List.Forall₂.cons (doCollisionsBrick_after cfg g box) h1,
      h2.trans (doCollisionsBrick_levels cfg g box)⟩

/-- Activating a power-up leaves the levels as they are. -/
theorem activatePowerUp_levels (g : Game) (p : PowerUp) :
    (ActivatePowerUp g p).Levels = g.Levels ∧ (ActivatePowerUp g p).PowerUps = g.PowerUps := by
  unfold ActivatePowerUp
  split_ifs <;> exact ⟨rfl, rfl⟩

/-- The power-up loop leaves the levels as they are. -/
theorem doCollisionsPowerUpsLoop_levels (ps : List PowerUp) :
    ∀ g : Game, (DoCollisionsPowerUpsLoop g ps).1.Levels = g.Levels := by
  induction ps with
  | nil => intro g; rfl
  | cons p rest ih =>
    intro g
    simp only [DoCollisionsPowerUpsLoop]
    rw [ih]
    unfold DoCollisionsPowerUp
    simp only
    split_ifs <;> first | rfl | exact (activatePowerUp_levels _ _).1

/-- The levels after `DoCollisions`: the bricks of the current level are those
the brick loop leaves. -/
theorem doCollisions_levels (cfg : Config) (g : Game) :
    (DoCollisions cfg g).Levels =
      g.Levels.set g.Level ⟨(DoCollisionsBricksLoop cfg g g.currentLevel.Bricks).2⟩ := by
  have h1 : (DoCollisionsBricks cfg g).Levels =
      g.Levels.set g.Level ⟨(DoCollisionsBricksLoop cfg g g.currentLevel.Bricks).2⟩ := by
    unfold DoCollisionsBricks Game.setBricks
    simp only
    rw [(doCollisionsBricksLoop_after cfg _ g).2,
      (doCollisionsBricksLoop_sameControl cfg _ g).2.2.1]
  have h2 : (DoCollisionsPowerUps (DoCollisionsBricks cfg g)).Levels =
      (DoCollisionsBricks cfg g).Levels := by
    unfold DoCollisionsPowerUps
    exact doCollisionsPowerUpsLoop_levels _ _
  unfold DoCollisions DoCollisionsPaddle
  simp only
  split_ifs <;> exact h2.trans h1


/-- The circle test of the ball of `demoAtBrick` against a brick at the place of
`demoBrick`: a hit from below, 7.5 away from the lower face. -/
theorem demoAtBrick_collision (pt : Bool) (box : GameObject)
    (hp : box.Position = ⟨450, 180⟩) (hs : box.Size = ⟨100, 30⟩) :
    CheckCollisionBall (demoAtBrick pt).Ball box = (true, DOWN, ⟨0, -15 / 2⟩) := by
  rw [checkCollisionBall_eval]
  norm_num [demoAtBrick, demoFreeBall, demoGame, Game.Init, demoConfig, BallObject.new,
    GameObject.new, hp, hs, closestPoint, circleCentre, boxCentre, clampScalar, Vec2.sub,
    Vec2.add, Vec2.dot, vectorDirection_eq_raw, VectorDirectionRaw, pickStep, DOWN]

/-! ### Power-up loop lemmas -/

/-- The body of the power-up loop of `DoCollisions`, by cases. -/
theorem doCollisionsPowerUp_cases (g : Game) (p : PowerUp) :
    (p.Destroyed = true → DoCollisionsPowerUp g p = (g, p)) ∧
    (p.Destroyed = false → CheckCollision g.Player p.toGameObject = true →
      (DoCollisionsPowerUp g p).2.Destroyed = true ∧
      (DoCollisionsPowerUp g p).2.Activated = true ∧
      (DoCollisionsPowerUp g p).2.Duration = p.Duration ∧
      (DoCollisionsPowerUp g p).2.TypeName = p.TypeName ∧
      ∃ q : PowerUp, q.TypeName = p.TypeName ∧ (DoCollisionsPowerUp g p).1 = ActivatePowerUp g q) ∧
    (p.Destroyed = false → CheckCollision g.Player p.toGameObject = false →
      (DoCollisionsPowerUp g p).1 = g ∧
      (DoCollisionsPowerUp g p).2.Activated = p.Activated ∧
      ((DoCollisionsPowerUp g p).2.Destroyed = true ↔ p.Position.y ≥ (g.Height : ℝ))) := by
  have e : CheckCollision g.Player ({ p with Destroyed := true } : PowerUp).toGameObject =
      CheckCollision g.Player p.toGameObject := rfl
  refine ⟨?_, ?_, ?_⟩
  · intro hd
    unfold DoCollisionsPowerUp
    simp [hd]
  · intro hd hc
    unfold DoCollisionsPowerUp
    simp only [hd, Bool.not_false, if_true]
    by_cases hy : p.Position.y ≥ (g.Height : ℝ)
    · simp only [if_pos hy, e, hc, if_true]
      exact ⟨trivial, trivial, trivial, trivial, _, rfl, rfl⟩
    · simp only [if_neg hy, hc, if_true]
      exact ⟨trivial, trivial, trivial, trivial, _, rfl, rfl⟩
  · intro hd hc
    unfold DoCollisionsPowerUp
    simp only [hd, Bool.not_false, if_true]
    by_cases hy : p.Position.y ≥ (g.Height : ℝ)
    · simp only [if_pos hy, e, hc]
      simp [hy]
    · simp only [if_neg hy, hc]
      simp [hd, hy]

/-- The power-ups after a step of the loop of `UpdatePowerUps`: the power-up of
the index is replaced by its ticked form. -/
theorem updatePowerUpsStep_self (dt : ℝ) (g : Game) (i : Nat) :
    (UpdatePowerUpsStep dt g i).PowerUps[i]? = (g.PowerUps[i]?).map (tickPowerUp dt) := by
  unfold UpdatePowerUpsStep
  cases hp : g.PowerUps[i]? with
  | none => simp [hp]
  | some p =>
    have hlt : i < g.PowerUps.length := by
      by_contra hge
      rw [List.getElem?_eq_none (by omega)] at hp
      exact absurd hp (by simp)
    simp only [Option.map_some']
    unfold tickPowerUp
    split_ifs <;>
      first
      | (rw [deactivateEffect_powerUps]; simp only; rw [List.getElem?_set_self hlt])
      | (simp only; rw [List.getElem?_set_self hlt])

/-- The loop of `UpdatePowerUps` over the first `n` indices ticks the power-ups
of these indices and leaves the others. -/
theorem updatePowerUpsLoop_upto (dt : ℝ) (g : Game) (n : Nat) :
    ∀ j, ((List.range n).foldl (UpdatePowerUpsStep dt) g).PowerUps[j]? =
      if j < n then (g.PowerUps[j]?).map (tickPowerUp dt) else g.PowerUps[j]? := by
  induction n with
  | zero => intro j; simp
  | succ n ih =>
    intro j
    rw [List.range_succ, List.foldl_append]
    simp only [List.foldl_cons, List.foldl_nil]
    by_cases hj : j = n
    · subst hj
      rw [updatePowerUpsStep_self, ih j, if_neg (lt_irrefl j), if_pos (Nat.lt_succ_self j)]
    · rw [updatePowerUpsStep_other dt _ n j (fun h => hj h.symm), ih j]
      by_cases hlt : j < n
      · rw [if_pos hlt, if_pos (Nat.lt_succ_of_lt hlt)]
      · rw [if_neg hlt, if_neg (by omega)]

/-- The loop of `UpdatePowerUps` ticks every power-up, in place. -/
theorem updatePowerUpsLoop_map (dt : ℝ) (g : Game) :
    (UpdatePowerUpsLoop dt g).PowerUps = g.PowerUps.map (tickPowerUp dt) := by
  apply List.ext_getElem?
  intro j
  unfold UpdatePowerUpsLoop
  rw [updatePowerUpsLoop_upto dt g g.PowerUps.length j, List.getElem?_map]
  split_ifs with h
  · rfl
  · rw [List.getElem?_eq_none (by omega)]
    rfl

/-- The power-ups after `UpdatePowerUps`: ticked, then filtered. -/
theorem updatePowerUps_powerUps (g : Game) (dt : ℝ) :
    (UpdatePowerUps g dt).PowerUps = (g.PowerUps.map (tickPowerUp dt)).filter keepPowerUp := by
  unfold UpdatePowerUps
  simp only
  rw [updatePowerUpsLoop_map]
  rfl

/-- The tick of a power-up keeps everything but its position, its duration and
its `Activated` flag, and never activates it. -/
theorem tickPowerUp_fields (dt : ℝ) (p : PowerUp) :
    (tickPowerUp dt p).Destroyed = p.Destroyed ∧ (tickPowerUp dt p).TypeName = p.TypeName ∧
      (tickPowerUp dt p).Size = p.Size ∧ (tickPowerUp dt p).Velocity = p.Velocity ∧
      ((tickPowerUp dt p).Activated = true ↔ (p.Activated = true ∧ 0 < p.Duration - dt)) ∧
      ((tickPowerUp dt p).Activated = true → (tickPowerUp dt p).Duration = p.Duration - dt) := by
  unfold tickPowerUp
  split_ifs with h1 h2
  · refine ⟨rfl, rfl, rfl, rfl, ?_, ?_⟩
    · constructor
      · intro h; exact absurd h (by simp)
      · intro h; linarith [h.2]
    · intro h; exact absurd h (by simp)
  · refine ⟨rfl, rfl, rfl, rfl, ?_, fun _ => rfl⟩
    constructor
    · intro _; exact ⟨h1, not_le.mp h2⟩
    · intro _; exact h1
  · refine ⟨rfl, rfl, rfl, rfl, ?_, ?_⟩
    · constructor
      · intro h; exact absurd h h1
      · intro h; exact absurd h.1 h1
    · intro h; exact absurd h h1

/-! ### Power-up consumption lemmas -/

/-- The power-up that the power-up loop of `DoCollisions` leaves at an index is
the result of the loop body on the power-up of that index, in the state the loop
has reached there. -/
theorem doCollisionsPowerUpsLoop_getElem (ps : List PowerUp) :
    ∀ (g : Game) (i : Nat) (p : PowerUp), ps[i]? = some p →
      (DoCollisionsPowerUpsLoop g ps).2[i]? =
        some (DoCollisionsPowerUp (DoCollisionsPowerUpsLoop g (ps.take i)).1 p).2 := by
  induction ps with
  | nil => intro g i p h; simp at h
  | cons p0 rest ih =>
    intro g i p h
    cases i with
    | zero =>
      simp only [List.getElem?_cons_zero, Option.some.injEq] at h
      subst h
      simp [DoCollisionsPowerUpsLoop]
    | succ k =>
      simp only [List.getElem?_cons_succ] at h
      simp only [DoCollisionsPowerUpsLoop, List.take_succ_cons, List.getElem?_cons_succ]
      exact ih _ k p h

/-- The power-ups after `DoCollisions` are those the power-up loop leaves. -/
theorem doCollisions_powerUps (cfg : Config) (g : Game) :
    (DoCollisions cfg g).PowerUps =
      (DoCollisionsPowerUpsLoop (DoCollisionsBricks cfg g) (DoCollisionsBricks cfg g).PowerUps).2 := by
  unfold DoCollisions DoCollisionsPaddle
  simp only
  split_ifs <;> rfl

theorem updateShake_powerUps (g : Game) (dt : ℝ) :
    (UpdateShake g dt).PowerUps = g.PowerUps := by
  unfold UpdateShake
  simp only
  split_ifs <;> rfl

theorem updateLossCheck_powerUps (cfg : Config) (g : Game) :
    (UpdateLossCheck cfg g).PowerUps = g.PowerUps := by
  unfold UpdateLossCheck
  by_cases hb : g.Ball.Position.y ≥ (g.Height : ℝ)
  · rw [if_pos hb]
    simp only
    rw [(resetPlayer_fields cfg _).2.2.2.2.2.2.1]
    split_ifs
    · exact (resetLevel_fields cfg _).2.2.2.2.2.2
    · rfl
  · rw [if_neg hb]

theorem updateWinCheck_powerUps (cfg : Config) (g : Game) :
    (UpdateWinCheck cfg g).PowerUps = g.PowerUps := by
  unfold UpdateWinCheck
  split_ifs
  · simp only
    exact (resetPlayer_fields cfg _).2.2.2.2.2.2.1.trans (resetLevel_fields cfg _).2.2.2.2.2.2
  · rfl

/-- The power-ups at the end of `Update`: those of the collision phase, ticked
and filtered. -/
theorem update_powerUps (cfg : Config) (g : Game) (dt : ℝ) :
    (Update cfg g dt).PowerUps =
      ((DoCollisions cfg { g with Ball := cfg.Move g.Ball dt g.Width }).PowerUps.map
        (tickPowerUp dt)).filter keepPowerUp := by
  unfold Update UpdateBeforeChecks
  simp only
  rw [updateWinCheck_powerUps, updateLossCheck_powerUps, updateShake_powerUps,
    updatePowerUps_powerUps]

/-- The brick loop of the first `Update` of `demoSpeedGame` changes nothing: the
ball rests on the paddle, away from `demoBrick`. -/
theorem demoSpeedGame_atPowerUps : UpdateAtPowerUps demoConfig demoSpeedGame 0 = demoSpeedGame := by
  have hmove : ({ demoSpeedGame with
      Ball := demoConfig.Move demoSpeedGame.Ball 0 demoSpeedGame.Width } : Game) =
      demoSpeedGame := by
    simp [demoSpeedGame, demoGame, Game.Init, demoConfig, BallObject.Move, BallObject.new]
  have hb : demoSpeedGame.currentLevel.Bricks = [demoBrick] := by
    simp [Game.currentLevel, demoSpeedGame, demoGame, Game.Init, demoConfig]
  have hstep : DoCollisionsBrick demoConfig demoSpeedGame demoBrick =
      (demoSpeedGame, demoBrick) := by
    unfold DoCollisionsBrick
    rw [checkCollisionBall_eval]
    norm_num [demoSpeedGame, demoGame, Game.Init, demoConfig,
      BallObject.new, GameObject.new, demoBrick,
      closestPoint, circleCentre, boxCentre, clampScalar, Vec2.sub, Vec2.add, Vec2.dot]
  unfold UpdateAtPowerUps
  rw [hmove]
  unfold DoCollisionsBricks
  simp only [hb, DoCollisionsBricksLoop, hstep]
  simp [Game.setBricks, demoSpeedGame, demoGame, Game.Init, demoConfig]

/-! ### Resolution lemmas -/

/-- A clamped value above the value itself stays the same when the value goes down. -/
theorem clampScalar_shift_down (t lo hi pen : ℝ) (hpos : 0 < clampScalar t lo hi - t)
    (hpen : 0 ≤ pen) : clampScalar (t - pen) lo hi = clampScalar t lo hi := by
  unfold clampScalar at hpos ⊢
  simp only [min_def, max_def] at hpos ⊢
  split_ifs at hpos ⊢ <;> linarith

/-- A clamped value below the value itself stays the same when the value goes up. -/
theorem clampScalar_shift_up (t lo hi pen : ℝ) (hneg : clampScalar t lo hi - t < 0)
    (hpen : 0 ≤ pen) : clampScalar (t + pen) lo hi = clampScalar t lo hi := by
  unfold clampScalar at hneg ⊢
  simp only [min_def, max_def] at hneg ⊢
  split_ifs at hneg ⊢ <;> linarith

/-- The direction that the loop of `VectorDirection` picks, with the sign of the
component that decides it; no index wins on the zero vector only. -/
theorem vectorDirectionRaw_cases (v : Vec2) :
    (VectorDirectionRaw v = UP ∧ 0 < v.y) ∨ (VectorDirectionRaw v = RIGHT ∧ 0 < v.x) ∨
    (VectorDirectionRaw v = DOWN ∧ v.y < 0) ∨ (VectorDirectionRaw v = LEFT ∧ v.x < 0) ∨
    (VectorDirectionRaw v = 2 ^ 32 - 1 ∧ v.x = 0 ∧ v.y = 0) := by
  unfold VectorDirectionRaw pickStep UP RIGHT DOWN LEFT
  simp only
  split_ifs <;>
    first
    | (left; exact ⟨rfl, by simp only at *; linarith⟩)
    | (right; left; exact ⟨rfl, by simp only at *; linarith⟩)
    | (right; right; left; exact ⟨rfl, by simp only at *; linarith⟩)
    | (right; right; right; left; exact ⟨rfl, by simp only at *; linarith⟩)
    | (right; right; right; right;
        exact ⟨rfl, by simp only at *; linarith, by simp only at *; linarith⟩)
/-- The radius and the circle centre of the ball after the brick resolution. -/
theorem resolveBrickHit_centre (ball : BallObject) (dir : Direction) (v : Vec2) :
    (resolveBrickHit ball dir v).Radius = ball.Radius ∧
    (dir = UP → circleCentre (resolveBrickHit ball dir v) =
      ⟨(circleCentre ball).x, (circleCentre ball).y - (ball.Radius - |v.y|)⟩) ∧
    (dir = RIGHT → circleCentre (resolveBrickHit ball dir v) =
      ⟨(circleCentre ball).x - (ball.Radius - |v.x|), (circleCentre ball).y⟩) ∧
    (dir = DOWN → circleCentre (resolveBrickHit ball dir v) =
      ⟨(circleCentre ball).x, (circleCentre ball).y + (ball.Radius - |v.y|)⟩) ∧
    (dir = LEFT → circleCentre (resolveBrickHit ball dir v) =
      ⟨(circleCentre ball).x + (ball.Radius - |v.x|), (circleCentre ball).y⟩) ∧
    (dir = 2 ^ 32 - 1 → circleCentre (resolveBrickHit ball dir v) =
      ⟨(circleCentre ball).x, (circleCentre ball).y + (ball.Radius - |v.y|)⟩) := by
  refine ⟨?_, ?_, ?_, ?_, ?_, ?_⟩
  · unfold resolveBrickHit
    simp only
    split_ifs <;> rfl
  all_goals
    intro hd
    subst hd
    simp only [resolveBrickHit, UP, RIGHT, DOWN, LEFT, circleCentre]
    norm_num
    try ring

/-- The difference vector of the circle test depends on the ball through its
circle centre only. -/
theorem difference_eq (b : BallObject) (box : GameObject) :
    (Vec2.sub (closestPoint b box) (circleCentre b)).x =
      (boxCentre box).x + clampScalar ((circleCentre b).x - (boxCentre box).x)
        (-(box.Size.x / 2)) (box.Size.x / 2) - (circleCentre b).x ∧
    (Vec2.sub (closestPoint b box) (circleCentre b)).y =
      (boxCentre box).y + clampScalar ((circleCentre b).y - (boxCentre box).y)
        (-(box.Size.y / 2)) (box.Size.y / 2) - (circleCentre b).y :=
  ⟨rfl, rfl⟩

/-- A ball moved against the difference vector on one axis by `pen >= 0`: the
component of the difference vector on that axis grows by `pen` in size. -/
theorem difference_shift (b b2 : BallObject) (box : GameObject) (pen : ℝ) (hpen : 0 ≤ pen) :
    (0 < (Vec2.sub (closestPoint b box) (circleCentre b)).y →
      (circleCentre b2).y = (circleCentre b).y - pen →
      (Vec2.sub (closestPoint b2 box) (circleCentre b2)).y =
        (Vec2.sub (closestPoint b box) (circleCentre b)).y + pen) ∧
    ((Vec2.sub (closestPoint b box) (circleCentre b)).y < 0 →
      (circleCentre b2).y = (circleCentre b).y + pen →
      (Vec2.sub (closestPoint b2 box) (circleCentre b2)).y =
        (Vec2.sub (closestPoint b box) (circleCentre b)).y - pen) ∧
    (0 < (Vec2.sub (closestPoint b box) (circleCentre b)).x →
      (circleCentre b2).x = (circleCentre b).x - pen →
      (Vec2.sub (closestPoint b2 box) (circleCentre b2)).x =
        (Vec2.sub (closestPoint b box) (circleCentre b)).x + pen) ∧
    ((Vec2.sub (closestPoint b box) (circleCentre b)).x < 0 →
      (circleCentre b2).x = (circleCentre b).x + pen →
      (Vec2.sub (closestPoint b2 box) (circleCentre b2)).x =
        (Vec2.sub (closestPoint b box) (circleCentre b)).x - pen) := by
  refine ⟨?_, ?_, ?_, ?_⟩
  · intro hs hc
    rw [(difference_eq b box).2] at hs ⊢
    rw [(difference_eq b2 box).2, hc]
    have e : (circleCentre b).y - pen - (boxCentre box).y =
        ((circleCentre b).y - (boxCentre box).y) - pen := by ring
    rw [e, clampScalar_shift_down _ _ _ pen (by linarith) hpen]
    ring
  · intro hs hc
    rw [(difference_eq b box).2] at hs ⊢
    rw [(difference_eq b2 box).2, hc]
    have e : (circleCentre b).y + pen - (boxCentre box).y =
        ((circleCentre b).y - (boxCentre box).y) + pen := by ring
    rw [e, clampScalar_shift_up _ _ _ pen (by linarith) hpen]
    ring
  · intro hs hc
    rw [(difference_eq b box).1] at hs ⊢
    rw [(difference_eq b2 box).1, hc]
    have e : (circleCentre b).x - pen - (boxCentre box).x =
        ((circleCentre b).x - (boxCentre box).x) - pen := by ring
    rw [e, clampScalar_shift_down _ _ _ pen (by linarith) hpen]
    ring
  · intro hs hc
    rw [(difference_eq b box).1] at hs ⊢
    rw [(difference_eq b2 box).1, hc]
    have e : (circleCentre b).x + pen - (boxCentre box).x =
        ((circleCentre b).x - (boxCentre box).x) + pen := by ring
    rw [e, clampScalar_shift_up _ _ _ pen (by linarith) hpen]
    ring

/-- The circle test after the brick resolution: when the hit has a difference
vector that is not zero, the relocated ball is at distance `Radius` from the
brick on the hit axis, and the circle test reports no hit. -/
theorem resolveBrickHit_no_hit (ball : BallObject) (box : GameObject)
    (hhit : (CheckCollisionBall ball box).1 = true)
    (hne : (CheckCollisionBall ball box).2.2 ≠ ⟨0, 0⟩) :
    (CheckCollisionBall (resolveBrickHit ball (CheckCollisionBall ball box).2.1
      (CheckCollisionBall ball box).2.2) box).1 = false := by
  obtain ⟨heq, hlen⟩ := checkCollisionBall_of_hit ball box hhit
  rw [heq] at hne ⊢
  simp only at hne ⊢
  have hR : 0 < ball.Radius := lt_of_le_of_lt (length_nonneg _) hlen
  have hax := abs_le_length (Vec2.sub (closestPoint ball box) (circleCentre ball))
  have hxlt := lt_of_le_of_lt hax.1 hlen
  have hylt := lt_of_le_of_lt hax.2 hlen
  rw [vectorDirection_eq_raw]
  rw [Bool.eq_false_iff, Ne, checkCollisionBall_hit_iff]
  rintro ⟨-, hlt⟩
  obtain ⟨hrad, hup, hright, hdown, hleft, -⟩ := resolveBrickHit_centre ball
    (VectorDirectionRaw (Vec2.sub (closestPoint ball box) (circleCentre ball)))
    (Vec2.sub (closestPoint ball box) (circleCentre ball))
  rw [hrad] at hlt
  unfold Vec2.dot at hlt
  rcases vectorDirectionRaw_cases (Vec2.sub (closestPoint ball box) (circleCentre ball)) with
    ⟨hd, hs⟩ | ⟨hd, hs⟩ | ⟨hd, hs⟩ | ⟨hd, hs⟩ | ⟨-, hx, hy⟩
  · have hc := congrArg Vec2.y (hup hd)
    simp only at hc
    have h := (difference_shift ball _ box _ (by linarith)).1 hs hc
    rw [abs_of_pos hs] at h
    rw [h] at hlt
    nlinarith [mul_self_nonneg (Vec2.sub (closestPoint (resolveBrickHit ball
      (VectorDirectionRaw (Vec2.sub (closestPoint ball box) (circleCentre ball)))
      (Vec2.sub (closestPoint ball box) (circleCentre ball))) box) (circleCentre (resolveBrickHit ball
      (VectorDirectionRaw (Vec2.sub (closestPoint ball box) (circleCentre ball)))
      (Vec2.sub (closestPoint ball box) (circleCentre ball))))).x]
  · have hc := congrArg Vec2.x (hright hd)
    simp only at hc
    have h := (difference_shift ball _ box _ (by linarith)).2.2.1 hs hc
    rw [abs_of_pos hs] at h
    rw [h] at hlt
    nlinarith [mul_self_nonneg (Vec2.sub (closestPoint (resolveBrickHit ball
      (VectorDirectionRaw (Vec2.sub (closestPoint ball box) (circleCentre ball)))
      (Vec2.sub (closestPoint ball box) (circleCentre ball))) box) (circleCentre (resolveBrickHit ball
      (VectorDirectionRaw (Vec2.sub (closestPoint ball box) (circleCentre ball)))
      (Vec2.sub (closestPoint ball box) (circleCentre ball))))).y]
  · have hc := congrArg Vec2.y (hdown hd)
    simp only at hc
    have h := (difference_shift ball _ box _ (by linarith)).2.1 hs hc
    rw [abs_of_neg hs] at h
    rw [h] at hlt
    nlinarith [mul_self_nonneg (Vec2.sub (closestPoint (resolveBrickHit ball
      (VectorDirectionRaw (Vec2.sub (closestPoint ball box) (circleCentre ball)))
      (Vec2.sub (closestPoint ball box) (circleCentre ball))) box) (circleCentre (resolveBrickHit ball
      (VectorDirectionRaw (Vec2.sub (closestPoint ball box) (circleCentre ball)))
      (Vec2.sub (closestPoint ball box) (circleCentre ball))))).x]
  · have hc := congrArg Vec2.x (hleft hd)
    simp only at hc
    have h := (difference_shift ball _ box _ (by linarith)).2.2.2 hs hc
    rw [abs_of_neg hs] at h
    rw [h] at hlt
    nlinarith [mul_self_nonneg (Vec2.sub (closestPoint (resolveBrickHit ball
      (VectorDirectionRaw (Vec2.sub (closestPoint ball box) (circleCentre ball)))
      (Vec2.sub (closestPoint ball box) (circleCentre ball))) box) (circleCentre (resolveBrickHit ball
      (VectorDirectionRaw (Vec2.sub (closestPoint ball box) (circleCentre ball)))
      (Vec2.sub (closestPoint ball box) (circleCentre ball))))).y]
  · exact hne (Vec2.ext hx hy)

/-! ### Spawn lemmas -/

/-- One statement of `SpawnPowerUps`: one draw is consumed, and the power-up is
appended exactly when the draw is divisible by the chance. -/
theorem spawnIf_eq (g : Game) (chance : Nat) (p : PowerUp) :
    spawnIf g chance p =
      { g with PowerUps := g.PowerUps ++ (if g.RandSeq g.RandPos % chance = 0 then [p] else []),
               RandPos := g.RandPos + 1 } := by
  unfold spawnIf ShouldSpawn rand
  by_cases h : g.RandSeq g.RandPos % chance = 0
  · simp [h]
  · simp [h]

/-- The function `SpawnPowerUps` as one update of the state: six draws are
consumed and the spawned candidates are appended. -/
theorem spawnPowerUps_eq (cfg : Config) (g : Game) (block : GameObject) :
    SpawnPowerUps cfg g block =
      { g with PowerUps := g.PowerUps ++
                 spawned g.RandSeq g.RandPos (spawnCandidates cfg block.Position),
               RandPos := g.RandPos + 6 } := by
  unfold SpawnPowerUps
  simp only [spawnIf_eq, spawned, spawnCandidates, List.append_assoc, List.append_nil,
    Nat.add_assoc]

/-- The spawned candidates are a sublist of the candidates. -/
theorem spawned_sublist (seq : Nat → Nat) (cs : List (Nat × PowerUp)) :
    ∀ pos, List.Sublist (spawned seq pos cs) (cs.map Prod.snd) := by
  induction cs with
  | nil => intro pos; exact List.Sublist.slnil
  | cons c rest ih =>
    intro pos
    simp only [spawned, List.map_cons]
    split_ifs
    · exact List.Sublist.cons₂ _ (ih _)
    · exact List.Sublist.cons _ (ih _)

/-- A candidate is among the spawned ones exactly when its own draw is
divisible by its chance, for candidates that are pairwise different. -/
theorem spawned_mem (seq : Nat → Nat) (cs : List (Nat × PowerUp)) :
    (cs.map Prod.snd).Nodup → ∀ (pos k : Nat) (c : Nat × PowerUp), cs[k]? = some c →
      (c.2 ∈ spawned seq pos cs ↔ seq (pos + k) % c.1 = 0) := by
  induction cs with
  | nil => intro _ pos k c h; simp at h
  | cons c0 rest ih =>
    intro hnd pos k c h
    rw [List.map_cons, List.nodup_cons] at hnd
    cases k with
    | zero =>
      simp only [List.getElem?_cons_zero, Option.some.injEq] at h
      subst h
      have hnot : c0.2 ∉ spawned seq (pos + 1) rest :=
        fun hm => hnd.1 ((spawned_sublist seq rest (pos + 1)).subset hm)
      simp only [spawned, List.mem_append, Nat.add_zero]
      by_cases hdiv : seq pos % c0.1 = 0
      · simp [hdiv]
      · simp [hdiv, hnot]
    | succ j =>
      simp only [List.getElem?_cons_succ] at h
      have hin : c.2 ∈ rest.map Prod.snd :=
        List.mem_map.mpr ⟨c, List.getElem?_mem h, rfl⟩
      have hne : c.2 ≠ c0.2 := fun e => hnd.1 (e ▸ hin)
      have hrec := ih hnd.2 (pos + 1) j c h
      have e : pos + (j + 1) = pos + 1 + j := by omega
      rw [e, ← hrec]
      simp only [spawned, List.mem_append]
      by_cases hdiv : seq pos % c0.1 = 0
      · simp [hdiv, hne]
      · simp [hdiv]

/-- The six candidates of `SpawnPowerUps` are pairwise different: their types are. -/
theorem spawnCandidates_nodup (cfg : Config) (position : Vec2) :
    ((spawnCandidates cfg position).map Prod.snd).Nodup := by
  have h : (((spawnCandidates cfg position).map Prod.snd).map PowerUp.TypeName).Nodup := by
    simp only [spawnCandidates, PowerUp.new, List.map_cons, List.map_nil]
    decide
  exact List.Nodup.of_map _ h

/-! ### Paddle movement lemmas -/

/-- The `GAME_MENU` block of `ProcessInput` leaves the ball, the paddle, the
effects and `Lives` as they are. -/
theorem processInputMenu_objects (g : Game) :
    (ProcessInputMenu g).Ball = g.Ball ∧ (ProcessInputMenu g).Player = g.Player ∧
      (ProcessInputMenu g).Effects = g.Effects ∧ (ProcessInputMenu g).Lives = g.Lives := by
  have hE : ∀ a : Game, (ProcessInputEnter a).Ball = a.Ball ∧
      (ProcessInputEnter a).Player = a.Player ∧ (ProcessInputEnter a).Effects = a.Effects ∧
      (ProcessInputEnter a).Lives = a.Lives := by
    intro a; unfold ProcessInputEnter; split_ifs <;> exact ⟨rfl, rfl, rfl, rfl⟩
  have hW : ∀ a : Game, (ProcessInputW a).Ball = a.Ball ∧
      (ProcessInputW a).Player = a.Player ∧ (ProcessInputW a).Effects = a.Effects ∧
      (ProcessInputW a).Lives = a.Lives := by
    intro a; unfold ProcessInputW; split_ifs <;> exact ⟨rfl, rfl, rfl, rfl⟩
  have hS : ∀ a : Game, (ProcessInputS a).Ball = a.Ball ∧
      (ProcessInputS a).Player = a.Player ∧ (ProcessInputS a).Effects = a.Effects ∧
      (ProcessInputS a).Lives = a.Lives := by
    intro a; unfold ProcessInputS; split_ifs <;> exact ⟨rfl, rfl, rfl, rfl⟩
  unfold ProcessInputMenu
  split_ifs
  · obtain ⟨a1, a2, a3, a4⟩ := hS (ProcessInputW (ProcessInputEnter g))
    obtain ⟨b1, b2, b3, b4⟩ := hW (ProcessInputEnter g)
    obtain ⟨c1, c2, c3, c4⟩ := hE g
    exact ⟨a1.trans (b1.trans c1), a2.trans (b2.trans c2), a3.trans (b3.trans c3),
      a4.trans (b4.trans c4)⟩
  · exact ⟨rfl, rfl, rfl, rfl⟩

/-- One of the two move statements of the `GAME_ACTIVE` block: the paddle moves
along x by some amount, a stuck ball by the same amount and a free ball not at
all; the y coordinates and `Stuck` stay. -/
theorem processInputA_D_move (g : Game) (velocity : ℝ) :
    (∃ d : ℝ,
      (ProcessInputA g velocity).Player.Position.x = g.Player.Position.x + d ∧
      (ProcessInputA g velocity).Ball.Position.x =
        g.Ball.Position.x + (if g.Ball.Stuck = true then d else 0) ∧
      (ProcessInputA g velocity).Ball.Position.y = g.Ball.Position.y ∧
      (ProcessInputA g velocity).Player.Position.y = g.Player.Position.y ∧
      (ProcessInputA g velocity).Ball.Stuck = g.Ball.Stuck) ∧
    (∃ d : ℝ,
      (ProcessInputD g velocity).Player.Position.x = g.Player.Position.x + d ∧
      (ProcessInputD g velocity).Ball.Position.x =
        g.Ball.Position.x + (if g.Ball.Stuck = true then d else 0) ∧
      (ProcessInputD g velocity).Ball.Position.y = g.Ball.Position.y ∧
      (ProcessInputD g velocity).Player.Position.y = g.Player.Position.y ∧
      (ProcessInputD g velocity).Ball.Stuck = g.Ball.Stuck) := by
  constructor
  · unfold ProcessInputA
    by_cases hk : g.Keys GLFW_KEY_A = true
    · by_cases hx : g.Player.Position.x ≥ 0
      · refine ⟨-velocity, ?_⟩
        rw [if_pos hk, if_pos hx]
        cases hs : g.Ball.Stuck <;> simp [hs, sub_eq_add_neg]
      · refine ⟨0, ?_⟩
        rw [if_pos hk, if_neg hx]
        simp
    · refine ⟨0, ?_⟩
      rw [if_neg hk]
      simp
  · unfold ProcessInputD
    by_cases hk : g.Keys GLFW_KEY_D = true
    · by_cases hx : g.Player.Position.x ≤ (g.Width : ℝ) - g.Player.Size.x
      · refine ⟨velocity, ?_⟩
        rw [if_pos hk, if_pos hx]
        cases hs : g.Ball.Stuck <;> simp [hs]
      · refine ⟨0, ?_⟩
        rw [if_pos hk, if_neg hx]
        simp
    · refine ⟨0, ?_⟩
      rw [if_neg hk]
      simp

/-- The `GAME_ACTIVE` block of `ProcessInput`: the paddle moves along x by some
amount, a ball that is stuck on entry by the same amount and a free ball not at
all; the y coordinates stay. -/
theorem processInputActive_move (cfg : Config) (g : Game) (dt : ℝ) :
    ∃ d : ℝ,
      (ProcessInputActive cfg g dt).Player.Position.x = g.Player.Position.x + d ∧
      (ProcessInputActive cfg g dt).Ball.Position.x =
        g.Ball.Position.x + (if g.Ball.Stuck = true then d else 0) ∧
      (ProcessInputActive cfg g dt).Ball.Position.y = g.Ball.Position.y ∧
      (ProcessInputActive cfg g dt).Player.Position.y = g.Player.Position.y := by
  have hSp : ∀ a : Game, (ProcessInputSpace a).Ball.Position = a.Ball.Position ∧
      (ProcessInputSpace a).Player = a.Player := by
    intro a; unfold ProcessInputSpace; split_ifs <;> exact ⟨rfl, rfl⟩
  unfold ProcessInputActive
  by_cases ha : g.State = GameState.GAME_ACTIVE
  · rw [if_pos ha]
    obtain ⟨d1, a1, a2, a3, a4, a5⟩ := (processInputA_D_move g (cfg.PLAYER_VELOCITY * dt)).1
    obtain ⟨d2, b1, b2, b3, b4, -⟩ :=
      (processInputA_D_move (ProcessInputA g (cfg.PLAYER_VELOCITY * dt))
        (cfg.PLAYER_VELOCITY * dt)).2
    obtain ⟨s1, s2⟩ := hSp (ProcessInputD (ProcessInputA g (cfg.PLAYER_VELOCITY * dt))
      (cfg.PLAYER_VELOCITY * dt))
    refine ⟨d1 + d2, ?_, ?_, ?_, ?_⟩
    · rw [s2, b1, a1]; ring
    · rw [s1, b2, a2, a5]
      split_ifs <;> ring
    · rw [s1, b3, a3]
    · rw [s2, b4, a4]
  · rw [if_neg ha]
    exact ⟨0, by simp, by simp, rfl, rfl⟩

/-! ### Zero difference lemmas -/

/-- A value is its own clamped value exactly when it is within the bounds. -/
theorem clampScalar_eq_self_iff (t lo hi : ℝ) (h : lo ≤ hi) :
    clampScalar t lo hi = t ↔ lo ≤ t ∧ t ≤ hi := by
  unfold clampScalar
  constructor
  · intro e
    constructor
    · rw [← e]; exact le_min (le_max_right _ _) h
    · rw [← e]; exact min_le_right _ _
  · rintro ⟨h1, h2⟩
    rw [max_eq_left h1, min_eq_left h2]

/-- The difference vector of the circle test is zero exactly when the circle
centre is a point of the box, for a box whose sizes are not negative. -/
theorem difference_zero_iff (ball : BallObject) (box : GameObject)
    (hx : 0 ≤ box.Size.x) (hy : 0 ≤ box.Size.y) :
    Vec2.sub (closestPoint ball box) (circleCentre ball) = ⟨0, 0⟩ ↔
      (box.Position.x ≤ (circleCentre ball).x ∧
        (circleCentre ball).x ≤ box.Position.x + box.Size.x ∧
        box.Position.y ≤ (circleCentre ball).y ∧
        (circleCentre ball).y ≤ box.Position.y + box.Size.y) := by
  have ex := clampScalar_eq_self_iff ((circleCentre ball).x - (boxCentre box).x)
    (-(box.Size.x / 2)) (box.Size.x / 2) (by linarith)
  have ey := clampScalar_eq_self_iff ((circleCentre ball).y - (boxCentre box).y)
    (-(box.Size.y / 2)) (box.Size.y / 2) (by linarith)
  have bx : (boxCentre box).x = box.Position.x + box.Size.x / 2 := rfl
  have by_ : (boxCentre box).y = box.Position.y + box.Size.y / 2 := rfl
  obtain ⟨dx, dy⟩ := difference_eq ball box
  constructor
  · intro h
    have h1 := congrArg Vec2.x h
    have h2 := congrArg Vec2.y h
    rw [dx] at h1
    rw [dy] at h2
    simp only at h1 h2
    have c1 := ex.mp (by linarith)
    have c2 := ey.mp (by linarith)
    rw [bx] at c1
    rw [by_] at c2
    exact ⟨by linarith [c1.1], by linarith [c1.2], by linarith [c2.1], by linarith [c2.2]⟩
  · rintro ⟨h1, h2, h3, h4⟩
    have c1 := ex.mpr ⟨by rw [bx]; linarith, by rw [bx]; linarith⟩
    have c2 := ey.mpr ⟨by rw [by_]; linarith, by rw [by_]; linarith⟩
    apply Vec2.ext
    · rw [dx, c1]; simp
    · rw [dy, c2]; simp

/-! ### Paddle fraction lemmas -/

/-- A clamped value lies within the bounds. -/
theorem clampScalar_bounds (t lo hi : ℝ) (h : lo ≤ hi) :
    lo ≤ clampScalar t lo hi ∧ clampScalar t lo hi ≤ hi := by
  unfold clampScalar
  exact ⟨le_min (le_max_right _ _) h, min_le_right _ _⟩

/-- On a hit of a paddle of positive width, the circle centre is less than the
radius outside the paddle along x. -/
theorem paddle_hit_offset (ball : BallObject) (player : GameObject) (hs : 0 < player.Size.x)
    (hhit : (CheckCollisionBall ball player).1 = true) :
    |(ball.Position.x + ball.Radius) - (player.Position.x + player.Size.x / 2)| <
      player.Size.x / 2 + ball.Radius := by
  obtain ⟨-, hlen⟩ := checkCollisionBall_of_hit ball player hhit
  have hax := (abs_le_length (Vec2.sub (closestPoint ball player) (circleCentre ball))).1
  have hxlt := lt_of_le_of_lt hax hlen
  rw [(difference_eq ball player).1] at hxlt
  obtain ⟨c1, c2⟩ := clampScalar_bounds ((circleCentre ball).x - (boxCentre player).x)
    (-(player.Size.x / 2)) (player.Size.x / 2) (by linarith)
  have e1 : (circleCentre ball).x = ball.Position.x + ball.Radius := rfl
  have e2 : (boxCentre player).x = player.Position.x + player.Size.x / 2 := rfl
  rw [e1, e2] at hxlt c1 c2
  rw [abs_lt] at hxlt ⊢
  constructor <;> linarith [hxlt.1, hxlt.2]

/-! ### Exclusive flag lemmas -/

/-- Both flags are kept exclusive by a step that leaves them as they are or
clears them. -/
theorem flagsExclusive_of_le (g g2 : Game) (h : flagsExclusive g)
    (hc : g2.Effects.Confuse = true → g.Effects.Confuse = true)
    (hx : g2.Effects.Chaos = true → g.Effects.Chaos = true) : flagsExclusive g2 :=
  fun h2 => h ⟨hc h2.1, hx h2.2⟩

theorem activatePowerUp_exclusive (g : Game) (p : PowerUp) (h : flagsExclusive g) :
    flagsExclusive (ActivatePowerUp g p) := by
  unfold flagsExclusive at h ⊢
  unfold ActivatePowerUp
  split_ifs with h1 h2 h3 h4 h5 h6 h7 h8 <;> first | exact h | simp_all

theorem doCollisionsPowerUp_exclusive (g : Game) (p : PowerUp) (h : flagsExclusive g) :
    flagsExclusive (DoCollisionsPowerUp g p).1 := by
  unfold DoCollisionsPowerUp
  simp only
  split_ifs <;> first | exact h | exact activatePowerUp_exclusive _ _ h

theorem doCollisionsPowerUpsLoop_exclusive (ps : List PowerUp) :
    ∀ g : Game, flagsExclusive g → flagsExclusive (DoCollisionsPowerUpsLoop g ps).1 := by
  induction ps with
  | nil => intro g h; exact h
  | cons p rest ih =>
    intro g h
    simp only [DoCollisionsPowerUpsLoop]
    exact ih _ (doCollisionsPowerUp_exclusive g p h)

/-- `DoCollisions` keeps the confuse and chaos flags exclusive. -/
theorem doCollisions_exclusive (cfg : Config) (g : Game) (h : flagsExclusive g) :
    flagsExclusive (DoCollisions cfg g) := by
  have h1 : flagsExclusive (DoCollisionsBricks cfg g) := by
    obtain ⟨a, b⟩ := doCollisionsBricks_flags cfg g
    exact flagsExclusive_of_le g _ h (fun e => b ▸ e) (fun e => a ▸ e)
  have h2 : flagsExclusive (DoCollisionsPowerUps (DoCollisionsBricks cfg g)) := by
    have := doCollisionsPowerUpsLoop_exclusive (DoCollisionsBricks cfg g).PowerUps _ h1
    unfold DoCollisionsPowerUps
    exact this
  unfold DoCollisions DoCollisionsPaddle
  simp only
  split_ifs <;> exact h2

/-- The deactivation of an effect sets neither flag. -/
theorem deactivateEffect_flags_le (g : Game) (t : String) :
    ((deactivateEffect g t).Effects.Confuse = true → g.Effects.Confuse = true) ∧
    ((deactivateEffect g t).Effects.Chaos = true → g.Effects.Chaos = true) := by
  unfold deactivateEffect
  split_ifs <;> simp

theorem updatePowerUpsStep_exclusive (dt : ℝ) (g : Game) (i : Nat) (h : flagsExclusive g) :
    flagsExclusive (UpdatePowerUpsStep dt g i) := by
  unfold UpdatePowerUpsStep
  cases g.PowerUps[i]? with
  | none => exact h
  | some p =>
    simp only
    split_ifs
    · exact flagsExclusive_of_le _ _ h (deactivateEffect_flags_le _ _).1
        (deactivateEffect_flags_le _ _).2
    · exact h
    · exact h

/-- `UpdatePowerUps` keeps the confuse and chaos flags exclusive. -/
theorem updatePowerUps_exclusive (g : Game) (dt : ℝ) (h : flagsExclusive g) :
    flagsExclusive (UpdatePowerUps g dt) := by
  have hfold : ∀ (l : List Nat) (a : Game), flagsExclusive a →
      flagsExclusive (l.foldl (UpdatePowerUpsStep dt) a) := by
    intro l
    induction l with
    | nil => intro a ha; exact ha
    | cons i rest ih =>
      intro a ha
      simp only [List.foldl_cons]
      exact ih _ (updatePowerUpsStep_exclusive dt a i ha)
  unfold UpdatePowerUps UpdatePowerUpsLoop
  exact hfold _ g h

/-- `ResetPlayer` clears both flags. -/
theorem resetPlayer_exclusive (cfg : Config) (g : Game) : flagsExclusive (ResetPlayer cfg g) := by
  intro h
  rw [(resetPlayer_fields cfg g).2.2.2.2.2.2.2.2.2.1] at h
  exact absurd h.2 (by simp)

theorem updateShake_exclusive (g : Game) (dt : ℝ) (h : flagsExclusive g) :
    flagsExclusive (UpdateShake g dt) := by
  unfold UpdateShake
  simp only
  split_ifs <;> exact h

theorem updateLossCheck_exclusive (cfg : Config) (g : Game) (h : flagsExclusive g) :
    flagsExclusive (UpdateLossCheck cfg g) := by
  unfold UpdateLossCheck
  by_cases hb : g.Ball.Position.y ≥ (g.Height : ℝ)
  · rw [if_pos hb]
    exact resetPlayer_exclusive cfg _
  · rw [if_neg hb]
    exact h

/-- The win check leaves the flags as they are or leaves chaos set and confuse
cleared. -/
theorem updateWinCheck_exclusive (cfg : Config) (g : Game) (h : flagsExclusive g) :
    flagsExclusive (UpdateWinCheck cfg g) := by
  unfold UpdateWinCheck
  split_ifs
  · intro h2
    have hc : (ResetPlayer cfg (ResetLevel cfg g)).Effects.Confuse = false :=
      (resetPlayer_fields cfg _).2.2.2.2.2.2.2.2.2.2.1
    simp only at h2
    rw [hc] at h2
    exact absurd h2.1 (by simp)
  · exact h

/-- `Update` keeps the confuse and chaos flags exclusive. -/
theorem update_exclusive (cfg : Config) (g : Game) (dt : ℝ) (h : flagsExclusive g) :
    flagsExclusive (Update cfg g dt) := by
  unfold Update UpdateBeforeChecks
  simp only
  apply updateWinCheck_exclusive
  apply updateLossCheck_exclusive
  apply updateShake_exclusive
  apply updatePowerUps_exclusive
  apply doCollisions_exclusive
  exact h

/-- The `GAME_ACTIVE` block of `ProcessInput` leaves the effects as they are. -/
theorem processInputActive_effects (cfg : Config) (g : Game) (dt : ℝ) :
    (ProcessInputActive cfg g dt).Effects = g.Effects := by
  have hA : ∀ (a : Game) (v : ℝ), (ProcessInputA a v).Effects = a.Effects := by
    intro a v; unfold ProcessInputA; split_ifs <;> rfl
  have hD : ∀ (a : Game) (v : ℝ), (ProcessInputD a v).Effects = a.Effects := by
    intro a v; unfold ProcessInputD; split_ifs <;> rfl
  have hSp : ∀ a : Game, (ProcessInputSpace a).Effects = a.Effects := by
    intro a; unfold ProcessInputSpace; split_ifs <;> rfl
  unfold ProcessInputActive
  split_ifs
  · rw [hSp, hD, hA]
  · rfl

/-- `ProcessInput` keeps the confuse and chaos flags exclusive. -/
theorem processInput_exclusive (cfg : Config) (g : Game) (dt : ℝ) (h : flagsExclusive g) :
    flagsExclusive (ProcessInput cfg g dt) := by
  have hm : flagsExclusive (ProcessInputMenu g) := by
    have e := (processInputMenu_objects g).2.2.1
    exact flagsExclusive_of_le g _ h (fun x => e ▸ x) (fun x => e ▸ x)
  have hw : flagsExclusive (ProcessInputWin (ProcessInputMenu g)) := by
    unfold ProcessInputWin
    split_ifs
    · intro h2
      exact absurd h2.2 (by simp)
    · exact hm
    · exact hm
  unfold ProcessInput
  have e := processInputActive_effects cfg (ProcessInputWin (ProcessInputMenu g)) dt
  exact flagsExclusive_of_le _ _ hw (fun x => e ▸ x) (fun x => e ▸ x)

/-- The confuse and chaos flags are exclusive in every state reached from a
start state in which they are. -/
theorem reachable_exclusive (cfg : Config) (start g : Game) (h0 : flagsExclusive start)
    (hg : Reachable cfg start g) : flagsExclusive g := by
  induction hg with
  | start => exact h0
  | key a key action _ ih =>
    have e : (key_callback a key action).Effects = a.Effects := by
      unfold key_callback; split_ifs <;> rfl
    exact flagsExclusive_of_le a _ ih (fun x => e ▸ x) (fun x => e ▸ x)
  | input a dt _ _ ih => exact processInput_exclusive cfg a dt ih
  | update a dt _ _ ih => exact update_exclusive cfg a dt ih

/-! ### Life counter lemmas -/

/-- The loss check keeps the life counter among 1, 2, 3: the decrement does not
wrap, and a counter that reaches 0 is set to 3 by `ResetLevel` in the same call. -/
theorem updateLossCheck_lives (cfg : Config) (g : Game) (h : livesInRange g) :
    livesInRange (UpdateLossCheck cfg g) ∧
    (g.Ball.Position.y ≥ (g.Height : ℝ) →
      (UpdateLossCheck cfg g).Lives = if g.Lives = 1 then 3 else g.Lives - 1) ∧
    (¬ g.Ball.Position.y ≥ (g.Height : ℝ) → (UpdateLossCheck cfg g).Lives = g.Lives) := by
  unfold livesInRange at h
  have hmod : (g.Lives + (2 ^ 32 - 1)) % 2 ^ 32 = g.Lives - 1 := by omega
  by_cases hb : g.Ball.Position.y ≥ (g.Height : ℝ)
  · have hl : (UpdateLossCheck cfg g).Lives = if g.Lives = 1 then 3 else g.Lives - 1 := by
      unfold UpdateLossCheck
      rw [if_pos hb]
      simp only [hmod]
      rw [(resetPlayer_fields cfg _).2.1]
      by_cases h1 : g.Lives = 1
      · rw [if_pos (by omega), if_pos h1]
        exact (resetLevel_fields cfg { g with Lives := g.Lives - 1 }).1
      · rw [if_neg (by omega), if_neg h1]
    refine ⟨?_, fun _ => hl, fun hn => absurd hb hn⟩
    unfold livesInRange
    rw [hl]
    split_ifs <;> omega
  · have hl : (UpdateLossCheck cfg g).Lives = g.Lives := by
      unfold UpdateLossCheck
      rw [if_neg hb]
    refine ⟨?_, fun hp => absurd hp hb, fun _ => hl⟩
    unfold livesInRange
    rw [hl]
    exact h

/-- The win check leaves the life counter as it is or sets it to 3. -/
theorem updateWinCheck_lives (cfg : Config) (g : Game) :
    (UpdateWinCheck cfg g).Lives = g.Lives ∨ (UpdateWinCheck cfg g).Lives = 3 := by
  unfold UpdateWinCheck
  split_ifs
  · right
    exact (resetPlayer_fields cfg (ResetLevel cfg g)).2.1.trans (resetLevel_fields cfg g).1
  · left; rfl

/-- `Update` keeps the life counter among 1, 2, 3. -/
theorem update_lives (cfg : Config) (g : Game) (dt : ℝ) (h : livesInRange g) :
    livesInRange (Update cfg g dt) := by
  obtain ⟨-, hl, -⟩ := updateBeforeChecks_sameControl cfg g dt
  have h1 : livesInRange (UpdateBeforeChecks cfg g dt) := by
    unfold livesInRange at h ⊢
    rw [hl]
    exact h
  have h2 := (updateLossCheck_lives cfg _ h1).1
  unfold Update
  rcases updateWinCheck_lives cfg (UpdateLossCheck cfg (UpdateBeforeChecks cfg g dt)) with e | e
  · unfold livesInRange at h2 ⊢
    rw [e]
    exact h2
  · unfold livesInRange
    rw [e]
    right; right; rfl

/-- `ProcessInput` leaves the life counter as it is. -/
theorem processInput_lives (cfg : Config) (g : Game) (dt : ℝ) :
    (ProcessInput cfg g dt).Lives = g.Lives := by
  unfold ProcessInput
  rw [(processInputActive_fields cfg _ dt).2.2.2, (processInputWin_fields _).2.2.2.2,
    (processInputMenu_objects g).2.2.2]

/-- The life counter is among 1, 2, 3 in every state reached from a start state
in which it is. -/
theorem reachable_lives (cfg : Config) (start g : Game) (h0 : livesInRange start)
    (hg : Reachable cfg start g) : livesInRange g := by
  induction hg with
  | start => exact h0
  | key a key action _ ih =>
    have e : (key_callback a key action).Lives = a.Lives := by
      unfold key_callback; split_ifs <;> rfl
    unfold livesInRange at ih ⊢
    rw [e]
    exact ih
  | input a dt _ _ ih =>
    unfold livesInRange at ih ⊢
    rw [processInput_lives]
    exact ih
  | update a dt _ _ ih => exact update_lives cfg a dt ih

/-! ### Win confirmation lemmas -/

/-- In the menu with ENTER already processed, `ProcessInput` stays in the menu
and leaves ENTER processed. -/
theorem processInput_menu_stays (cfg : Config) (g : Game) (dt : ℝ)
    (hm : g.State = GameState.GAME_MENU) (hp : g.KeysProcessed GLFW_KEY_ENTER = true) :
    (ProcessInput cfg g dt).State = GameState.GAME_MENU ∧
      (ProcessInput cfg g dt).KeysProcessed GLFW_KEY_ENTER = true := by
  refine ⟨?_, (processInput_keys cfg g dt).2 _ hp⟩
  have hS : ∀ a : Game, (ProcessInputS a).State = a.State := by
    intro a; unfold ProcessInputS; split_ifs <;> rfl
  have hW : ∀ a : Game, (ProcessInputW a).State = a.State := by
    intro a; unfold ProcessInputW; split_ifs <;> rfl
  have h1 : (ProcessInputMenu g).State = GameState.GAME_MENU := by
    unfold ProcessInputMenu
    rw [if_pos hm, hS, hW]
    unfold ProcessInputEnter
    rw [if_neg (by rw [hp]; simp)]
    exact hm
  unfold ProcessInput
  rw [processInputActive_state]
  unfold ProcessInputWin
  rw [if_neg (by rw [h1]; simp)]
  exact h1

/-- Consecutive `ProcessInput` calls in the menu with ENTER already processed
stay in the menu. -/
theorem inputRun_menu_stays (cfg : Config) (dts : List ℝ) :
    ∀ g : Game, g.State = GameState.GAME_MENU → g.KeysProcessed GLFW_KEY_ENTER = true →
      (inputRun cfg g dts).State = GameState.GAME_MENU ∧
      (inputRun cfg g dts).KeysProcessed GLFW_KEY_ENTER = true := by
  induction dts with
  | nil => intro g h1 h2; exact ⟨h1, h2⟩
  | cons dt rest ih =>
    intro g h1 h2
    unfold inputRun at ih ⊢
    simp only [List.foldl_cons]
    obtain ⟨a, b⟩ := processInput_menu_stays cfg g dt h1 h2
    exact ih _ a b

/-- The first `ProcessInput` call in `GAME_WIN` with ENTER down: the game is in
the menu and ENTER is marked as processed, whatever it was before. -/
theorem processInput_win_enter (cfg : Config) (g : Game) (dt : ℝ)
    (hwin : g.State = GameState.GAME_WIN) (hk : g.Keys GLFW_KEY_ENTER = true) :
    (ProcessInput cfg g dt).State = GameState.GAME_MENU ∧
      (ProcessInput cfg g dt).KeysProcessed GLFW_KEY_ENTER = true ∧
      (ProcessInput cfg g dt).Keys = g.Keys := by
  refine ⟨?_, ?_, (processInput_keys cfg g dt).1⟩
  · simp [ProcessInput, ProcessInputMenu, ProcessInputWin, ProcessInputActive, hwin, hk]
  · simp [ProcessInput, ProcessInputMenu, ProcessInputWin, ProcessInputActive, hwin, hk, setKey]

/-- The confuse and chaos flags are exclusive after every sequence of steps
from a start state in which they are. -/
theorem stepsFrom_exclusive (cfg : Config) (start g : Game) (h0 : flagsExclusive start)
    (hg : StepsFrom cfg start g) : flagsExclusive g := by
  induction hg with
  | start => exact h0
  | key a key action _ ih =>
    have e : (key_callback a key action).Effects = a.Effects := by
      unfold key_callback; split_ifs <;> rfl
    exact flagsExclusive_of_le a _ ih (fun x => e ▸ x) (fun x => e ▸ x)
  | input a dt _ ih => exact processInput_exclusive cfg a dt ih
  | update a dt _ ih => exact update_exclusive cfg a dt ih
  | collisions a _ ih => exact doCollisions_exclusive cfg a ih
  | activate a p _ ih => exact activatePowerUp_exclusive a p ih
  | powerUps a dt _ ih => exact updatePowerUps_exclusive a dt ih
  | resetPlayer a _ _ => exact resetPlayer_exclusive cfg a

/-! ### Truncation lemmas -/

/-- The `abs` of the paddle phase is not negative and not above the size of its
argument. -/
theorem absInt_bounds (x : ℝ) : 0 ≤ absInt x ∧ absInt x ≤ |x| := by
  unfold absInt floatToInt
  refine ⟨Nat.cast_nonneg _, ?_⟩
  have hcast : ∀ z : Int, ((z.natAbs : ℕ) : ℝ) = |(z : ℝ)| := by
    intro z
    rw [Nat.cast_natAbs, Int.cast_abs]
  rw [hcast]
  split_ifs with h
  · rw [abs_of_nonneg (by exact_mod_cast Int.floor_nonneg.mpr h), abs_of_nonneg h]
    exact Int.floor_le x
  · push_neg at h
    have hc : (⌈x⌉ : ℝ) ≤ 0 := by exact_mod_cast Int.ceil_le.mpr (by simpa using h.le)
    rw [abs_of_nonpos hc, abs_of_neg h]
    linarith [Int.le_ceil x]

/-- A non-zero vector normalised and scaled by `L >= 0`: the dot product with
itself is `L ^ 2`. -/
theorem dot_scale_normalize (u : Vec2) (L : ℝ) (hu : u.x ≠ 0 ∨ u.y ≠ 0) (hL : 0 ≤ L) :
    Vec2.dot (Vec2.scale (Vec2.normalize u) L) (Vec2.scale (Vec2.normalize u) L) = L ^ 2 := by
  have h := length_scale_normalize u L hu hL
  unfold Vec2.length at h
  have hnn : 0 ≤ Vec2.dot (Vec2.scale (Vec2.normalize u) L) (Vec2.scale (Vec2.normalize u) L) := by
    unfold Vec2.dot
    nlinarith [mul_self_nonneg (Vec2.scale (Vec2.normalize u) L).x,
      mul_self_nonneg (Vec2.scale (Vec2.normalize u) L).y]
  rw [← Real.sq_sqrt hnn, h]

/-- The paddle phase on a ball that is not stuck and hits, when the vector it
normalises is not zero: the scaled velocity has the length of the old velocity,
and the velocity that the phase leaves is not longer. -/
theorem paddleVelocity_length_le (cfg : Config) (ball : BallObject) (player : GameObject)
    (hu : (paddleAimed cfg ball player).x ≠ 0 ∨ (paddleAimed cfg ball player).y ≠ 0) :
    Vec2.length (paddleScaled cfg ball player) = Vec2.length ball.Velocity ∧
    Vec2.length (paddleVelocity cfg ball player) ≤ Vec2.length ball.Velocity := by
  have h1 : Vec2.length (paddleScaled cfg ball player) = Vec2.length ball.Velocity :=
    length_scale_normalize _ _ hu (length_nonneg _)
  refine ⟨h1, ?_⟩
  rw [← h1]
  unfold Vec2.length
  apply Real.sqrt_le_sqrt
  obtain ⟨a, b⟩ := absInt_bounds (paddleScaled cfg ball player).y
  have hsq : absInt (paddleScaled cfg ball player).y * absInt (paddleScaled cfg ball player).y ≤
      (paddleScaled cfg ball player).y * (paddleScaled cfg ball player).y := by
    rw [← abs_mul_abs_self (paddleScaled cfg ball player).y]
    exact mul_le_mul b b a (abs_nonneg _)
  simp only [paddleVelocity, Vec2.dot]
  nlinarith

/-- The scaled velocity of the paddle phase for a ball with velocity
(100, 350) or (100, -350) aimed along (40, 350) or (40, -350): its vertical
part has size between 361 and 362. -/
theorem scaled_between : 361 < 350 * (1 / Real.sqrt 124100) * Real.sqrt 132500 ∧
    350 * (1 / Real.sqrt 124100) * Real.sqrt 132500 < 362 := by
  have ha0 : 0 < Real.sqrt 124100 := Real.sqrt_pos.mpr (by norm_num)
  have hb0 : 0 < Real.sqrt 132500 := Real.sqrt_pos.mpr (by norm_num)
  have ha : Real.sqrt 124100 * Real.sqrt 124100 = 124100 := Real.mul_self_sqrt (by norm_num)
  have hb : Real.sqrt 132500 * Real.sqrt 132500 = 132500 := Real.mul_self_sqrt (by norm_num)
  have e : 350 * (1 / Real.sqrt 124100) * Real.sqrt 132500 =
      350 * Real.sqrt 132500 / Real.sqrt 124100 := by
    field_simp
  rw [e, lt_div_iff₀ ha0, div_lt_iff₀ ha0]
  constructor
  · by_contra hcon
    push_neg at hcon
    nlinarith [mul_le_mul hcon hcon (by positivity) (by positivity)]
  · by_contra hcon
    push_neg at hcon
    nlinarith [mul_le_mul hcon hcon (by positivity) (by positivity)]
/-- The scaled velocity of the paddle phase for the balls of `demoFallingHit`
and `demoRisingHit`. -/
theorem demo_scaled :
    (paddleScaled demoConfig demoFallingHit.Ball demoFallingHit.Player).y =
      350 * (1 / Real.sqrt 124100) * Real.sqrt 132500 ∧
    (paddleScaled demoConfig demoRisingHit.Ball demoRisingHit.Player).y =
      -(350 * (1 / Real.sqrt 124100) * Real.sqrt 132500) := by
  have h1 : paddleAimed demoConfig demoFallingHit.Ball demoFallingHit.Player = ⟨40, 350⟩ := by
    norm_num [paddleAimed, paddlePercentage, demoFallingHit, demoBallAt, demoGame, Game.Init,
      demoConfig, BallObject.new, GameObject.new]
  have h2 : paddleAimed demoConfig demoRisingHit.Ball demoRisingHit.Player = ⟨40, -350⟩ := by
    norm_num [paddleAimed, paddlePercentage, demoRisingHit, demoBallAt, demoGame, Game.Init,
      demoConfig, BallObject.new, GameObject.new]
  have d1 : Vec2.dot (⟨40, 350⟩ : Vec2) ⟨40, 350⟩ = 124100 := by norm_num [Vec2.dot]
  have d2 : Vec2.dot (⟨40, -350⟩ : Vec2) ⟨40, -350⟩ = 124100 := by norm_num [Vec2.dot]
  have v1 : Vec2.dot demoFallingHit.Ball.Velocity demoFallingHit.Ball.Velocity = 132500 := by
    norm_num [Vec2.dot, demoFallingHit, demoBallAt, BallObject.new]
  have v2 : Vec2.dot demoRisingHit.Ball.Velocity demoRisingHit.Ball.Velocity = 132500 := by
    norm_num [Vec2.dot, demoRisingHit, demoBallAt, BallObject.new]
  constructor
  · simp only [paddleScaled, h1, Vec2.scale, Vec2.normalize, Vec2.length, d1, v1]
  · simp only [paddleScaled, h2, Vec2.scale, Vec2.normalize, Vec2.length, d2, v2]
    ring

/-! ### Claims -/

/-- C1: the AABB - AABB `CheckCollision` is true exactly when both inclusive
inequalities hold on x and on y; boxes that touch at an edge and overlap on y
are reported as overlapping. -/
theorem c1_aabb_overlap_inclusive :
    (∀ one two : GameObject,
      CheckCollision one two = true ↔
        (one.Position.x + one.Size.x ≥ two.Position.x ∧
          two.Position.x + two.Size.x ≥ one.Position.x) ∧
        (one.Position.y + one.Size.y ≥ two.Position.y ∧
          two.Position.y + two.Size.y ≥ one.Position.y)) ∧
    (∀ one two : GameObject,
      one.Position.x + one.Size.x = two.Position.x → 0 ≤ two.Size.x → 0 ≤ one.Size.x →
      one.Position.y + one.Size.y ≥ two.Position.y →
      two.Position.y + two.Size.y ≥ one.Position.y →
      CheckCollision one two = true) := by
  constructor
  · intro one two
    simp [CheckCollision]
  · intro one two hx h2 h1 hy1 hy2
    simp only [CheckCollision, Bool.and_eq_true, decide_eq_true_eq]
    refine ⟨⟨by linarith, by linarith⟩, hy1, hy2⟩

/-- C2: the circle - AABB `CheckCollision` reports a hit exactly when the
distance from the circle centre to the closest point of the box is strictly
below `Radius`; at distance equal to `Radius` (and beyond) the result is
`(false, UP, (0, 0))`, and below `Radius` the result is a hit carrying the
difference vector `closest - centre` and its direction. -/
theorem c2_circle_aabb_strict :
    ∀ (one : BallObject) (two : GameObject),
      ((CheckCollisionBall one two).1 = true ↔
        distance (circleCentre one) (closestPoint one two) < one.Radius) ∧
      (distance (circleCentre one) (closestPoint one two) = one.Radius →
        CheckCollisionBall one two = (false, UP, ⟨0, 0⟩)) ∧
      (one.Radius ≤ distance (circleCentre one) (closestPoint one two) →
        CheckCollisionBall one two = (false, UP, ⟨0, 0⟩)) ∧
      (distance (circleCentre one) (closestPoint one two) < one.Radius →
        CheckCollisionBall one two =
          (true, VectorDirection (Vec2.sub (closestPoint one two) (circleCentre one)),
            Vec2.sub (closestPoint one two) (circleCentre one))) := by
  intro one two
  rw [checkCollisionBall_eq]
  refine ⟨?_, ?_, ?_, ?_⟩
  · split_ifs with h <;> simp [h]
  · intro h
    rw [if_neg (by rw [h]; exact lt_irrefl _)]
  · intro h
    rw [if_neg (not_lt.mpr h)]
  · intro h
    rw [if_pos h]

/-- C3: for every non-zero vector, `VectorDirection` returns an index in
`0 .. 3` (UP, RIGHT, DOWN, LEFT) whose dot product with the normalised vector is
the largest of the four, and every earlier index has a strictly smaller dot
product, so of several largest the first in the order UP, RIGHT, DOWN, LEFT is
returned; `VectorDirection (1, 1) = UP`. -/
theorem c3_vector_direction_first_max :
    (∀ v : Vec2, (v.x ≠ 0 ∨ v.y ≠ 0) →
      VectorDirection v < 4 ∧
      (∀ j : ℕ, j < 4 → compassDot v j ≤ compassDot v (VectorDirection v)) ∧
      (∀ j : ℕ, j < VectorDirection v → compassDot v j < compassDot v (VectorDirection v))) ∧
    VectorDirection ⟨1, 1⟩ = UP := by
  have main : ∀ v : Vec2, (v.x ≠ 0 ∨ v.y ≠ 0) →
      VectorDirection v < 4 ∧
      (∀ j : ℕ, j < 4 → compassDot v j ≤ compassDot v (VectorDirection v)) ∧
      (∀ j : ℕ, j < VectorDirection v → compassDot v j < compassDot v (VectorDirection v)) := by
    intro v hv
    obtain ⟨k, hk, hx, hy⟩ := normalize_sign v hv
    refine vd_core (v.x * k) (v.y * k) ?_ v hx hy
    rcases hv with h | h
    · left; exact mul_ne_zero h hk.ne'
    · right; exact mul_ne_zero h hk.ne'
  refine ⟨main, ?_⟩
  obtain ⟨hlt, -, hfirst⟩ := main ⟨1, 1⟩ (Or.inl one_ne_zero)
  obtain ⟨k, hk, hx, hy⟩ := normalize_sign ⟨1, 1⟩ (Or.inl one_ne_zero)
  by_contra hne
  have h1 := hfirst 0 (Nat.pos_of_ne_zero hne)
  generalize VectorDirection ⟨1, 1⟩ = r at hlt hne h1
  interval_cases r <;>
    simp only [compassDot, compass, Vec2.dot, hx, hy, List.getD_cons_zero,
      List.getD_cons_succ] at h1 <;> linarith

/-- C4: in the loop body of `UpdatePowerUps`, when an activated power-up of type
sticky runs out (`Duration - dt <= 0`) while another sticky power-up of the list
is `Activated`, `Ball.Sticky` and the paddle colour are unchanged, and when no
other one is `Activated` at that moment `Ball.Sticky` becomes false; likewise
for pass-through (`Ball.PassThrough`), confuse (`Effects.Confuse`) and chaos
(`Effects.Chaos`).  With two activated sticky power-ups of which one runs out,
`UpdatePowerUps` leaves the flag and the paddle colour as they were; when the
only one runs out the flag is cleared. -/
theorem c4_powerup_suppression :
    (∀ (g : Game) (dt : ℝ) (i : Nat) (p : PowerUp),
      g.PowerUps[i]? = some p → p.Activated = true → p.Duration - dt ≤ 0 →
      (p.TypeName = "sticky" →
        (otherActive g.PowerUps i "sticky" →
          (UpdatePowerUpsStep dt g i).Ball.Sticky = g.Ball.Sticky ∧
          (UpdatePowerUpsStep dt g i).Player.Color = g.Player.Color) ∧
        (¬ otherActive g.PowerUps i "sticky" →
          (UpdatePowerUpsStep dt g i).Ball.Sticky = false)) ∧
      (p.TypeName = "pass-through" →
        (otherActive g.PowerUps i "pass-through" →
          (UpdatePowerUpsStep dt g i).Ball.PassThrough = g.Ball.PassThrough) ∧
        (¬ otherActive g.PowerUps i "pass-through" →
          (UpdatePowerUpsStep dt g i).Ball.PassThrough = false)) ∧
      (p.TypeName = "confuse" →
        (otherActive g.PowerUps i "confuse" →
          (UpdatePowerUpsStep dt g i).Effects.Confuse = g.Effects.Confuse) ∧
        (¬ otherActive g.PowerUps i "confuse" →
          (UpdatePowerUpsStep dt g i).Effects.Confuse = false)) ∧
      (p.TypeName = "chaos" →
        (otherActive g.PowerUps i "chaos" →
          (UpdatePowerUpsStep dt g i).Effects.Chaos = g.Effects.Chaos) ∧
        (¬ otherActive g.PowerUps i "chaos" →
          (UpdatePowerUpsStep dt g i).Effects.Chaos = false))) ∧
    (∀ (g : Game) (dt : ℝ) (p q : PowerUp),
      g.PowerUps = [p, q] →
      p.TypeName = "sticky" → p.Activated = true →
      q.TypeName = "sticky" → q.Activated = true →
      ((p.Duration - dt ≤ 0 ∧ ¬ q.Duration - dt ≤ 0) ∨
        (¬ p.Duration - dt ≤ 0 ∧ q.Duration - dt ≤ 0)) →
      (UpdatePowerUps g dt).Ball.Sticky = g.Ball.Sticky ∧
      (UpdatePowerUps g dt).Player.Color = g.Player.Color) ∧
    (∀ (g : Game) (dt : ℝ) (p : PowerUp),
      g.PowerUps = [p] → p.TypeName = "sticky" → p.Activated = true → p.Duration - dt ≤ 0 →
      (UpdatePowerUps g dt).Ball.Sticky = false) := by
  refine ⟨?_, ?_, ?_⟩
  · intro g dt i p hp ha hd
    obtain ⟨e, he, -, hstep⟩ := updatePowerUpsStep_expired g dt i p hp ha hd
    have hother : ∀ t, IsOtherPowerUpActive (g.PowerUps.set i e) t = true ↔
        otherActive g.PowerUps i t := fun t => isOther_set_expired g.PowerUps i e t he
    rw [hstep]
    refine ⟨?_, ?_, ?_, ?_⟩ <;> intro ht <;> rw [ht] <;> constructor <;> intro ho
    all_goals
      first
      | (have h := (hother _).mpr ho
         simp [deactivateEffect, h])
      | (have h : IsOtherPowerUpActive (g.PowerUps.set i e) _ = false :=
           Bool.eq_false_iff.mpr (fun hc => ho ((hother _).mp hc))
         simp [deactivateEffect, h])
  · intro g dt p q hps hpt hpa hqt hqa hd
    rcases hd with ⟨h1, h2⟩ | ⟨h1, h2⟩ <;>
      simp [UpdatePowerUps, UpdatePowerUpsLoop, hps, List.range, List.range.loop,
        UpdatePowerUpsStep, hpa, hqa, h1, h2, deactivateEffect, hpt, hqt,
        IsOtherPowerUpActive]
  · intro g dt p hps hpt hpa hd
    simp [UpdatePowerUps, UpdatePowerUpsLoop, hps, List.range, List.range.loop,
        UpdatePowerUpsStep, hpa, hd, deactivateEffect, hpt, IsOtherPowerUpActive]

/-- C7: `State` and `Lives` at the loss check of `Update` are those at the start
of the call.  When the ball is at or below `Height` at the loss check: with
`Lives = 1` the game is in `GAME_MENU` with `Lives = 3` after `Update`, the
level and the player having been reset; with `Lives > 1` the loss check
decreases `Lives` by exactly one, leaves `State` as it was, and resets the
player. -/
theorem c7_loss_check (cfg : Config) (g : Game) (dt : ℝ)
    (hbottom : (UpdateBeforeChecks cfg g dt).Ball.Position.y ≥
      ((UpdateBeforeChecks cfg g dt).Height : ℝ)) :
    (UpdateBeforeChecks cfg g dt).State = g.State ∧
    (UpdateBeforeChecks cfg g dt).Lives = g.Lives ∧
    (g.Lives = 1 →
      (Update cfg g dt).State = GameState.GAME_MENU ∧ (Update cfg g dt).Lives = 3 ∧
      Update cfg g dt =
        ResetPlayer cfg { ResetLevel cfg { UpdateBeforeChecks cfg g dt with Lives := 0 } with
          State := GameState.GAME_MENU }) ∧
    (1 < g.Lives → g.Lives < 2 ^ 32 →
      (UpdateLossCheck cfg (UpdateBeforeChecks cfg g dt)).Lives = g.Lives - 1 ∧
      (UpdateLossCheck cfg (UpdateBeforeChecks cfg g dt)).State = g.State ∧
      UpdateLossCheck cfg (UpdateBeforeChecks cfg g dt) =
        ResetPlayer cfg { UpdateBeforeChecks cfg g dt with Lives := g.Lives - 1 }) := by
  obtain ⟨hs, hl, -⟩ := updateBeforeChecks_sameControl cfg g dt
  refine ⟨hs, hl, ?_, ?_⟩
  · intro h1
    have hloss : UpdateLossCheck cfg (UpdateBeforeChecks cfg g dt) =
        ResetPlayer cfg { ResetLevel cfg { UpdateBeforeChecks cfg g dt with Lives := 0 } with
          State := GameState.GAME_MENU } := by
      unfold UpdateLossCheck
      rw [if_pos hbottom]
      simp [hl, h1]
    have hupd : Update cfg g dt =
        ResetPlayer cfg { ResetLevel cfg { UpdateBeforeChecks cfg g dt with Lives := 0 } with
          State := GameState.GAME_MENU } := by
      unfold Update
      rw [hloss]
      unfold UpdateWinCheck
      rw [if_neg]
      rw [(resetPlayer_fields cfg _).1]
      simp
    rw [hupd]
    refine ⟨(resetPlayer_fields cfg _).1, ?_, rfl⟩
    rw [(resetPlayer_fields cfg _).2.1]
    rfl
  · intro h1 h2
    have hmod : (g.Lives + (2 ^ 32 - 1)) % 2 ^ 32 = g.Lives - 1 := by omega
    have hloss : UpdateLossCheck cfg (UpdateBeforeChecks cfg g dt) =
        ResetPlayer cfg { UpdateBeforeChecks cfg g dt with Lives := g.Lives - 1 } := by
      unfold UpdateLossCheck
      rw [if_pos hbottom]
      simp only [hl, hmod]
      rw [if_neg (by omega)]
    rw [hloss]
    refine ⟨(resetPlayer_fields cfg _).2.1, ?_, rfl⟩
    rw [(resetPlayer_fields cfg _).1]
    exact hs

/-- C7, instance: one life left and a ball that falls past the bottom edge
beside the paddle. -/
theorem c7_loss_check_witness :
    (Update demoConfig demoLosing (1 / 10)).State = GameState.GAME_MENU ∧
    (Update demoConfig demoLosing (1 / 10)).Lives = 3 :=
  ⟨((c7_loss_check demoConfig demoLosing (1 / 10) demoLosing_bottom).2.2.1 rfl).1,
    ((c7_loss_check demoConfig demoLosing (1 / 10) demoLosing_bottom).2.2.1 rfl).2.1⟩

/-- C8: when at the win check of `Update` the state is `GAME_ACTIVE` and the
current level is completed, then after `Update` the state is `GAME_WIN`, chaos
is on, confuse is off, `Lives = 3` and the paddle has size `PLAYER_SIZE` at its
start position; when the state is not `GAME_ACTIVE` at that check the win check
changes nothing, in particular when the loss check of the same call has just
moved the game to `GAME_MENU`. -/
theorem c8_win_check (cfg : Config) (g : Game) (dt : ℝ) :
    ((UpdateLossCheck cfg (UpdateBeforeChecks cfg g dt)).State = GameState.GAME_ACTIVE →
      (UpdateLossCheck cfg (UpdateBeforeChecks cfg g dt)).currentLevel.IsCompleted = true →
      (Update cfg g dt).State = GameState.GAME_WIN ∧
      (Update cfg g dt).Effects.Chaos = true ∧
      (Update cfg g dt).Effects.Confuse = false ∧
      (Update cfg g dt).Lives = 3 ∧
      (Update cfg g dt).Player.Size = cfg.PLAYER_SIZE ∧
      (Update cfg g dt).Player.Position =
        ⟨(g.Width : ℝ) / 2 - cfg.PLAYER_SIZE.x / 2, (g.Height : ℝ) - cfg.PLAYER_SIZE.y⟩) ∧
    ((UpdateLossCheck cfg (UpdateBeforeChecks cfg g dt)).State ≠ GameState.GAME_ACTIVE →
      Update cfg g dt = UpdateLossCheck cfg (UpdateBeforeChecks cfg g dt)) ∧
    (g.Lives = 1 →
      (UpdateBeforeChecks cfg g dt).Ball.Position.y ≥ ((UpdateBeforeChecks cfg g dt).Height : ℝ) →
      (UpdateLossCheck cfg (UpdateBeforeChecks cfg g dt)).State = GameState.GAME_MENU ∧
      Update cfg g dt = UpdateLossCheck cfg (UpdateBeforeChecks cfg g dt)) := by
  have hnot : (UpdateLossCheck cfg (UpdateBeforeChecks cfg g dt)).State ≠ GameState.GAME_ACTIVE →
      Update cfg g dt = UpdateLossCheck cfg (UpdateBeforeChecks cfg g dt) := by
    intro hs
    unfold Update UpdateWinCheck
    rw [if_neg (fun h => hs h.1)]
  refine ⟨?_, hnot, ?_⟩
  · intro hs hc
    obtain ⟨-, -, -, hw, hh, -⟩ := updateBeforeChecks_sameControl cfg g dt
    obtain ⟨hw2, hh2⟩ := updateLossCheck_size cfg (UpdateBeforeChecks cfg g dt)
    have hupd : Update cfg g dt =
        { ResetPlayer cfg (ResetLevel cfg (UpdateLossCheck cfg (UpdateBeforeChecks cfg g dt))) with
          Effects := { (ResetPlayer cfg (ResetLevel cfg
              (UpdateLossCheck cfg (UpdateBeforeChecks cfg g dt)))).Effects with Chaos := true },
          State := GameState.GAME_WIN } := by
      unfold Update UpdateWinCheck
      rw [if_pos ⟨hs, hc⟩]
    rw [hupd]
    refine ⟨rfl, rfl, rfl, rfl, rfl, ?_⟩
    show playerStart cfg (ResetLevel cfg (UpdateLossCheck cfg (UpdateBeforeChecks cfg g dt))) = _
    unfold playerStart
    rw [(resetLevel_fields cfg _).2.2.2.1, (resetLevel_fields cfg _).2.2.2.2.1, hw2, hh2, hw, hh]
  · intro h1 hb
    have h := (lossCheck_to_menu cfg g dt hb h1)
    refine ⟨h, hnot ?_⟩
    rw [h]
    simp

/-- C10: in `GAME_WIN`, `ProcessInput` with the ENTER key down sets the state to
`GAME_MENU` and clears chaos; with ENTER not down it changes nothing, so the
state stays `GAME_WIN` and chaos is as it was. -/
theorem c10_win_confirm (cfg : Config) (g : Game) (dt : ℝ)
    (hwin : g.State = GameState.GAME_WIN) :
    (g.Keys GLFW_KEY_ENTER = true →
      (ProcessInput cfg g dt).State = GameState.GAME_MENU ∧
      (ProcessInput cfg g dt).Effects.Chaos = false) ∧
    (g.Keys GLFW_KEY_ENTER = false →
      (ProcessInput cfg g dt).State = GameState.GAME_WIN ∧
      (ProcessInput cfg g dt).Effects.Chaos = g.Effects.Chaos ∧
      ProcessInput cfg g dt = g) := by
  constructor
  · intro hk
    simp [ProcessInput, ProcessInputMenu, ProcessInputWin, ProcessInputActive, ProcessInputEnter,
    ProcessInputW, ProcessInputS, ProcessInputA, ProcessInputD, ProcessInputSpace, hwin, hk]
  · intro hk
    have : ProcessInput cfg g dt = g := by
      simp [ProcessInput, ProcessInputMenu, ProcessInputWin, ProcessInputActive, ProcessInputEnter,
    ProcessInputW, ProcessInputS, ProcessInputA, ProcessInputD, ProcessInputSpace, hwin, hk]
    rw [this]
    exact ⟨hwin, rfl, rfl⟩

/-- C10, instance: the won game with ENTER down. -/
theorem c10_win_confirm_witness :
    (ProcessInput demoConfig demoWon 0).State = GameState.GAME_MENU ∧
    (ProcessInput demoConfig demoWon 0).Effects.Chaos = false :=
  (c10_win_confirm demoConfig demoWon 0 rfl).1 (by simp [demoWon, setKey])

/-- C9 as stated fails: three frames of the render loop from the start state of
the concrete configuration (the level is won while a chaos power-up is falling;
the power-up falls to the paddle; the paddle collects it and its duration of 15
runs out) lead to a state in `GAME_WIN` in which chaos is off. -/
theorem c9_chaos_lapses_in_win :
    Reachable demoConfig demoGame demoFrame3 ∧
    demoFrame3.State = GameState.GAME_WIN ∧ demoFrame3.Effects.Chaos = false := by
  refine ⟨?_, ?_, ?_⟩
  · unfold demoFrame3 demoFrame2 demoFrame1
    exact reachable_frame _ _ _ _ _ (by norm_num)
      (reachable_frame _ _ _ _ _ (by norm_num)
        (reachable_frame _ _ _ _ _ (by norm_num) Reachable.start))
  · obtain ⟨keys, kp, h⟩ := demoFrame3_eq
    rw [h]
    rfl
  · obtain ⟨keys, kp, h⟩ := demoFrame3_eq
    rw [h]
    rfl

/-- C9 (amended): the chaos visual is on whenever an `Update` call enters
`GAME_WIN`; `ProcessInput` and key events never enter `GAME_WIN`, and a
`ProcessInput` call that stays in `GAME_WIN` leaves chaos as it is; an `Update`
call in `GAME_WIN` with chaos on stays in `GAME_WIN` with chaos on, provided
that no activated chaos power-up runs out of duration in that call and that the
ball is above the bottom edge at the loss check. -/
theorem c9_chaos_in_win (cfg : Config) :
    (∀ (g : Game) (dt : ℝ), g.State ≠ GameState.GAME_WIN →
      (Update cfg g dt).State = GameState.GAME_WIN → (Update cfg g dt).Effects.Chaos = true) ∧
    (∀ (g : Game) (dt : ℝ), g.State ≠ GameState.GAME_WIN →
      (ProcessInput cfg g dt).State ≠ GameState.GAME_WIN) ∧
    (∀ (g : Game) (key action : Int),
      (key_callback g key action).State = g.State ∧
      (key_callback g key action).Effects = g.Effects) ∧
    (∀ (g : Game) (dt : ℝ), g.State = GameState.GAME_WIN →
      (ProcessInput cfg g dt).State = GameState.GAME_WIN →
      (ProcessInput cfg g dt).Effects.Chaos = g.Effects.Chaos) ∧
    (∀ (g : Game) (dt : ℝ), g.State = GameState.GAME_WIN → g.Effects.Chaos = true →
      (∀ p ∈ (DoCollisions cfg { g with Ball := cfg.Move g.Ball dt g.Width }).PowerUps,
        p.Activated = true → p.TypeName = "chaos" → ¬ p.Duration - dt ≤ 0) →
      (UpdateBeforeChecks cfg g dt).Ball.Position.y < ((UpdateBeforeChecks cfg g dt).Height : ℝ) →
      (Update cfg g dt).State = GameState.GAME_WIN ∧ (Update cfg g dt).Effects.Chaos = true) := by
  refine ⟨?_, ?_, ?_, ?_, ?_⟩
  · intro g dt hs hw
    by_cases hc : (UpdateLossCheck cfg (UpdateBeforeChecks cfg g dt)).State = GameState.GAME_ACTIVE ∧
        (UpdateLossCheck cfg (UpdateBeforeChecks cfg g dt)).currentLevel.IsCompleted = true
    · unfold Update UpdateWinCheck
      rw [if_pos hc]
    · exfalso
      have hupd : Update cfg g dt = UpdateLossCheck cfg (UpdateBeforeChecks cfg g dt) := by
        unfold Update UpdateWinCheck
        rw [if_neg hc]
      rw [hupd] at hw
      obtain ⟨hst, -⟩ := updateBeforeChecks_sameControl cfg g dt
      rcases updateLossCheck_state cfg (UpdateBeforeChecks cfg g dt) with h | h
      · rw [h, hst] at hw
        exact hs hw
      · rw [h] at hw
        exact absurd hw (by simp)
  · intro g dt hs hw
    unfold ProcessInput at hw
    rw [processInputActive_state] at hw
    rcases processInputWin_state (ProcessInputMenu g) with h | h
    · rw [h] at hw
      rcases processInputMenu_state g with h' | h'
      · rw [h'] at hw
        exact hs hw
      · rw [h'] at hw
        exact absurd hw (by simp)
    · rw [h] at hw
      exact absurd hw (by simp)
  · intro g key action
    unfold key_callback
    split_ifs <;> exact ⟨rfl, rfl⟩
  · intro g dt hw hw'
    by_cases hk : g.Keys GLFW_KEY_ENTER = true
    · exfalso
      simp [ProcessInput, ProcessInputMenu, ProcessInputWin, ProcessInputActive, hw, hk] at hw'
    · rw [processInput_win_idle cfg g dt hw (by simpa using hk)]
  · intro g dt hw hc hno hball
    obtain ⟨hst, -⟩ := updateBeforeChecks_sameControl cfg g dt
    have hchaos : (UpdateBeforeChecks cfg g dt).Effects.Chaos = true := by
      unfold UpdateBeforeChecks
      simp only
      rw [updateShake_chaos, updatePowerUps_chaos _ dt hno]
      exact doCollisions_chaos_stays cfg _ hc
    have hloss : UpdateLossCheck cfg (UpdateBeforeChecks cfg g dt) = UpdateBeforeChecks cfg g dt := by
      unfold UpdateLossCheck
      rw [if_neg (not_le.mpr hball)]
    have hupd : Update cfg g dt = UpdateBeforeChecks cfg g dt := by
      unfold Update UpdateWinCheck
      rw [hloss, if_neg]
      rw [hst, hw]
      simp
    rw [hupd]
    exact ⟨hst.trans hw, hchaos⟩

/-- C9, instance: the second `Update` of the concrete run, in `GAME_WIN` with a
chaos power-up falling, keeps chaos on. -/
theorem c9_chaos_in_win_witness :
    (Update demoConfig
      (demoRunState GameState.GAME_WIN demoGame.Keys demoGame.KeysProcessed
        [demoChaosPowerUp 330] demoGame.Ball true 6) (5 / 3)).State = GameState.GAME_WIN ∧
    (Update demoConfig
      (demoRunState GameState.GAME_WIN demoGame.Keys demoGame.KeysProcessed
        [demoChaosPowerUp 330] demoGame.Ball true 6) (5 / 3)).Effects.Chaos = true :=
  (c9_chaos_in_win demoConfig).2.2.2.2
    (demoRunState GameState.GAME_WIN demoGame.Keys demoGame.KeysProcessed
      [demoChaosPowerUp 330] demoGame.Ball true 6) (5 / 3) rfl rfl
    (by
      rw [demo_collisions2]
      intro p hp ha
      simp [demoRunState, demoChaosPowerUp, PowerUp.new] at hp
      rw [hp] at ha
      simp at ha)
    (by
      rw [demo_before2]
      norm_num [demoRunState, demoGame, Game.Init, demoConfig, BallObject.new, Vec2.add])


/-- C4, instance: of two activated sticky power-ups with 5 and 20 seconds left,
the first runs out in a tick of 6 seconds and the ball stays sticky. -/
theorem c4_powerup_suppression_witness :
    (UpdatePowerUps demoTwoSticky 6).Ball.Sticky = true :=
  (c4_powerup_suppression.2.1 demoTwoSticky 6 (demoSticky 5) (demoSticky 20) rfl rfl rfl rfl rfl
    (Or.inl ⟨by norm_num [demoSticky, PowerUp.new], by norm_num [demoSticky, PowerUp.new]⟩)).1

/-- C8, instance: the first `Update` of the concrete run destroys the only brick
and takes the win transition. -/
theorem c8_win_check_witness :
    (Update demoConfig
      (demoRunState GameState.GAME_ACTIVE demoGame.Keys demoGame.KeysProcessed [] demoFreeBall
        false 0) 1).State = GameState.GAME_WIN ∧
    (Update demoConfig
      (demoRunState GameState.GAME_ACTIVE demoGame.Keys demoGame.KeysProcessed [] demoFreeBall
        false 0) 1).Effects.Chaos = true ∧
    (Update demoConfig
      (demoRunState GameState.GAME_ACTIVE demoGame.Keys demoGame.KeysProcessed [] demoFreeBall
        false 0) 1).Lives = 3 :=
  have h := (c8_win_check demoConfig
      (demoRunState GameState.GAME_ACTIVE demoGame.Keys demoGame.KeysProcessed [] demoFreeBall
        false 0) 1).1
    (by rw [demo_loss1]; rfl)
    (by rw [demo_loss1]
        simp [Game.currentLevel, GameLevel.IsCompleted, demoRunState, demoGame, Game.Init])
  ⟨h.1, h.2.1, h.2.2.2.1⟩

/-- C11: in `GAME_MENU` with `Level` in `0 .. 3`, a `ProcessInput` call in which
only the W statement acts sets `Level` to `(Level + 1) mod 4`, and one in which
only the S statement acts sets it to `(Level + 3) mod 4`; `ProcessInput` keeps
`Level` below 4, and so does every run of key events, `ProcessInput` and
`Update` calls; a W press followed by an S press gives back the original
`Level`. -/
theorem c11_menu_level_cycle (cfg : Config) :
    (∀ (g : Game) (dt : ℝ), g.State = GameState.GAME_MENU → g.Level < 4 →
      (g.Keys GLFW_KEY_W = true ∧ g.KeysProcessed GLFW_KEY_W = false) →
      ¬ (g.Keys GLFW_KEY_S = true ∧ g.KeysProcessed GLFW_KEY_S = false) →
      (ProcessInput cfg g dt).Level = (g.Level + 1) % 4) ∧
    (∀ (g : Game) (dt : ℝ), g.State = GameState.GAME_MENU → g.Level < 4 →
      ¬ (g.Keys GLFW_KEY_W = true ∧ g.KeysProcessed GLFW_KEY_W = false) →
      (g.Keys GLFW_KEY_S = true ∧ g.KeysProcessed GLFW_KEY_S = false) →
      (ProcessInput cfg g dt).Level = (g.Level + 3) % 4) ∧
    (∀ (g : Game) (dt : ℝ), g.Level < 4 → (ProcessInput cfg g dt).Level < 4) ∧
    (∀ start s : Game, Reachable cfg start s → start.Level < 4 → s.Level < 4) ∧
    (∀ (g : Game) (dt dt' : ℝ), g.State = GameState.GAME_MENU → g.Level < 4 →
      ¬ (g.Keys GLFW_KEY_ENTER = true ∧ g.KeysProcessed GLFW_KEY_ENTER = false) →
      (g.Keys GLFW_KEY_W = true ∧ g.KeysProcessed GLFW_KEY_W = false) →
      (g.Keys GLFW_KEY_S = false ∧ g.KeysProcessed GLFW_KEY_S = false) →
      (ProcessInput cfg g dt).Level = (g.Level + 1) % 4 ∧
      (ProcessInput cfg (key_callback (ProcessInput cfg g dt) GLFW_KEY_S GLFW_PRESS) dt').Level =
        g.Level) := by
  refine ⟨?_, ?_, ?_, ?_, ?_⟩
  · intro g dt hm _ hw hs
    rw [processInput_level_eq, if_pos hm, if_pos hw, if_neg hs]
  · intro g dt hm hl hw hs
    rw [processInput_level_eq, if_pos hm, if_neg hw, if_pos hs]
    split_ifs <;> omega
  · intro g dt h
    exact processInput_level_lt cfg g dt h
  · intro start s hr h0
    induction hr with
    | start => exact h0
    | key g key action _ ih => rw [key_callback_level]; exact ih
    | input g dt _ _ ih => exact processInput_level_lt cfg g dt ih
    | update g dt _ _ ih => rw [update_level]; exact ih
  · intro g dt dt' hm hl he hw hs
    have hs' : ¬ (g.Keys GLFW_KEY_S = true ∧ g.KeysProcessed GLFW_KEY_S = false) := by
      rw [hs.1]; simp
    have h1 : (ProcessInput cfg g dt).Level = (g.Level + 1) % 4 := by
      rw [processInput_level_eq, if_pos hm, if_pos hw, if_neg hs']
    refine ⟨h1, ?_⟩
    rw [processInput_menu_W cfg g dt hm he hw hs', processInput_level_eq]
    have hk : (0 : Int) ≤ (GLFW_KEY_S : Int) ∧ ((GLFW_KEY_S : Nat) : Int) < 1024 := by
      constructor <;> decide
    simp only [key_callback, hk, GLFW_PRESS, and_self, if_true, hm, Int.toNat_ofNat]
    simp only [setKey, hw.1, hs.2]
    simp [GLFW_KEY_W, GLFW_KEY_S]
    split_ifs <;> omega

/-- C11, instance: W pressed in the start state selects level 1. -/
theorem c11_menu_level_cycle_witness :
    (ProcessInput demoConfig demoMenuW 0).Level = 1 := by
  have h := (c11_menu_level_cycle demoConfig).1 demoMenuW 0
    (by simp [demoMenuW, key_callback, GLFW_KEY_W, GLFW_PRESS, demoGame, Game.Init])
    (by simp [demoMenuW, key_callback, GLFW_KEY_W, GLFW_PRESS, demoGame, Game.Init])
    (by simp [demoMenuW, key_callback, GLFW_KEY_W, GLFW_PRESS, demoGame, Game.Init, setKey])
    (by simp [demoMenuW, key_callback, GLFW_KEY_W, GLFW_KEY_S, GLFW_PRESS, demoGame, Game.Init,
      setKey])
  rw [h]
  simp [demoMenuW, key_callback, GLFW_KEY_W, GLFW_PRESS, demoGame, Game.Init]

/-- C12: the ENTER, W and S statements of the menu act exactly when the key is
down and its `KeysProcessed` entry is false, and set that entry when they act;
hence any number `n >= 1` of consecutive `ProcessInput` calls without a key
event changes `Level` by one step (W or S held) or leaves the game in
`GAME_ACTIVE` (ENTER held), as a single call does; a release clears the
`KeysProcessed` entry again. -/
theorem c12_menu_edge_triggered (cfg : Config) :
    (∀ g : Game,
      ((g.Keys GLFW_KEY_ENTER = true ∧ g.KeysProcessed GLFW_KEY_ENTER = false) →
        (ProcessInputEnter g).State = GameState.GAME_ACTIVE ∧
        (ProcessInputEnter g).KeysProcessed GLFW_KEY_ENTER = true) ∧
      (¬ (g.Keys GLFW_KEY_ENTER = true ∧ g.KeysProcessed GLFW_KEY_ENTER = false) →
        ProcessInputEnter g = g)) ∧
    (∀ g : Game,
      ((g.Keys GLFW_KEY_W = true ∧ g.KeysProcessed GLFW_KEY_W = false) →
        (ProcessInputW g).Level = (g.Level + 1) % 4 ∧
        (ProcessInputW g).KeysProcessed GLFW_KEY_W = true) ∧
      (¬ (g.Keys GLFW_KEY_W = true ∧ g.KeysProcessed GLFW_KEY_W = false) →
        ProcessInputW g = g)) ∧
    (∀ g : Game,
      ((g.Keys GLFW_KEY_S = true ∧ g.KeysProcessed GLFW_KEY_S = false) →
        (ProcessInputS g).Level = (if g.Level > 0 then g.Level - 1 else 3) ∧
        (ProcessInputS g).KeysProcessed GLFW_KEY_S = true) ∧
      (¬ (g.Keys GLFW_KEY_S = true ∧ g.KeysProcessed GLFW_KEY_S = false) →
        ProcessInputS g = g)) ∧
    (∀ (g : Game) (dt : ℝ) (dts : List ℝ), g.State = GameState.GAME_MENU →
      (g.Keys GLFW_KEY_W = true ∧ g.KeysProcessed GLFW_KEY_W = false) →
      ¬ (g.Keys GLFW_KEY_S = true ∧ g.KeysProcessed GLFW_KEY_S = false) →
      (ProcessInput cfg g dt).Level = (g.Level + 1) % 4 ∧
      (inputRun cfg g (dt :: dts)).Level = (g.Level + 1) % 4) ∧
    (∀ (g : Game) (dt : ℝ) (dts : List ℝ), g.State = GameState.GAME_MENU →
      ¬ (g.Keys GLFW_KEY_W = true ∧ g.KeysProcessed GLFW_KEY_W = false) →
      (g.Keys GLFW_KEY_S = true ∧ g.KeysProcessed GLFW_KEY_S = false) →
      (ProcessInput cfg g dt).Level = (if g.Level > 0 then g.Level - 1 else 3) ∧
      (inputRun cfg g (dt :: dts)).Level = (if g.Level > 0 then g.Level - 1 else 3)) ∧
    (∀ (g : Game) (dt : ℝ) (dts : List ℝ), g.State = GameState.GAME_MENU →
      (g.Keys GLFW_KEY_ENTER = true ∧ g.KeysProcessed GLFW_KEY_ENTER = false) →
      (ProcessInput cfg g dt).State = GameState.GAME_ACTIVE ∧
      (inputRun cfg g (dt :: dts)).State = GameState.GAME_ACTIVE) ∧
    (∀ (g : Game) (key : Nat), key < 1024 →
      (key_callback g key GLFW_RELEASE).Keys key = false ∧
      (key_callback g key GLFW_RELEASE).KeysProcessed key = false ∧
      (key_callback g key GLFW_PRESS).Keys key = true ∧
      (key_callback g key GLFW_PRESS).KeysProcessed = g.KeysProcessed) := by
  refine ⟨?_, ?_, ?_, ?_, ?_, ?_, ?_⟩
  · intro g
    unfold ProcessInputEnter
    constructor
    · intro h
      rw [if_pos h]
      exact ⟨rfl, by simp [setKey]⟩
    · intro h
      rw [if_neg h]
  · intro g
    unfold ProcessInputW
    constructor
    · intro h
      rw [if_pos h]
      exact ⟨rfl, by simp [setKey]⟩
    · intro h
      rw [if_neg h]
  · intro g
    unfold ProcessInputS
    constructor
    · intro h
      rw [if_pos h]
      exact ⟨rfl, by simp [setKey]⟩
    · intro h
      rw [if_neg h]
  · intro g dt dts hm hw hs
    have h1 : (ProcessInput cfg g dt).Level = (g.Level + 1) % 4 := by
      rw [processInput_level_eq, if_pos hm, if_pos hw, if_neg hs]
    obtain ⟨p1, p2⟩ := processInput_menu_processed cfg g dt hm
    refine ⟨h1, ?_⟩
    have := inputRun_idle_level cfg dts (ProcessInput cfg g dt) p1 p2
    unfold inputRun at this ⊢
    simp only [List.foldl_cons]
    rw [this, h1]
  · intro g dt dts hm hw hs
    have h1 : (ProcessInput cfg g dt).Level = (if g.Level > 0 then g.Level - 1 else 3) := by
      rw [processInput_level_eq, if_pos hm, if_neg hw, if_pos hs]
    obtain ⟨p1, p2⟩ := processInput_menu_processed cfg g dt hm
    refine ⟨h1, ?_⟩
    have := inputRun_idle_level cfg dts (ProcessInput cfg g dt) p1 p2
    unfold inputRun at this ⊢
    simp only [List.foldl_cons]
    rw [this, h1]
  · intro g dt dts hm he
    have h1 := processInput_menu_enter cfg g dt hm he
    refine ⟨h1, ?_⟩
    have := inputRun_active_state cfg dts (ProcessInput cfg g dt) h1
    unfold inputRun at this ⊢
    simp only [List.foldl_cons]
    exact this
  · intro g key hk
    have h : (0 : Int) ≤ (key : Int) ∧ (key : Int) < 1024 := ⟨by omega, by omega⟩
    simp [key_callback, h, GLFW_PRESS, GLFW_RELEASE, setKey]


/-- C12, instance: three `ProcessInput` calls with W held select level 1. -/
theorem c12_menu_edge_triggered_witness :
    (inputRun demoConfig demoMenuW [0, 0, 0]).Level = 1 := by
  have h := ((c12_menu_edge_triggered demoConfig).2.2.2.1 demoMenuW 0 [0, 0]
    (by simp [demoMenuW, key_callback, GLFW_KEY_W, GLFW_PRESS, demoGame, Game.Init])
    (by simp [demoMenuW, key_callback, GLFW_KEY_W, GLFW_PRESS, demoGame, Game.Init, setKey])
    (by simp [demoMenuW, key_callback, GLFW_KEY_W, GLFW_KEY_S, GLFW_PRESS, demoGame, Game.Init,
      setKey])).2
  rw [h]
  simp [demoMenuW, key_callback, GLFW_KEY_W, GLFW_PRESS, demoGame, Game.Init]

/-- C13: for a hit on a brick that is not destroyed, the brick step of
`DoCollisions` skips the resolution exactly when pass-through is on and the
brick is not solid: then the brick is destroyed and the ball is left as it is;
otherwise the ball is resolved (and its position does change), in particular
for a solid brick whatever the pass-through flag. -/
theorem c13_pass_through_bypass (cfg : Config) (g : Game) (box : GameObject)
    (hd : box.Destroyed = false) (hhit : (CheckCollisionBall g.Ball box).1 = true) :
    ((g.Ball.PassThrough = true ∧ box.IsSolid = false) →
      (DoCollisionsBrick cfg g box).2.Destroyed = true ∧
      (DoCollisionsBrick cfg g box).1.Ball = g.Ball) ∧
    (¬ (g.Ball.PassThrough = true ∧ box.IsSolid = false) →
      (DoCollisionsBrick cfg g box).1.Ball =
        resolveBrickHit g.Ball (CheckCollisionBall g.Ball box).2.1
          (CheckCollisionBall g.Ball box).2.2 ∧
      (DoCollisionsBrick cfg g box).1.Ball.Position ≠ g.Ball.Position) ∧
    (box.IsSolid = true →
      (DoCollisionsBrick cfg g box).1.Ball =
        resolveBrickHit g.Ball (CheckCollisionBall g.Ball box).2.1
          (CheckCollisionBall g.Ball box).2.2) ∧
    ((DoCollisionsBrick cfg g box).1.Ball = g.Ball ↔
      (g.Ball.PassThrough = true ∧ box.IsSolid = false)) := by
  have hball := doCollisionsBrick_ball cfg g box hd hhit
  obtain ⟨hres, hlt⟩ := checkCollisionBall_of_hit g.Ball box hhit
  have hmoved : (resolveBrickHit g.Ball (CheckCollisionBall g.Ball box).2.1
      (CheckCollisionBall g.Ball box).2.2).Position ≠ g.Ball.Position := by
    rw [hres]
    simp only
    obtain ⟨hx, hy⟩ := abs_le_length (Vec2.sub (closestPoint g.Ball box) (circleCentre g.Ball))
    intro heq
    unfold resolveBrickHit at heq
    simp only at heq
    split_ifs at heq <;>
      · have h1 := congrArg Vec2.x heq
        have h2 := congrArg Vec2.y heq
        simp only at h1 h2
        linarith
  have hyes : (g.Ball.PassThrough = true ∧ box.IsSolid = false) →
      (DoCollisionsBrick cfg g box).1.Ball = g.Ball := by
    intro h
    rw [hball, if_pos h]
  have hno : ¬ (g.Ball.PassThrough = true ∧ box.IsSolid = false) →
      (DoCollisionsBrick cfg g box).1.Ball =
        resolveBrickHit g.Ball (CheckCollisionBall g.Ball box).2.1
          (CheckCollisionBall g.Ball box).2.2 := by
    intro h
    rw [hball, if_neg h]
  refine ⟨?_, ?_, ?_, ?_⟩
  · intro h
    refine ⟨?_, hyes h⟩
    rw [((doCollisionsBrick_brick cfg g box).2.1 hd hhit h.2).1]
  · intro h
    refine ⟨hno h, ?_⟩
    rw [hno h]
    exact hmoved
  · intro hs
    exact hno (fun h => by rw [hs] at h; exact absurd h.2 (by simp))
  · constructor
    · intro h
      by_contra hc
      rw [hno hc] at h
      exact hmoved (congrArg (fun b : BallObject => b.Position) h)
    · exact hyes

/-- C13, instance: a pass-through ball overlapping `demoBrick` destroys it and is
not moved. -/
theorem c13_pass_through_bypass_witness :
    (DoCollisionsBrick demoConfig (demoAtBrick true) demoBrick).2.Destroyed = true ∧
    (DoCollisionsBrick demoConfig (demoAtBrick true) demoBrick).1.Ball =
      (demoAtBrick true).Ball :=
  (c13_pass_through_bypass demoConfig (demoAtBrick true) demoBrick rfl
    (by rw [demoAtBrick_collision true demoBrick rfl rfl])).1 ⟨rfl, rfl⟩


/-- C14: a hit on a solid brick leaves the brick as it is (not destroyed), sets
the shake flag and sets `ShakeTime` to 0.05; a hit on a brick that is not solid
sets its `Destroyed` flag and the power-ups and draws are those of
`SpawnPowerUps` for it; a brick that is destroyed or not hit leaves the state
and the brick unchanged; over the whole of `DoCollisions` the bricks of the
current level keep their places, a solid brick is never changed, and any other
brick is unchanged or has only been destroyed. -/
theorem c14_solid_bricks_shake (cfg : Config) :
    (∀ (g : Game) (box : GameObject),
      box.Destroyed = false → (CheckCollisionBall g.Ball box).1 = true → box.IsSolid = true →
      (DoCollisionsBrick cfg g box).2 = box ∧
      (DoCollisionsBrick cfg g box).2.Destroyed = false ∧
      (DoCollisionsBrick cfg g box).1.Effects.Shake = true ∧
      (DoCollisionsBrick cfg g box).1.ShakeTime = 0.05) ∧
    (∀ (g : Game) (box : GameObject),
      box.Destroyed = false → (CheckCollisionBall g.Ball box).1 = true → box.IsSolid = false →
      (DoCollisionsBrick cfg g box).2 = { box with Destroyed := true } ∧
      (DoCollisionsBrick cfg g box).1.PowerUps =
        (SpawnPowerUps cfg g { box with Destroyed := true }).PowerUps ∧
      (DoCollisionsBrick cfg g box).1.RandPos =
        (SpawnPowerUps cfg g { box with Destroyed := true }).RandPos) ∧
    (∀ (g : Game) (box : GameObject),
      box.Destroyed = true ∨ (CheckCollisionBall g.Ball box).1 = false →
      DoCollisionsBrick cfg g box = (g, box)) ∧
    (∀ g : Game,
      (DoCollisions cfg g).Levels =
        g.Levels.set g.Level ⟨(DoCollisionsBricksLoop cfg g g.currentLevel.Bricks).2⟩ ∧
      List.Forall₂ (fun b b' => brickAfter b b' ∧ (b.IsSolid = true → b' = b))
        g.currentLevel.Bricks (DoCollisionsBricksLoop cfg g g.currentLevel.Bricks).2) := by
  refine ⟨?_, ?_, ?_, ?_⟩
  · intro g box hd hhit hs
    obtain ⟨h1, h2, h3, -⟩ := (doCollisionsBrick_brick cfg g box).1 hd hhit hs
    exact ⟨h1, by rw [h1]; exact hd, h2, h3⟩
  · intro g box hd hhit hs
    obtain ⟨h1, h2, h3, -⟩ := (doCollisionsBrick_brick cfg g box).2.1 hd hhit hs
    exact ⟨h1, h2, h3⟩
  · intro g box h
    exact (doCollisionsBrick_brick cfg g box).2.2 h
  · intro g
    refine ⟨doCollisions_levels cfg g, ?_⟩
    refine List.Forall₂.imp ?_ (doCollisionsBricksLoop_after cfg _ g).1
    intro b b' h
    refine ⟨h, fun hs => ?_⟩
    rcases h with h | ⟨h1, -, -⟩
    · exact h
    · rw [hs] at h1
      exact absurd h1 (by simp)

/-- C14, instance: a ball overlapping a solid brick shakes the screen and leaves
the brick standing. -/
theorem c14_solid_bricks_shake_witness :
    (DoCollisionsBrick demoConfig (demoAtBrick true) demoSolidBrick).2.Destroyed = false ∧
    (DoCollisionsBrick demoConfig (demoAtBrick true) demoSolidBrick).1.Effects.Shake = true :=
  have h := (c14_solid_bricks_shake demoConfig).1 (demoAtBrick true) demoSolidBrick rfl
    (by rw [demoAtBrick_collision true demoSolidBrick rfl rfl]) rfl
  ⟨h.2.1, h.2.2.1⟩


/-- C15: for a hit that is resolved, the ball after the brick step is the
resolved ball: for LEFT or RIGHT the horizontal velocity is reversed and the
ball is moved by `Radius - |diff.x|` along x (to the right for LEFT, to the left
for RIGHT), the vertical velocity and position being kept; for UP, DOWN (and
when no direction was found) the vertical velocity is reversed and the ball is
moved by `Radius - |diff.y|` along y (up for UP, down otherwise), the horizontal
velocity and position being kept; radius, size and flags are kept. -/
theorem c15_brick_resolution (cfg : Config) (g : Game) (box : GameObject)
    (hd : box.Destroyed = false) (hhit : (CheckCollisionBall g.Ball box).1 = true)
    (hres : ¬ (g.Ball.PassThrough = true ∧ box.IsSolid = false)) :
    (DoCollisionsBrick cfg g box).1.Ball =
      resolveBrickHit g.Ball (CheckCollisionBall g.Ball box).2.1
        (CheckCollisionBall g.Ball box).2.2 ∧
    ((CheckCollisionBall g.Ball box).2.1 = LEFT →
      (DoCollisionsBrick cfg g box).1.Ball.Velocity = ⟨-g.Ball.Velocity.x, g.Ball.Velocity.y⟩ ∧
      (DoCollisionsBrick cfg g box).1.Ball.Position =
        ⟨g.Ball.Position.x + (g.Ball.Radius - |(CheckCollisionBall g.Ball box).2.2.x|),
          g.Ball.Position.y⟩) ∧
    ((CheckCollisionBall g.Ball box).2.1 = RIGHT →
      (DoCollisionsBrick cfg g box).1.Ball.Velocity = ⟨-g.Ball.Velocity.x, g.Ball.Velocity.y⟩ ∧
      (DoCollisionsBrick cfg g box).1.Ball.Position =
        ⟨g.Ball.Position.x - (g.Ball.Radius - |(CheckCollisionBall g.Ball box).2.2.x|),
          g.Ball.Position.y⟩) ∧
    ((CheckCollisionBall g.Ball box).2.1 = UP →
      (DoCollisionsBrick cfg g box).1.Ball.Velocity = ⟨g.Ball.Velocity.x, -g.Ball.Velocity.y⟩ ∧
      (DoCollisionsBrick cfg g box).1.Ball.Position =
        ⟨g.Ball.Position.x,
          g.Ball.Position.y - (g.Ball.Radius - |(CheckCollisionBall g.Ball box).2.2.y|)⟩) ∧
    (((CheckCollisionBall g.Ball box).2.1 = DOWN ∨
        ((CheckCollisionBall g.Ball box).2.1 ≠ LEFT ∧ (CheckCollisionBall g.Ball box).2.1 ≠ RIGHT ∧
          (CheckCollisionBall g.Ball box).2.1 ≠ UP)) →
      (DoCollisionsBrick cfg g box).1.Ball.Velocity = ⟨g.Ball.Velocity.x, -g.Ball.Velocity.y⟩ ∧
      (DoCollisionsBrick cfg g box).1.Ball.Position =
        ⟨g.Ball.Position.x,
          g.Ball.Position.y + (g.Ball.Radius - |(CheckCollisionBall g.Ball box).2.2.y|)⟩) ∧
    (DoCollisionsBrick cfg g box).1.Ball.Radius = g.Ball.Radius ∧
    (DoCollisionsBrick cfg g box).1.Ball.Size = g.Ball.Size ∧
    (DoCollisionsBrick cfg g box).1.Ball.Stuck = g.Ball.Stuck ∧
    (DoCollisionsBrick cfg g box).1.Ball.Sticky = g.Ball.Sticky ∧
    (DoCollisionsBrick cfg g box).1.Ball.PassThrough = g.Ball.PassThrough := by
  have hball : (DoCollisionsBrick cfg g box).1.Ball =
      resolveBrickHit g.Ball (CheckCollisionBall g.Ball box).2.1
        (CheckCollisionBall g.Ball box).2.2 := by
    rw [doCollisionsBrick_ball cfg g box hd hhit, if_neg hres]
  rw [hball]
  refine ⟨rfl, ?_, ?_, ?_, ?_, ?_, ?_, ?_, ?_, ?_⟩
  · intro h
    simp [resolveBrickHit, h]
  · intro h
    simp [resolveBrickHit, h, LEFT, RIGHT]
  · intro h
    simp [resolveBrickHit, h, LEFT, RIGHT, UP]
  · intro h
    rcases h with h | ⟨h1, h2, h3⟩
    · simp [resolveBrickHit, h, LEFT, RIGHT, UP, DOWN]
    · simp [resolveBrickHit, h1, h2, h3]
  all_goals
    unfold resolveBrickHit
    simp only
    split_ifs <;> rfl


/-- C15, instance: the ball overlapping `demoBrick` from below by 5 is moved
down by 5 and its vertical velocity is reversed. -/
theorem c15_brick_resolution_witness :
    (DoCollisionsBrick demoConfig (demoAtBrick false) demoBrick).1.Ball.Velocity = ⟨100, 350⟩ ∧
    (DoCollisionsBrick demoConfig (demoAtBrick false) demoBrick).1.Ball.Position =
      ⟨975 / 2, 210⟩ := by
  have h := (c15_brick_resolution demoConfig (demoAtBrick false) demoBrick rfl
    (by rw [demoAtBrick_collision false demoBrick rfl rfl])
    (by simp [demoAtBrick])).2.2.2.2.1
    (Or.inl (by rw [demoAtBrick_collision false demoBrick rfl rfl]))
  rw [h.1, h.2, demoAtBrick_collision false demoBrick rfl rfl]
  norm_num [demoAtBrick, demoFreeBall, demoGame, Game.Init, demoConfig, BallObject.new, abs_div]

/-- C17: the power-up phase of `DoCollisions` on a power-up that is not
destroyed, has `Position.y = Height` and overlaps the paddle: the power-up is
marked `Destroyed` by the bottom-edge check and is then activated all the same
(`Activated` becomes true and the sticky effect is applied to the ball), because
the paddle check is not an `else` branch of the bottom-edge check. -/
theorem c17_bottom_powerup_activated :
    demoBottomPowerUp.Destroyed = false ∧ demoBottomPowerUp.Activated = false ∧
    demoBottomPowerUp.Position.y ≥ (demoBottomGame.Height : ℝ) ∧
    demoBottomGame.Ball.Sticky = false ∧
    (DoCollisionsPowerUp demoBottomGame demoBottomPowerUp).2.Destroyed = true ∧
    (DoCollisionsPowerUp demoBottomGame demoBottomPowerUp).2.Activated = true ∧
    (DoCollisionsPowerUp demoBottomGame demoBottomPowerUp).1.Ball.Sticky = true ∧
    (DoCollisionsPowerUps demoBottomGame).Ball.Sticky = true ∧
    (DoCollisionsPowerUps demoBottomGame).PowerUps =
      [{ demoBottomPowerUp with Destroyed := true, Activated := true }] := by
  have hstep : DoCollisionsPowerUp demoBottomGame demoBottomPowerUp =
      (ActivatePowerUp demoBottomGame { demoBottomPowerUp with Destroyed := true },
        { demoBottomPowerUp with Destroyed := true, Activated := true }) := by
    unfold DoCollisionsPowerUp
    norm_num [demoBottomGame, demoBottomPowerUp, demoGame, Game.Init, demoConfig, PowerUp.new,
      GameObject.new, CheckCollision]
  have hact : (ActivatePowerUp demoBottomGame { demoBottomPowerUp with Destroyed := true }).Ball.Sticky
      = true := by
    simp [ActivatePowerUp, demoBottomPowerUp, PowerUp.new]
  refine ⟨rfl, rfl, ?_, rfl, ?_, ?_, ?_, ?_, ?_⟩
  · norm_num [demoBottomGame, demoBottomPowerUp, demoGame, Game.Init]
  · rw [hstep]
  · rw [hstep]
  · rw [hstep]; exact hact
  · unfold DoCollisionsPowerUps
    have : demoBottomGame.PowerUps = [demoBottomPowerUp] := rfl
    simp only [this, DoCollisionsPowerUpsLoop, hstep]
    exact hact
  · unfold DoCollisionsPowerUps
    have : demoBottomGame.PowerUps = [demoBottomPowerUp] := rfl
    simp only [this, DoCollisionsPowerUpsLoop, hstep]

/-- C18: the loop of `UpdatePowerUps` ticks every power-up in place, and the
power-ups after `UpdatePowerUps` are exactly the ticked power-ups that are not
(`Destroyed` and not `Activated`), in their original order: a ticked power-up
remains iff it is not destroyed or still activated, none that is destroyed and
not activated remains, and the tick changes neither `Destroyed` nor the type. -/
theorem c18_powerup_garbage_collection (g : Game) (dt : ℝ) :
    (UpdatePowerUpsLoop dt g).PowerUps = g.PowerUps.map (tickPowerUp dt) ∧
    (UpdatePowerUps g dt).PowerUps =
      ((UpdatePowerUpsLoop dt g).PowerUps).filter keepPowerUp ∧
    (UpdatePowerUps g dt).PowerUps = (g.PowerUps.map (tickPowerUp dt)).filter keepPowerUp ∧
    List.Sublist (UpdatePowerUps g dt).PowerUps (g.PowerUps.map (tickPowerUp dt)) ∧
    (∀ p, p ∈ (UpdatePowerUps g dt).PowerUps ↔
      (p ∈ (UpdatePowerUpsLoop dt g).PowerUps ∧ ¬ (p.Destroyed = true ∧ p.Activated = false))) ∧
    (∀ p ∈ (UpdatePowerUps g dt).PowerUps, p.Destroyed = false ∨ p.Activated = true) ∧
    (∀ p, (tickPowerUp dt p).Destroyed = p.Destroyed ∧ (tickPowerUp dt p).TypeName = p.TypeName) := by
  have hmap := updatePowerUpsLoop_map dt g
  have hall := updatePowerUps_powerUps g dt
  have hmem : ∀ p, p ∈ (UpdatePowerUps g dt).PowerUps ↔
      (p ∈ (UpdatePowerUpsLoop dt g).PowerUps ∧ ¬ (p.Destroyed = true ∧ p.Activated = false)) := by
    intro p
    rw [hall, hmap, List.mem_filter]
    unfold keepPowerUp
    cases p.Destroyed <;> cases p.Activated <;> simp
  refine ⟨hmap, ?_, hall, ?_, hmem, ?_, ?_⟩
  · rw [hall, hmap]
  · rw [hall]
    exact List.filter_sublist _
  · intro p hp
    have h := ((hmem p).mp hp).2
    cases hd : p.Destroyed <;> cases ha : p.Activated <;> simp_all
  · intro p
    exact ⟨(tickPowerUp_fields dt p).1, (tickPowerUp_fields dt p).2.1⟩

/-- C20: `ActivatePowerUp` on a confuse power-up sets `Effects.Confuse` when
`Effects.Chaos` is false, leaves `Effects.Confuse` as it was when `Effects.Chaos`
is true, and never changes `Effects.Chaos`; on a chaos power-up it sets
`Effects.Chaos` when `Effects.Confuse` is false, leaves it as it was when
`Effects.Confuse` is true, and never changes `Effects.Confuse`. -/
theorem c20_confuse_chaos_exclusive :
    (∀ (g : Game) (p : PowerUp), p.TypeName = "confuse" →
      (g.Effects.Chaos = false → (ActivatePowerUp g p).Effects.Confuse = true) ∧
      (g.Effects.Chaos = true → (ActivatePowerUp g p).Effects.Confuse = g.Effects.Confuse) ∧
      (ActivatePowerUp g p).Effects.Chaos = g.Effects.Chaos) ∧
    (∀ (g : Game) (p : PowerUp), p.TypeName = "chaos" →
      (g.Effects.Confuse = false → (ActivatePowerUp g p).Effects.Chaos = true) ∧
      (g.Effects.Confuse = true → (ActivatePowerUp g p).Effects.Chaos = g.Effects.Chaos) ∧
      (ActivatePowerUp g p).Effects.Confuse = g.Effects.Confuse) := by
  constructor
  · intro g p hp
    have h : ActivatePowerUp g p =
        if !g.Effects.Chaos then { g with Effects := { g.Effects with Confuse := true } }
        else g := by
      simp [ActivatePowerUp, hp]
    rw [h]
    cases hc : g.Effects.Chaos <;> simp [hc]
  · intro g p hp
    rw [activatePowerUp_chaos g p hp]
    cases hc : g.Effects.Confuse <;> simp [hc]

/-- C20 at the start state: a chaos power-up sets `Effects.Chaos`. -/
theorem c20_confuse_chaos_exclusive_witness :
    (ActivatePowerUp demoGame (demoChaosPowerUp 580)).Effects.Chaos = true :=
  (c20_confuse_chaos_exclusive.2 demoGame (demoChaosPowerUp 580) rfl).1 rfl

/-- C19: for `dt >= 0`, a power-up of duration 0 that is not destroyed when
`Update` enters the power-up loop of `DoCollisions` and that the paddle check of
the loop body collects is `Destroyed` and `Activated` with duration 0 after the
collision phase; `UpdatePowerUps` in the same `Update` call turns its
`Activated` off, and it fails the filter at the end of `UpdatePowerUps`: it is
not among the power-ups at the end of the `Update` call, which are the ticked
power-ups of the collision phase that pass the filter, and every power-up that
is `Activated` at the end has a positive remaining duration. -/
theorem c19_instant_powerup_consumed (cfg : Config) (g : Game) (dt : ℝ) (hdt : 0 ≤ dt)
    (i : Nat) (p : PowerUp)
    (hp : (UpdateAtPowerUps cfg g dt).PowerUps[i]? = some p)
    (hd : p.Destroyed = false) (hdur : p.Duration = 0)
    (hcol : CheckCollision (DoCollisionsPowerUpsAt (UpdateAtPowerUps cfg g dt) i).Player
      p.toGameObject = true) :
    ∃ q : PowerUp,
      (DoCollisions cfg { g with Ball := cfg.Move g.Ball dt g.Width }).PowerUps[i]? = some q ∧
      q.Destroyed = true ∧ q.Activated = true ∧ q.Duration = 0 ∧ q.TypeName = p.TypeName ∧
      (UpdatePowerUpsLoop dt
        (DoCollisions cfg { g with Ball := cfg.Move g.Ball dt g.Width })).PowerUps[i]? =
          some (tickPowerUp dt q) ∧
      (tickPowerUp dt q).Activated = false ∧ (tickPowerUp dt q).Destroyed = true ∧
      keepPowerUp (tickPowerUp dt q) = false ∧
      tickPowerUp dt q ∉ (Update cfg g dt).PowerUps ∧
      (Update cfg g dt).PowerUps =
        ((DoCollisions cfg { g with Ball := cfg.Move g.Ball dt g.Width }).PowerUps.map
          (tickPowerUp dt)).filter keepPowerUp ∧
      (∀ r ∈ (Update cfg g dt).PowerUps, r.Activated = true → 0 < r.Duration) := by
  obtain ⟨-, hcoll, -⟩ :=
    doCollisionsPowerUp_cases (DoCollisionsPowerUpsAt (UpdateAtPowerUps cfg g dt) i) p
  obtain ⟨hqd, hqa, hqdur, hqt, -⟩ := hcoll hd hcol
  have hq : (DoCollisions cfg { g with Ball := cfg.Move g.Ball dt g.Width }).PowerUps[i]? =
      some (DoCollisionsPowerUp (DoCollisionsPowerUpsAt (UpdateAtPowerUps cfg g dt) i) p).2 := by
    rw [doCollisions_powerUps]
    exact doCollisionsPowerUpsLoop_getElem _ _ i p hp
  have hta : (tickPowerUp dt
      (DoCollisionsPowerUp (DoCollisionsPowerUpsAt (UpdateAtPowerUps cfg g dt) i) p).2).Activated
      = false := by
    have h := (tickPowerUp_fields dt
      (DoCollisionsPowerUp (DoCollisionsPowerUpsAt (UpdateAtPowerUps cfg g dt) i) p).2).2.2.2.2.1
    rw [hqdur, hdur] at h
    cases ha : (tickPowerUp dt
      (DoCollisionsPowerUp (DoCollisionsPowerUpsAt (UpdateAtPowerUps cfg g dt) i) p).2).Activated
    · rfl
    · have := (h.mp ha).2
      linarith
  have htd : (tickPowerUp dt
      (DoCollisionsPowerUp (DoCollisionsPowerUpsAt (UpdateAtPowerUps cfg g dt) i) p).2).Destroyed
      = true :=
    (tickPowerUp_fields dt _).1.trans hqd
  have hkeep : keepPowerUp (tickPowerUp dt
      (DoCollisionsPowerUp (DoCollisionsPowerUpsAt (UpdateAtPowerUps cfg g dt) i) p).2)
      = false := by
    unfold keepPowerUp
    rw [hta, htd]
    rfl
  have hall := update_powerUps cfg g dt
  refine ⟨_, hq, hqd, hqa, hqdur.trans hdur, hqt, ?_, hta, htd, hkeep, ?_, hall, ?_⟩
  · rw [updatePowerUpsLoop_map, List.getElem?_map, hq]
    rfl
  · intro hmem
    rw [hall, List.mem_filter] at hmem
    rw [hkeep] at hmem
    exact absurd hmem.2 (by simp)
  · intro r hr ha
    rw [hall, List.mem_filter, List.mem_map] at hr
    obtain ⟨⟨x, -, hx⟩, -⟩ := hr
    subst hx
    have h1 := ((tickPowerUp_fields dt x).2.2.2.2.1.mp ha).2
    rw [(tickPowerUp_fields dt x).2.2.2.2.2 ha]
    exact h1

/-- C19 on `demoSpeedGame`: the speed power-up at the paddle is collected and
consumed in one `Update` call, which leaves no power-up. -/
theorem c19_instant_powerup_consumed_witness :
    (UpdateAtPowerUps demoConfig demoSpeedGame 0).PowerUps[0]? = some demoSpeedPowerUp ∧
    ∃ q : PowerUp,
      (DoCollisions demoConfig { demoSpeedGame with
        Ball := demoConfig.Move demoSpeedGame.Ball 0 demoSpeedGame.Width }).PowerUps[0]? = some q ∧
      q.Destroyed = true ∧ q.Activated = true ∧ q.Duration = 0 ∧
      q.TypeName = demoSpeedPowerUp.TypeName ∧
      (UpdatePowerUpsLoop 0
        (DoCollisions demoConfig { demoSpeedGame with
          Ball := demoConfig.Move demoSpeedGame.Ball 0 demoSpeedGame.Width })).PowerUps[0]? =
          some (tickPowerUp 0 q) ∧
      (tickPowerUp 0 q).Activated = false ∧ (tickPowerUp 0 q).Destroyed = true ∧
      keepPowerUp (tickPowerUp 0 q) = false ∧
      tickPowerUp 0 q ∉ (Update demoConfig demoSpeedGame 0).PowerUps ∧
      (Update demoConfig demoSpeedGame 0).PowerUps =
        ((DoCollisions demoConfig { demoSpeedGame with
          Ball := demoConfig.Move demoSpeedGame.Ball 0 demoSpeedGame.Width }).PowerUps.map
          (tickPowerUp 0)).filter keepPowerUp ∧
      (∀ r ∈ (Update demoConfig demoSpeedGame 0).PowerUps, r.Activated = true → 0 < r.Duration) :=
  ⟨by rw [demoSpeedGame_atPowerUps]; rfl,
    c19_instant_powerup_consumed demoConfig demoSpeedGame 0 (le_refl 0) 0 demoSpeedPowerUp
      (by rw [demoSpeedGame_atPowerUps]; rfl) rfl rfl
      (by
        rw [demoSpeedGame_atPowerUps]
        norm_num [DoCollisionsPowerUpsAt, DoCollisionsPowerUpsLoop, demoSpeedGame,
          demoSpeedPowerUp, demoGame, Game.Init, demoConfig, PowerUp.new, GameObject.new,
          CheckCollision])⟩

/-- C16: the brick step of `DoCollisions` on a ball whose circle centre is
inside the brick.  The ball is the one `BallObject::Move` makes of the released
ball of the start state in 1.05 s; the circle test reports a hit with the zero
difference vector and no direction, the resolution moves the ball down by its
radius, and the circle test on the relocated ball reports a hit again (from
below, 2.5 away from the lower face).  When the difference vector of the hit is
not zero, the circle test on the relocated ball reports no hit, as for the ball
of `demoAtBrick`. -/
theorem c16_relocated_ball_hits_again :
    demoConfig.Move demoFreeBall (21 / 20) 800 = demoInBrick.Ball ∧
    CheckCollisionBall demoInBrick.Ball demoSolidBrick = (true, 2 ^ 32 - 1, ⟨0, 0⟩) ∧
    (DoCollisionsBrick demoConfig demoInBrick demoSolidBrick).1.Ball =
      resolveBrickHit demoInBrick.Ball (2 ^ 32 - 1) ⟨0, 0⟩ ∧
    (DoCollisionsBrick demoConfig demoInBrick demoSolidBrick).1.Ball.Position = ⟨985 / 2, 200⟩ ∧
    CheckCollisionBall (DoCollisionsBrick demoConfig demoInBrick demoSolidBrick).1.Ball
      demoSolidBrick = (true, DOWN, ⟨0, -5 / 2⟩) ∧
    (∀ (ball : BallObject) (box : GameObject), (CheckCollisionBall ball box).1 = true →
      (CheckCollisionBall ball box).2.2 ≠ ⟨0, 0⟩ →
      (CheckCollisionBall (resolveBrickHit ball (CheckCollisionBall ball box).2.1
        (CheckCollisionBall ball box).2.2) box).1 = false) ∧
    (CheckCollisionBall (DoCollisionsBrick demoConfig (demoAtBrick false) demoSolidBrick).1.Ball
      demoSolidBrick).1 = false := by
  have hmove : demoConfig.Move demoFreeBall (21 / 20) 800 = demoInBrick.Ball := by
    norm_num [demoInBrick, demoFreeBall, demoGame, Game.Init, demoConfig, BallObject.Move,
      BallObject.new, GameObject.new, Vec2.add, Vec2.scale]
  have hhit : CheckCollisionBall demoInBrick.Ball demoSolidBrick = (true, 2 ^ 32 - 1, ⟨0, 0⟩) := by
    rw [checkCollisionBall_eval]
    norm_num [demoInBrick, demoFreeBall, demoGame, Game.Init, demoConfig, BallObject.new,
      GameObject.new, demoSolidBrick, demoBrick, closestPoint, circleCentre, boxCentre,
      clampScalar, Vec2.sub, Vec2.add, Vec2.dot, vectorDirection_eq_raw, VectorDirectionRaw,
      pickStep]
  have hstep : (DoCollisionsBrick demoConfig demoInBrick demoSolidBrick).1.Ball =
      resolveBrickHit demoInBrick.Ball (2 ^ 32 - 1) ⟨0, 0⟩ := by
    unfold DoCollisionsBrick
    rw [hhit]
    simp [demoSolidBrick, demoBrick, GameObject.new, demoInBrick, demoFreeBall, demoGame,
      Game.Init, demoConfig, BallObject.new]
  have hpos : (resolveBrickHit demoInBrick.Ball (2 ^ 32 - 1) ⟨0, 0⟩).Position = ⟨985 / 2, 200⟩ := by
    norm_num [resolveBrickHit, LEFT, RIGHT, UP, demoInBrick, demoFreeBall, demoGame, Game.Init,
      demoConfig, BallObject.new, GameObject.new, Vec2.add]
  have hagain : CheckCollisionBall (resolveBrickHit demoInBrick.Ball (2 ^ 32 - 1) ⟨0, 0⟩)
      demoSolidBrick = (true, DOWN, ⟨0, -5 / 2⟩) := by
    rw [checkCollisionBall_eval]
    norm_num [resolveBrickHit, LEFT, RIGHT, UP, DOWN, demoInBrick, demoFreeBall, demoGame,
      Game.Init, demoConfig, BallObject.new, GameObject.new, demoSolidBrick, demoBrick,
      closestPoint, circleCentre, boxCentre, clampScalar, Vec2.sub, Vec2.add, Vec2.dot,
      vectorDirection_eq_raw, VectorDirectionRaw, pickStep]
  have hat := demoAtBrick_collision false demoSolidBrick rfl rfl
  have hok : (CheckCollisionBall (DoCollisionsBrick demoConfig (demoAtBrick false)
      demoSolidBrick).1.Ball demoSolidBrick).1 = false := by
    have hb : (DoCollisionsBrick demoConfig (demoAtBrick false) demoSolidBrick).1.Ball =
        resolveBrickHit (demoAtBrick false).Ball
          (CheckCollisionBall (demoAtBrick false).Ball demoSolidBrick).2.1
          (CheckCollisionBall (demoAtBrick false).Ball demoSolidBrick).2.2 := by
      unfold DoCollisionsBrick
      rw [hat]
      simp [demoSolidBrick, demoBrick, GameObject.new, demoAtBrick, demoFreeBall, demoGame,
        Game.Init, demoConfig, BallObject.new]
    rw [hb]
    apply resolveBrickHit_no_hit
    · rw [hat]
    · rw [hat]
      intro h
      have := congrArg Vec2.y h
      norm_num at this
  refine ⟨hmove, hhit, hstep, ?_, ?_, resolveBrickHit_no_hit, hok⟩
  · rw [hstep]; exact hpos
  · rw [hstep]; exact hagain

/-- C21: `SpawnPowerUps` consumes exactly six draws of the sequence and changes
the state in nothing else but `PowerUps`, to which it appends, behind the
power-ups already there and in the order speed, sticky, pass-through,
pad-size-increase, confuse, chaos (chances 75, 75, 75, 75, 15, 15, durations 0,
20, 10, 0, 15, 15), exactly the candidates whose own draw is divisible by the
chance: at most six, none when no draw is divisible, all six when all are. -/
theorem c21_spawn_powerups (cfg : Config) (g : Game) (block : GameObject) :
    (SpawnPowerUps cfg g block).RandPos = g.RandPos + 6 ∧
    (SpawnPowerUps cfg g block).RandSeq = g.RandSeq ∧
    SpawnPowerUps cfg g block =
      { g with PowerUps := (SpawnPowerUps cfg g block).PowerUps, RandPos := g.RandPos + 6 } ∧
    (SpawnPowerUps cfg g block).PowerUps =
      g.PowerUps ++ spawned g.RandSeq g.RandPos (spawnCandidates cfg block.Position) ∧
    (spawnCandidates cfg block.Position).map
        (fun c => (c.2.TypeName, c.1, c.2.Duration, c.2.Position)) =
      [("speed", 75, 0, block.Position), ("sticky", 75, 20, block.Position),
       ("pass-through", 75, 10, block.Position), ("pad-size-increase", 75, 0, block.Position),
       ("confuse", 15, 15, block.Position), ("chaos", 15, 15, block.Position)] ∧
    (∀ (k : Nat) (c : Nat × PowerUp), (spawnCandidates cfg block.Position)[k]? = some c →
      (c.2 ∈ spawned g.RandSeq g.RandPos (spawnCandidates cfg block.Position) ↔
        g.RandSeq (g.RandPos + k) % c.1 = 0)) ∧
    List.Sublist (spawned g.RandSeq g.RandPos (spawnCandidates cfg block.Position))
      ((spawnCandidates cfg block.Position).map Prod.snd) ∧
    (spawned g.RandSeq g.RandPos (spawnCandidates cfg block.Position)).length ≤ 6 ∧
    ((∀ k, k < 6 → g.RandSeq (g.RandPos + k) % 75 ≠ 0 ∧ g.RandSeq (g.RandPos + k) % 15 ≠ 0) →
      (SpawnPowerUps cfg g block).PowerUps = g.PowerUps) ∧
    ((∀ k, k < 6 → g.RandSeq (g.RandPos + k) = 0) →
      (SpawnPowerUps cfg g block).PowerUps =
        g.PowerUps ++ (spawnCandidates cfg block.Position).map Prod.snd) := by
  have heq := spawnPowerUps_eq cfg g block
  have hsub := spawned_sublist g.RandSeq (spawnCandidates cfg block.Position) g.RandPos
  have hp : (SpawnPowerUps cfg g block).PowerUps =
      g.PowerUps ++ spawned g.RandSeq g.RandPos (spawnCandidates cfg block.Position) := by
    rw [heq]
  refine ⟨by rw [heq], by rw [heq], ?_, hp, ?_, ?_, hsub, ?_, ?_, ?_⟩
  · rw [hp]
    exact heq
  · simp [spawnCandidates, PowerUp.new]
  · intro k c hk
    exact spawned_mem g.RandSeq (spawnCandidates cfg block.Position)
      (spawnCandidates_nodup cfg block.Position) g.RandPos k c hk
  · have := hsub.length_le
    simpa [spawnCandidates] using this
  · intro hno
    rw [hp]
    have h0 := hno 0 (by norm_num)
    have h1 := hno 1 (by norm_num)
    have h2 := hno 2 (by norm_num)
    have h3 := hno 3 (by norm_num)
    have h4 := hno 4 (by norm_num)
    have h5 := hno 5 (by norm_num)
    simp only [Nat.add_zero] at h0
    simp [spawned, spawnCandidates, h0.1, h1.1, h2.1, h3.1, h4.2, h5.2, Nat.add_assoc]
  · intro hall
    rw [hp]
    have h0 := hall 0 (by norm_num)
    have h1 := hall 1 (by norm_num)
    have h2 := hall 2 (by norm_num)
    have h3 := hall 3 (by norm_num)
    have h4 := hall 4 (by norm_num)
    have h5 := hall 5 (by norm_num)
    simp only [Nat.add_zero] at h0
    simp [spawned, spawnCandidates, h0, h1, h2, h3, h4, h5, Nat.add_assoc]

/-- C22: the paddle phase of `DoCollisions` changes nothing when the ball is
stuck, even if the ball overlaps the paddle (as in `demoStuckHit`), and nothing
when the ball does not hit the paddle; when the ball is not stuck and hits the
paddle, `Stuck` after the phase is the `Sticky` flag, which the phase leaves as
it is: the ball is stuck afterwards exactly when sticky is on. -/
theorem c22_paddle_phase_stuck (cfg : Config) (g : Game) :
    (g.Ball.Stuck = true → DoCollisionsPaddle cfg g = g) ∧
    (g.Ball.Stuck = false → (CheckCollisionBall g.Ball g.Player).1 = false →
      DoCollisionsPaddle cfg g = g) ∧
    (g.Ball.Stuck = false → (CheckCollisionBall g.Ball g.Player).1 = true →
      (DoCollisionsPaddle cfg g).Ball.Stuck = g.Ball.Sticky ∧
      (DoCollisionsPaddle cfg g).Ball.Sticky = g.Ball.Sticky ∧
      ((DoCollisionsPaddle cfg g).Ball.Stuck = true ↔ g.Ball.Sticky = true) ∧
      (DoCollisionsPaddle cfg g).Ball.Velocity = paddleVelocity cfg g.Ball g.Player) ∧
    (demoStuckHit.Ball.Stuck = true ∧
      (CheckCollisionBall demoStuckHit.Ball demoStuckHit.Player).1 = true ∧
      DoCollisionsPaddle cfg demoStuckHit = demoStuckHit) ∧
    (∀ sticky : Bool, (demoStickyHit sticky).Ball.Stuck = false ∧
      (CheckCollisionBall (demoStickyHit sticky).Ball (demoStickyHit sticky).Player).1 = true ∧
      (DoCollisionsPaddle cfg (demoStickyHit sticky)).Ball.Stuck = sticky) := by
  have hstuck : ∀ a : Game, a.Ball.Stuck = true → DoCollisionsPaddle cfg a = a := by
    intro a h
    simp [DoCollisionsPaddle, h]
  have hhit : ∀ a : Game, a.Ball.Stuck = false → (CheckCollisionBall a.Ball a.Player).1 = true →
      (DoCollisionsPaddle cfg a).Ball.Stuck = a.Ball.Sticky ∧
      (DoCollisionsPaddle cfg a).Ball.Sticky = a.Ball.Sticky ∧
      (DoCollisionsPaddle cfg a).Ball.Velocity = paddleVelocity cfg a.Ball a.Player := by
    intro a h1 h2
    simp [DoCollisionsPaddle, h1, h2]
  refine ⟨hstuck g, ?_, ?_, ?_, ?_⟩
  · intro h1 h2
    simp [DoCollisionsPaddle, h1, h2]
  · intro h1 h2
    obtain ⟨a, b, c⟩ := hhit g h1 h2
    exact ⟨a, b, by rw [a], c⟩
  · have hs : demoStuckHit.Ball.Stuck = true := rfl
    refine ⟨hs, ?_, hstuck _ hs⟩
    exact demo_hit 400 ⟨100, 350⟩ (by norm_num) (by norm_num)
  · intro sticky
    have hs : (demoStickyHit sticky).Ball.Stuck = false := rfl
    have hh : (CheckCollisionBall (demoStickyHit sticky).Ball (demoStickyHit sticky).Player).1
        = true := by
      have := demo_hit 410 ⟨100, 350⟩ (by norm_num) (by norm_num)
      rw [checkCollisionBall_hit_iff] at this ⊢
      exact this
    exact ⟨hs, hh, (hhit _ hs hh).1⟩

/-- C23: `ProcessInput` moves the paddle along x by some amount `d`; a ball that
is stuck on entry moves along x by the same `d` (its offset from the paddle is
kept), a ball that is not stuck keeps its position, and the y coordinates of
ball and paddle are kept.  This holds in every state, `GAME_ACTIVE` included;
in `GAME_ACTIVE` with A down, D up and the paddle at `x >= 0`, the amount is
`-(PLAYER_VELOCITY * dt)`. -/
theorem c23_stuck_ball_dragged (cfg : Config) (g : Game) (dt : ℝ) :
    (∃ d : ℝ,
      (ProcessInput cfg g dt).Player.Position.x = g.Player.Position.x + d ∧
      (ProcessInput cfg g dt).Ball.Position.x =
        g.Ball.Position.x + (if g.Ball.Stuck = true then d else 0)) ∧
    (g.Ball.Stuck = true →
      (ProcessInput cfg g dt).Ball.Position.x - g.Ball.Position.x =
        (ProcessInput cfg g dt).Player.Position.x - g.Player.Position.x ∧
      (ProcessInput cfg g dt).Ball.Position.x - (ProcessInput cfg g dt).Player.Position.x =
        g.Ball.Position.x - g.Player.Position.x) ∧
    (g.Ball.Stuck = false → (ProcessInput cfg g dt).Ball.Position = g.Ball.Position) ∧
    (ProcessInput cfg g dt).Ball.Position.y = g.Ball.Position.y ∧
    (ProcessInput cfg g dt).Player.Position.y = g.Player.Position.y ∧
    (g.State = GameState.GAME_ACTIVE → g.Keys GLFW_KEY_A = true → g.Keys GLFW_KEY_D = false →
      g.Player.Position.x ≥ 0 →
      (ProcessInput cfg g dt).Player.Position.x =
        g.Player.Position.x - cfg.PLAYER_VELOCITY * dt) := by
  obtain ⟨m1, m2, -, -⟩ := processInputMenu_objects g
  obtain ⟨-, -, w1, w2, -⟩ := processInputWin_fields (ProcessInputMenu g)
  obtain ⟨d, h1, h2, h3, h4⟩ := processInputActive_move cfg (ProcessInputWin (ProcessInputMenu g)) dt
  simp only [w1, w2, m1, m2] at h1 h2 h3 h4
  have e : ProcessInput cfg g dt = ProcessInputActive cfg (ProcessInputWin (ProcessInputMenu g)) dt :=
    rfl
  rw [← e] at h1 h2 h3 h4
  refine ⟨⟨d, h1, h2⟩, ?_, ?_, h3, h4, ?_⟩
  · intro hs
    rw [if_pos hs] at h2
    constructor <;> linarith
  · intro hs
    rw [if_neg (by rw [hs]; simp)] at h2
    exact Vec2.ext (by linarith) h3
  · intro ha hA hD hx
    simp [ProcessInput, ProcessInputMenu, ProcessInputWin, ProcessInputActive, ProcessInputA,
      ProcessInputD, ProcessInputSpace, ha, hA, hD, hx]
    split_ifs <;> rfl

/-- C24: a hit with the zero difference vector.  From the start state, ENTER and
SPACE pressed and `ProcessInput` give the reachable state `demoReleased`; in an
`Update` of 1.05 s `BallObject::Move` puts its ball where its circle centre
(505, 200) is inside `demoBrick`, the brick of the level, and the circle test
of `DoCollisions` on them reports a hit whose difference vector is (0, 0);
`VectorDirection` is called with the zero vector and returns no direction
(`best_match` stays `(unsigned) -1`).  For a box whose sizes are not negative,
a hit has the zero difference vector exactly when the radius is positive and
the circle centre is a point of the box. -/
theorem c24_hit_with_zero_diff :
    Reachable demoConfig demoGame demoReleased ∧
    demoReleased.State = GameState.GAME_ACTIVE ∧
    demoReleased.currentLevel.Bricks = [demoBrick] ∧
    demoConfig.Move demoReleased.Ball (21 / 20) demoReleased.Width = demoInBrick.Ball ∧
    circleCentre demoInBrick.Ball = ⟨505, 200⟩ ∧
    CheckCollisionBall demoInBrick.Ball demoBrick = (true, 2 ^ 32 - 1, ⟨0, 0⟩) ∧
    VectorDirection ⟨0, 0⟩ = 2 ^ 32 - 1 ∧
    (∀ (ball : BallObject) (box : GameObject), 0 ≤ box.Size.x → 0 ≤ box.Size.y →
      (((CheckCollisionBall ball box).1 = true ∧ (CheckCollisionBall ball box).2.2 = ⟨0, 0⟩) ↔
        (0 < ball.Radius ∧
          box.Position.x ≤ (circleCentre ball).x ∧
          (circleCentre ball).x ≤ box.Position.x + box.Size.x ∧
          box.Position.y ≤ (circleCentre ball).y ∧
          (circleCentre ball).y ≤ box.Position.y + box.Size.y))) := by
  have hrel : demoReleased = demoRunState GameState.GAME_ACTIVE
      (setKey (setKey demoGame.Keys GLFW_KEY_ENTER true) GLFW_KEY_SPACE true)
      (setKey demoGame.KeysProcessed GLFW_KEY_ENTER true) [] demoFreeBall false 0 := demo_input1
  refine ⟨?_, ?_, ?_, ?_, ?_, ?_, ?_, ?_⟩
  · unfold demoReleased
    apply Reachable.input _ _ (by norm_num)
    simp only [List.foldl_cons, List.foldl_nil]
    exact Reachable.key _ _ _ (Reachable.key _ _ _ Reachable.start)
  · rw [hrel]; rfl
  · rw [hrel]
    simp [Game.currentLevel, demoRunState, demoGame, Game.Init, demoConfig]
  · rw [hrel]
    norm_num [demoRunState, demoInBrick, demoFreeBall, demoGame, Game.Init, demoConfig,
      BallObject.Move, BallObject.new, GameObject.new, Vec2.add, Vec2.scale]
  · norm_num [circleCentre, demoInBrick, demoFreeBall, demoGame, Game.Init, demoConfig,
      BallObject.new]
  · rw [checkCollisionBall_eval]
    norm_num [demoInBrick, demoFreeBall, demoGame, Game.Init, demoConfig, BallObject.new,
      GameObject.new, demoBrick, closestPoint, circleCentre, boxCentre,
      clampScalar, Vec2.sub, Vec2.add, Vec2.dot, vectorDirection_eq_raw, VectorDirectionRaw,
      pickStep]
  · rw [vectorDirection_eq_raw]
    norm_num [VectorDirectionRaw, pickStep]
  · intro ball box hx hy
    rw [← difference_zero_iff ball box hx hy]
    constructor
    · rintro ⟨hhit, hz⟩
      obtain ⟨heq, -⟩ := checkCollisionBall_of_hit ball box hhit
      rw [heq] at hz
      exact ⟨((checkCollisionBall_hit_iff ball box).mp hhit).1, hz⟩
    · rintro ⟨hR, hz⟩
      have hhit : (CheckCollisionBall ball box).1 = true := by
        rw [checkCollisionBall_hit_iff, hz]
        refine ⟨hR, ?_⟩
        simp only [Vec2.dot]
        nlinarith
      obtain ⟨heq, -⟩ := checkCollisionBall_of_hit ball box hhit
      refine ⟨hhit, ?_⟩
      rw [heq]
      exact hz

/-- C25: `IsCompleted` is true exactly when every brick that is not solid is
destroyed, whatever the solid bricks are.  For the bricks solid, breakable,
breakable it is true when both breakable bricks are destroyed and false when
only one or none is; the win check of `Update` in `GAME_ACTIVE` wins the level
exactly when it is completed. -/
theorem c25_level_completed :
    (∀ l : GameLevel,
      l.IsCompleted = true ↔ ∀ b ∈ l.Bricks, b.IsSolid = false → b.Destroyed = true) ∧
    (∀ l : GameLevel,
      l.IsCompleted = (⟨l.Bricks.filter (fun b => !b.IsSolid)⟩ : GameLevel).IsCompleted) ∧
    (demoThreeBricks true true).Bricks.map (fun b => (b.IsSolid, b.Destroyed)) =
      [(true, false), (false, true), (false, true)] ∧
    (demoThreeBricks true true).IsCompleted = true ∧
    (demoThreeBricks true false).IsCompleted = false ∧
    (demoThreeBricks false true).IsCompleted = false ∧
    (demoThreeBricks false false).IsCompleted = false ∧
    (∀ (cfg : Config) (g : Game), g.State = GameState.GAME_ACTIVE →
      ((UpdateWinCheck cfg g).State = GameState.GAME_WIN ↔
        ∀ b ∈ g.currentLevel.Bricks, b.IsSolid = false → b.Destroyed = true)) ∧
    (∀ cfg : Config, (UpdateWinCheck cfg (demoThreeGame true true)).State = GameState.GAME_WIN ∧
      (UpdateWinCheck cfg (demoThreeGame true false)).State = GameState.GAME_ACTIVE) := by
  have hiff : ∀ l : GameLevel,
      l.IsCompleted = true ↔ ∀ b ∈ l.Bricks, b.IsSolid = false → b.Destroyed = true := by
    intro l
    unfold GameLevel.IsCompleted
    rw [List.all_eq_true]
    constructor
    · intro h b hb hs
      have := h b hb
      rw [hs] at this
      simpa using this
    · intro h b hb
      cases hs : b.IsSolid
      · simpa using h b hb hs
      · rfl
  have hwin : ∀ (cfg : Config) (g : Game), g.State = GameState.GAME_ACTIVE →
      ((UpdateWinCheck cfg g).State = GameState.GAME_WIN ↔ g.currentLevel.IsCompleted = true) := by
    intro cfg g ha
    unfold UpdateWinCheck
    by_cases hc : g.currentLevel.IsCompleted = true
    · rw [if_pos ⟨ha, hc⟩]
      simp [hc]
    · rw [if_neg (fun h => hc h.2)]
      simp [ha, hc]
  have e1 : (demoThreeBricks true true).IsCompleted = true := by
    simp [GameLevel.IsCompleted, demoThreeBricks, demoSolidBrick, demoBrick, GameObject.new]
  have e2 : (demoThreeBricks true false).IsCompleted = false := by
    simp [GameLevel.IsCompleted, demoThreeBricks, demoSolidBrick, demoBrick, GameObject.new]
  refine ⟨hiff, ?_, ?_, e1, e2, ?_, ?_, ?_, ?_⟩
  · intro l
    rw [Bool.eq_iff_iff, hiff, hiff]
    constructor
    · intro h b hb hs
      exact h b (List.mem_filter.mp hb).1 hs
    · intro h b hb hs
      exact h b (List.mem_filter.mpr ⟨hb, by rw [hs]; rfl⟩) hs
  · simp [demoThreeBricks, demoSolidBrick, demoBrick, GameObject.new]
  · simp [GameLevel.IsCompleted, demoThreeBricks, demoSolidBrick, demoBrick, GameObject.new]
  · simp [GameLevel.IsCompleted, demoThreeBricks, demoSolidBrick, demoBrick, GameObject.new]
  · intro cfg g ha
    rw [hwin cfg g ha, hiff]
  · intro cfg
    have c1 : (demoThreeGame true true).currentLevel = demoThreeBricks true true := rfl
    have c2 : (demoThreeGame true false).currentLevel = demoThreeBricks true false := rfl
    constructor
    · exact (hwin cfg _ rfl).mpr (by rw [c1]; exact e1)
    · unfold UpdateWinCheck
      rw [if_neg (fun h => by rw [c2, e2] at h; exact absurd h.2 (by simp))]
      rfl

/-- C26: on every paddle hit of `DoCollisions` with a paddle of positive width
the fraction `percentage` is less than `1 + 2 * Radius / Size.x` in absolute
value; the fraction is not clamped to `[-1, 1]`: the ball of `demoEdgeHit`, not
stuck, hits the paddle with `percentage = 1.1`, and the paddle phase aims it by
that fraction. -/
theorem c26_paddle_fraction_bound :
    (∀ g : Game, 0 < g.Player.Size.x → (CheckCollisionBall g.Ball g.Player).1 = true →
      |paddlePercentage g.Ball g.Player| < 1 + 2 * g.Ball.Radius / g.Player.Size.x) ∧
    (demoEdgeHit.Ball.Stuck = false ∧ 0 < demoEdgeHit.Player.Size.x ∧
      (CheckCollisionBall demoEdgeHit.Ball demoEdgeHit.Player).1 = true ∧
      paddlePercentage demoEdgeHit.Ball demoEdgeHit.Player = 11 / 10 ∧
      1 < |paddlePercentage demoEdgeHit.Ball demoEdgeHit.Player| ∧
      (∀ cfg : Config, (DoCollisionsPaddle cfg demoEdgeHit).Ball.Velocity =
        paddleVelocity cfg demoEdgeHit.Ball demoEdgeHit.Player ∧
        paddleAimed cfg demoEdgeHit.Ball demoEdgeHit.Player =
          ⟨cfg.INITIAL_BALL_VELOCITY.x * (11 / 10) * 2, 350⟩)) := by
  have hpct : paddlePercentage demoEdgeHit.Ball demoEdgeHit.Player = 11 / 10 := by
    norm_num [paddlePercentage, demoEdgeHit, demoBallAt, demoGame, Game.Init, demoConfig,
      BallObject.new, GameObject.new]
  have hhit : (CheckCollisionBall demoEdgeHit.Ball demoEdgeHit.Player).1 = true := by
    rw [checkCollisionBall_hit_iff]
    norm_num [demoEdgeHit, demoBallAt, demoGame, Game.Init, demoConfig, BallObject.new,
      GameObject.new, closestPoint, circleCentre, boxCentre, clampScalar, Vec2.sub, Vec2.dot]
  refine ⟨?_, rfl, ?_, hhit, hpct, ?_, ?_⟩
  · intro g hs hh
    have hoff := paddle_hit_offset g.Ball g.Player hs hh
    have hhalf : 0 < g.Player.Size.x / 2 := by linarith
    unfold paddlePercentage
    simp only
    rw [abs_div, abs_of_pos hhalf, div_lt_iff₀ hhalf]
    have e : (1 + 2 * g.Ball.Radius / g.Player.Size.x) * (g.Player.Size.x / 2) =
        g.Player.Size.x / 2 + g.Ball.Radius := by
      field_simp
      ring
    rw [e]
    exact hoff
  · norm_num [demoEdgeHit, demoGame, Game.Init, demoConfig, GameObject.new]
  · rw [hpct, abs_of_pos (by norm_num)]
    norm_num
  · intro cfg
    refine ⟨doCollisionsPaddle_velocity cfg demoEdgeHit rfl hhit, ?_⟩
    unfold paddleAimed
    simp only [hpct]
    norm_num [demoEdgeHit, demoBallAt, BallObject.new]

/-- C27: `Effects.Confuse` and `Effects.Chaos` are never both true.  They are
both false in the start state; `ActivatePowerUp`, `DoCollisions`,
`UpdatePowerUps`, `Update` and `ProcessInput` keep them exclusive, `ResetPlayer`
clears both, the win transition of `Update` leaves chaos set and confuse
cleared; so they are exclusive after every sequence of these steps and of key
events from the start state, in particular in every state reached by frames of
the render loop. -/
theorem c27_confuse_chaos_never_both (cfg : Config) (width height : Nat) (seq : Nat → Nat) :
    ((Game.Init cfg width height seq).Effects.Confuse = false ∧
      (Game.Init cfg width height seq).Effects.Chaos = false) ∧
    (∀ g : Game, StepsFrom cfg (Game.Init cfg width height seq) g →
      ¬ (g.Effects.Confuse = true ∧ g.Effects.Chaos = true)) ∧
    (∀ g : Game, Reachable cfg (Game.Init cfg width height seq) g →
      ¬ (g.Effects.Confuse = true ∧ g.Effects.Chaos = true)) ∧
    (∀ (g : Game) (p : PowerUp), flagsExclusive g → flagsExclusive (ActivatePowerUp g p)) ∧
    (∀ g : Game, flagsExclusive g → flagsExclusive (DoCollisions cfg g)) ∧
    (∀ (g : Game) (dt : ℝ), flagsExclusive g → flagsExclusive (UpdatePowerUps g dt)) ∧
    (∀ g : Game, (ResetPlayer cfg g).Effects.Confuse = false ∧
      (ResetPlayer cfg g).Effects.Chaos = false) ∧
    (∀ (g : Game) (dt : ℝ), flagsExclusive g → flagsExclusive (Update cfg g dt)) ∧
    (∀ (g : Game) (dt : ℝ), flagsExclusive g → flagsExclusive (ProcessInput cfg g dt)) ∧
    (∀ g : Game, g.State = GameState.GAME_ACTIVE → g.currentLevel.IsCompleted = true →
      (UpdateWinCheck cfg g).State = GameState.GAME_WIN ∧
      (UpdateWinCheck cfg g).Effects.Chaos = true ∧
      (UpdateWinCheck cfg g).Effects.Confuse = false) := by
  refine ⟨⟨rfl, rfl⟩, ?_, ?_, activatePowerUp_exclusive, doCollisions_exclusive cfg,
    updatePowerUps_exclusive, ?_, update_exclusive cfg, processInput_exclusive cfg, ?_⟩
  · intro g hg
    exact stepsFrom_exclusive cfg _ g (fun h => absurd h.1 (by simp [Game.Init])) hg
  · intro g hg
    exact reachable_exclusive cfg _ g (fun h => absurd h.1 (by simp [Game.Init])) hg
  · intro g
    exact ⟨(resetPlayer_fields cfg g).2.2.2.2.2.2.2.2.2.2.1,
      (resetPlayer_fields cfg g).2.2.2.2.2.2.2.2.2.1⟩
  · intro g ha hc
    unfold UpdateWinCheck
    rw [if_pos ⟨ha, hc⟩]
    exact ⟨rfl, rfl, (resetPlayer_fields cfg (ResetLevel cfg g)).2.2.2.2.2.2.2.2.2.2.1⟩

/-- C28: `Lives` is 3 in the start state; when `Lives` is 1, 2 or 3 before an
`Update` call it is 1, 2 or 3 after it: with the ball at the bottom the loss
check leaves 3 when it was 1 (the decrement to 0 is followed by `ResetLevel`)
and `Lives - 1` otherwise, without wrapping; `ProcessInput` and key events never
change `Lives`; so `Lives` is 1, 2 or 3, and never 0, in every state reached
from the start state. -/
theorem c28_lives_never_zero (cfg : Config) (width height : Nat) (seq : Nat → Nat) :
    (Game.Init cfg width height seq).Lives = 3 ∧
    (∀ (g : Game) (dt : ℝ), (g.Lives = 1 ∨ g.Lives = 2 ∨ g.Lives = 3) →
      ((Update cfg g dt).Lives = 1 ∨ (Update cfg g dt).Lives = 2 ∨
        (Update cfg g dt).Lives = 3)) ∧
    (∀ g : Game, (g.Lives = 1 ∨ g.Lives = 2 ∨ g.Lives = 3) →
      g.Ball.Position.y ≥ (g.Height : ℝ) →
      (g.Lives + (2 ^ 32 - 1)) % 2 ^ 32 = g.Lives - 1 ∧
      (UpdateLossCheck cfg g).Lives = if g.Lives = 1 then 3 else g.Lives - 1) ∧
    (∀ (g : Game) (dt : ℝ), (ProcessInput cfg g dt).Lives = g.Lives) ∧
    (∀ (g : Game) (key action : Int), (key_callback g key action).Lives = g.Lives) ∧
    (∀ g : Game, Reachable cfg (Game.Init cfg width height seq) g →
      (g.Lives = 1 ∨ g.Lives = 2 ∨ g.Lives = 3) ∧ g.Lives ≠ 0) := by
  refine ⟨rfl, fun g dt h => update_lives cfg g dt h, ?_, processInput_lives cfg, ?_, ?_⟩
  · intro g h hb
    exact ⟨by omega, (updateLossCheck_lives cfg g h).2.1 hb⟩
  · intro g key action
    unfold key_callback
    split_ifs <;> rfl
  · intro g hg
    have h := reachable_lives cfg _ g (Or.inr (Or.inr rfl)) hg
    unfold livesInRange at h
    exact ⟨h, by omega⟩

/-- C29: for every vector that is not zero some compass dot product is strictly
positive and `VectorDirection` returns one of the four directions (an index
0 .. 3); for the zero vector no dot product is above the initial `max` of 0 and
`best_match` keeps its initial value `(unsigned) -1`, which is none of the four
directions; so the result is outside the enumeration exactly for the zero
vector. -/
theorem c29_vector_direction_range :
    (∀ v : Vec2, (v.x ≠ 0 ∨ v.y ≠ 0) →
      (∃ j : ℕ, j < 4 ∧ 0 < compassDot v j) ∧
      VectorDirection v < 4 ∧
      (VectorDirection v = UP ∨ VectorDirection v = RIGHT ∨ VectorDirection v = DOWN ∨
        VectorDirection v = LEFT)) ∧
    (∀ j : ℕ, ¬ (0 < compassDot ⟨0, 0⟩ j)) ∧
    VectorDirection ⟨0, 0⟩ = 2 ^ 32 - 1 ∧
    ¬ ((2 ^ 32 - 1 : Direction) < 4) ∧
    (∀ v : Vec2, VectorDirection v = 2 ^ 32 - 1 ↔ v = ⟨0, 0⟩) := by
  have hzero : VectorDirection ⟨0, 0⟩ = 2 ^ 32 - 1 := by
    rw [vectorDirection_eq_raw]
    norm_num [VectorDirectionRaw, pickStep]
  have hdir : ∀ v : Vec2, (v.x ≠ 0 ∨ v.y ≠ 0) →
      (VectorDirection v = UP ∨ VectorDirection v = RIGHT ∨ VectorDirection v = DOWN ∨
        VectorDirection v = LEFT) := by
    intro v hv
    rw [vectorDirection_eq_raw]
    rcases vectorDirectionRaw_cases v with h | h | h | h | h
    · exact Or.inl h.1
    · exact Or.inr (Or.inl h.1)
    · exact Or.inr (Or.inr (Or.inl h.1))
    · exact Or.inr (Or.inr (Or.inr h.1))
    · rcases hv with hv | hv
      · exact absurd h.2.1 hv
      · exact absurd h.2.2 hv
  have hlt : ∀ v : Vec2, (v.x ≠ 0 ∨ v.y ≠ 0) → VectorDirection v < 4 := by
    intro v hv
    rcases hdir v hv with h | h | h | h <;> rw [h] <;> decide
  refine ⟨?_, ?_, hzero, by norm_num, ?_⟩
  · intro v hv
    refine ⟨?_, hlt v hv, hdir v hv⟩
    obtain ⟨k, hk, hx, hy⟩ := normalize_sign v hv
    have c0 : compassDot v 0 = v.y * k := by simp [compassDot, compass, Vec2.dot, hy]
    have c1 : compassDot v 1 = v.x * k := by simp [compassDot, compass, Vec2.dot, hx]
    have c2 : compassDot v 2 = -(v.y * k) := by simp [compassDot, compass, Vec2.dot, hy]
    have c3 : compassDot v 3 = -(v.x * k) := by simp [compassDot, compass, Vec2.dot, hx]
    rcases hv with hv | hv
    · rcases lt_or_gt_of_ne hv with h | h
      · exact ⟨3, by norm_num, by rw [c3]; nlinarith⟩
      · exact ⟨1, by norm_num, by rw [c1]; nlinarith⟩
    · rcases lt_or_gt_of_ne hv with h | h
      · exact ⟨2, by norm_num, by rw [c2]; nlinarith⟩
      · exact ⟨0, by norm_num, by rw [c0]; nlinarith⟩
  · intro j
    simp [compassDot, Vec2.normalize, Vec2.scale, Vec2.dot]
  · intro v
    constructor
    · intro h
      by_contra hne
      have hv : v.x ≠ 0 ∨ v.y ≠ 0 := by
        by_contra hno
        push_neg at hno
        exact hne (Vec2.ext hno.1 hno.2)
      have := hlt v hv
      rw [h] at this
      norm_num at this
    · intro h
      rw [h]
      exact hzero

/-- C30: from `GAME_WIN` with ENTER down, after any number `n >= 1` of
consecutive `ProcessInput` calls without key events in between (any frame
times), the state is `GAME_MENU`, not `GAME_ACTIVE`, and ENTER is marked as
processed, whatever `KeysProcessed[ENTER]` was at the start: the first call
leaves `GAME_WIN` by the WIN block, which marks ENTER, and the MENU block of
the later calls does not act on a processed ENTER. -/
theorem c30_win_confirm_no_restart (cfg : Config) (g : Game) (dt : ℝ) (dts : List ℝ)
    (hwin : g.State = GameState.GAME_WIN) (hk : g.Keys GLFW_KEY_ENTER = true) :
    (inputRun cfg g (dt :: dts)).State = GameState.GAME_MENU ∧
    (inputRun cfg g (dt :: dts)).State ≠ GameState.GAME_ACTIVE ∧
    (inputRun cfg g (dt :: dts)).KeysProcessed GLFW_KEY_ENTER = true ∧
    (inputRun cfg g (dt :: dts)).Keys GLFW_KEY_ENTER = true ∧
    (ProcessInput cfg g dt).State = GameState.GAME_MENU ∧
    (ProcessInput cfg g dt).KeysProcessed GLFW_KEY_ENTER = true := by
  obtain ⟨a, b, c⟩ := processInput_win_enter cfg g dt hwin hk
  have e : inputRun cfg g (dt :: dts) = inputRun cfg (ProcessInput cfg g dt) dts := rfl
  obtain ⟨s1, s2⟩ := inputRun_menu_stays cfg dts (ProcessInput cfg g dt) a b
  have hkeys : ∀ (l : List ℝ) (x : Game), (inputRun cfg x l).Keys = x.Keys := by
    intro l
    induction l with
    | nil => intro x; rfl
    | cons d rest ih =>
      intro x
      have e2 : inputRun cfg x (d :: rest) = inputRun cfg (ProcessInput cfg x d) rest := rfl
      rw [e2, ih, (processInput_keys cfg x d).1]
  rw [e]
  refine ⟨s1, ?_, s2, ?_, a, b⟩
  · rw [s1]; simp
  · rw [hkeys, c]; exact hk

/-- C30 on the won game of the concrete configuration, where ENTER is down and
not yet marked as processed: three `ProcessInput` calls end in the menu. -/
theorem c30_win_confirm_no_restart_witness :
    demoWon.KeysProcessed GLFW_KEY_ENTER = false ∧
    (inputRun demoConfig demoWon [0, 0, 0]).State = GameState.GAME_MENU ∧
    (inputRun demoConfig demoWon [0, 0, 0]).State ≠ GameState.GAME_ACTIVE :=
  ⟨rfl,
    (c30_win_confirm_no_restart demoConfig demoWon 0 [0, 0] rfl (by simp [demoWon, setKey])).1,
    (c30_win_confirm_no_restart demoConfig demoWon 0 [0, 0] rfl (by simp [demoWon, setKey])).2.1⟩

/-- C5: the paddle phase of `DoCollisions` on the ball of `demoFallingHit`, not
stuck, with velocity (100, 350), hitting the paddle 10 to the right of its
centre.  The phase aims the ball along (40, 350); the normalised vector scaled
by the old length has the length of the incoming velocity and a vertical part
between 361 and 362; the unqualified `abs` truncates it to 361, so the velocity
after the phase has vertical part -361 and is strictly shorter than the
incoming velocity: the speed is not preserved.  In general, for a ball that is
not stuck and hits, with a vector to normalise that is not zero and a vertical
part within the range of `int`, the scaled velocity has the incoming speed and
the velocity after the phase is not faster. -/
theorem c5_speed_lost_by_truncation :
    demoFallingHit.Ball.Stuck = false ∧
    (CheckCollisionBall demoFallingHit.Ball demoFallingHit.Player).1 = true ∧
    demoFallingHit.Ball.Velocity = ⟨100, 350⟩ ∧
    paddleAimed demoConfig demoFallingHit.Ball demoFallingHit.Player = ⟨40, 350⟩ ∧
    Vec2.length (paddleScaled demoConfig demoFallingHit.Ball demoFallingHit.Player) =
      Vec2.length demoFallingHit.Ball.Velocity ∧
    361 < (paddleScaled demoConfig demoFallingHit.Ball demoFallingHit.Player).y ∧
    (paddleScaled demoConfig demoFallingHit.Ball demoFallingHit.Player).y < 362 ∧
    (DoCollisionsPaddle demoConfig demoFallingHit).Ball.Velocity =
      ⟨(paddleScaled demoConfig demoFallingHit.Ball demoFallingHit.Player).x, -361⟩ ∧
    Vec2.length (DoCollisionsPaddle demoConfig demoFallingHit).Ball.Velocity <
      Vec2.length demoFallingHit.Ball.Velocity ∧
    (∀ (cfg : Config) (g : Game), g.Ball.Stuck = false →
      (CheckCollisionBall g.Ball g.Player).1 = true →
      ((paddleAimed cfg g.Ball g.Player).x ≠ 0 ∨ (paddleAimed cfg g.Ball g.Player).y ≠ 0) →
      |(paddleScaled cfg g.Ball g.Player).y| < 2 ^ 31 →
      Vec2.length (paddleScaled cfg g.Ball g.Player) = Vec2.length g.Ball.Velocity ∧
      Vec2.length (DoCollisionsPaddle cfg g).Ball.Velocity ≤ Vec2.length g.Ball.Velocity) := by
  have hhit : (CheckCollisionBall demoFallingHit.Ball demoFallingHit.Player).1 = true :=
    demo_hit 410 ⟨100, 350⟩ (by norm_num) (by norm_num)
  have haim : paddleAimed demoConfig demoFallingHit.Ball demoFallingHit.Player = ⟨40, 350⟩ := by
    norm_num [paddleAimed, paddlePercentage, demoFallingHit, demoBallAt, demoGame, Game.Init,
      demoConfig, BallObject.new, GameObject.new]
  have hu : (paddleAimed demoConfig demoFallingHit.Ball demoFallingHit.Player).x ≠ 0 ∨
      (paddleAimed demoConfig demoFallingHit.Ball demoFallingHit.Player).y ≠ 0 := by
    rw [haim]; left; norm_num
  have hlen := (paddleVelocity_length_le demoConfig demoFallingHit.Ball demoFallingHit.Player hu).1
  obtain ⟨hlo, hhi⟩ := scaled_between
  rw [← demo_scaled.1] at hlo hhi
  have hfloor : floatToInt (paddleScaled demoConfig demoFallingHit.Ball demoFallingHit.Player).y
      = 361 := by
    unfold floatToInt
    rw [if_pos (by linarith), Int.floor_eq_iff]
    constructor
    · push_cast; linarith
    · push_cast; linarith
  have hvel : (DoCollisionsPaddle demoConfig demoFallingHit).Ball.Velocity =
      ⟨(paddleScaled demoConfig demoFallingHit.Ball demoFallingHit.Player).x, -361⟩ := by
    rw [doCollisionsPaddle_velocity demoConfig demoFallingHit rfl hhit]
    simp only [paddleVelocity, absInt, hfloor]
    norm_num
  refine ⟨rfl, hhit, rfl, haim, hlen, hlo, hhi, hvel, ?_, ?_⟩
  · rw [hvel, ← hlen]
    unfold Vec2.length
    apply Real.sqrt_lt_sqrt
    · unfold Vec2.dot
      nlinarith [mul_self_nonneg
        (paddleScaled demoConfig demoFallingHit.Ball demoFallingHit.Player).x]
    · simp only [Vec2.dot]
      nlinarith
  · intro cfg g hs hh hne _
    rw [doCollisionsPaddle_velocity cfg g hs hh]
    exact paddleVelocity_length_le cfg g.Ball g.Player hne

end Breakout

end
